import Mathlib

/-!
# Budget approval and cost reconciliation triggers

A shallow embedding of `src/triggers.js` (the Forge triggers `automationHandler`,
`resolutionHandler` and the helper `calculateAndUpdateCosts`), together with the
client record that the `saveCustomer` action of `src/index.js` builds from the
customer form of `static/hello-world/src/App.js`.

Modelling conventions.

* JavaScript numbers are exact rationals extended with `NaN`, `+Infinity` and
  `-Infinity`.  Binary rounding of IEEE doubles, overflow and negative zero are
  not represented, with one exception: the penalty fraction written by
  `updateJiraFields` (`finalPercentage`) is rounded to binary64, because its
  decimal digits are the subject of a claim.
* JavaScript values that can sit in a ticket field or in a stored client record
  are `undefined`, `null`, booleans, numbers, strings and plain objects carried
  opaquely.
* The handlers are asynchronous procedures over Jira and the Forge key-value
  store.  They are embedded as functions on an explicit `World`, which also
  records the ordered list of outward effects.
* Jira and the store answer every request with well-formed data.  A ticket
  field that refuses a write is the only failing request represented, and a
  breached SLA cycle without `remainingTime` is the only exception raised.
* Upper-casing, date parsing, the time zone and the default page size of a
  store query belong to the platform and are parameters (`Runtime`); the
  scenarios instantiate them with `utcRuntime`, and with `mexicoCityRuntime`
  for a local time behind UTC.
-/

namespace Forge

/-! ## Numbers -/

/-- A JavaScript number: `NaN`, a finite value, or one of the two infinities. -/
inductive JSNum where
  | nan
  | fin (q : ℚ)
  | posInf
  | negInf
  deriving DecidableEq

namespace JSNum

/-- Unary minus. -/
def neg : JSNum → JSNum
  | nan => nan
  | fin q => fin (-q)
  | posInf => negInf
  | negInf => posInf

/-- The `+` operator on numbers. -/
def add : JSNum → JSNum → JSNum
  | fin a, fin b => fin (a + b)
  | nan, _ => nan
  | _, nan => nan
  | posInf, negInf => nan
  | negInf, posInf => nan
  | posInf, _ => posInf
  | negInf, _ => negInf
  | fin _, posInf => posInf
  | fin _, negInf => negInf

/-- The binary `-` operator on numbers. -/
def sub (a b : JSNum) : JSNum := add a (neg b)

/-- The infinity carrying the sign of a non-zero rational. -/
def infOfSign (q : ℚ) : JSNum :=
  if q = 0 then nan else if 0 < q then posInf else negInf

/-- The `*` operator on numbers, as the exact product.  Where the digits of a
product are reported (`finalPercentage`) it is rounded with `JSNum.binary64`. -/
def mul : JSNum → JSNum → JSNum
  | fin a, fin b => fin (a * b)
  | nan, _ => nan
  | _, nan => nan
  | fin a, posInf => infOfSign a
  | fin a, negInf => infOfSign (-a)
  | posInf, fin b => infOfSign b
  | negInf, fin b => infOfSign (-b)
  | posInf, posInf => posInf
  | negInf, negInf => posInf
  | posInf, negInf => negInf
  | negInf, posInf => negInf

/-- The `/` operator on numbers (a zero divisor is read as positive zero). -/
def div : JSNum → JSNum → JSNum
  | fin a, fin b => if b = 0 then infOfSign a else fin (a / b)
  | nan, _ => nan
  | _, nan => nan
  | fin _, posInf => fin 0
  | fin _, negInf => fin 0
  | posInf, fin b => if 0 ≤ b then posInf else negInf
  | negInf, fin b => if 0 ≤ b then negInf else posInf
  | posInf, posInf => nan
  | posInf, negInf => nan
  | negInf, posInf => nan
  | negInf, negInf => nan

/-- The `<` operator on numbers. -/
def lt : JSNum → JSNum → Bool
  | fin a, fin b => decide (a < b)
  | nan, _ => false
  | _, nan => false
  | negInf, negInf => false
  | negInf, _ => true
  | posInf, _ => false
  | fin _, posInf => true
  | fin _, negInf => false

/-- The `>` operator on numbers. -/
def gt (a b : JSNum) : Bool := lt b a

/-- The `<=` operator on numbers. -/
def le : JSNum → JSNum → Bool
  | fin a, fin b => decide (a ≤ b)
  | nan, _ => false
  | _, nan => false
  | negInf, _ => true
  | posInf, posInf => true
  | posInf, _ => false
  | fin _, posInf => true
  | fin _, negInf => false

/-- ToBoolean on a number: `NaN` and zero are falsy. -/
def truthy : JSNum → Bool
  | fin q => decide (q ≠ 0)
  | nan => false
  | posInf => true
  | negInf => true

/-- The value of `Math.abs`. -/
def abs : JSNum → JSNum
  | fin q => fin |q|
  | nan => nan
  | posInf => posInf
  | negInf => posInf

/-- The value of `Math.ceil`. -/
def ceil : JSNum → JSNum
  | fin q => fin (⌈q⌉ : ℤ)
  | nan => nan
  | posInf => posInf
  | negInf => negInf

/-- The expression `x || 0` for a number `x`. -/
def orZero (x : JSNum) : JSNum := if x.truthy then x else fin 0

/-- The number read back by `parseFloat(x.toFixed(2))`: a finite `x` of magnitude
below `10^21` is rounded to the nearest multiple of `1/100`, ties away from zero;
every other number is printed in full and read back unchanged. -/
def toFixed2 : JSNum → JSNum
  | fin q =>
    if (10 : ℚ) ^ 21 ≤ |q| then fin q
    else if q < 0 then fin (-((⌊(-q) * 100 + 1 / 2⌋ : ℤ) : ℚ) / 100)
    else fin (((⌊q * 100 + 1 / 2⌋ : ℤ) : ℚ) / 100)
  | nan => nan
  | posInf => posInf
  | negInf => negInf

end JSNum

/-! ## Binary64 rounding -/

/-- Rounding of a rational to the nearest integer, ties to the even one. -/
def roundHalfEven (x : ℚ) : ℤ :=
  if x - ⌊x⌋ < 1 / 2 then ⌊x⌋
  else if 1 / 2 < x - ⌊x⌋ then ⌊x⌋ + 1
  else if ⌊x⌋ % 2 = 0 then ⌊x⌋ else ⌊x⌋ + 1

/-- The exponent of the unit in the last place of the binary64 numbers around a
positive rational: 53 significant bits, and `2^-1074` as the smallest unit. -/
def binary64Exponent (a : ℚ) : ℤ := max (Int.log 2 a - 52) (-1074)

/-- The binary64 number nearest to a rational (ties to even, overflow to an
infinity). -/
def toBinary64 (q : ℚ) : JSNum :=
  if q = 0 then JSNum.fin 0
  else if (2 : ℚ) ^ 1024 ≤
      (roundHalfEven (|q| / (2 : ℚ) ^ binary64Exponent |q|) : ℚ) * (2 : ℚ) ^ binary64Exponent |q|
    then (if q < 0 then JSNum.negInf else JSNum.posInf)
  else if q < 0 then
    JSNum.fin (-((roundHalfEven (|q| / (2 : ℚ) ^ binary64Exponent |q|) : ℚ)
      * (2 : ℚ) ^ binary64Exponent |q|))
  else
    JSNum.fin ((roundHalfEven (|q| / (2 : ℚ) ^ binary64Exponent |q|) : ℚ)
      * (2 : ℚ) ^ binary64Exponent |q|)

/-- A number as held in a binary64 variable. -/
def JSNum.binary64 : JSNum → JSNum
  | JSNum.fin q => toBinary64 q
  | n => n

/-! ## Values -/

/-- A JavaScript value as found in a ticket field or in a stored client record.
An `obj` is a plain (non-array) object whose contents are not inspected. -/
inductive JSVal where
  | undefined
  | null
  | bool (b : Bool)
  | num (n : JSNum)
  | str (s : String)
  | obj (tag : String)
  deriving DecidableEq

/-- White space skipped by `parseFloat` before the numeric literal. -/
def isStrWhiteSpace (c : Char) : Bool :=
  let n := c.toNat
  n = 9 || n = 10 || n = 11 || n = 12 || n = 13 || n = 32 || n = 160 || n = 0x1680
    || (0x2000 ≤ n && n ≤ 0x200A) || n = 0x2028 || n = 0x2029 || n = 0x202F
    || n = 0x205F || n = 0x3000 || n = 0xFEFF

/-- The value of a string of decimal digits. -/
def digitsValue (ds : List Char) : ℕ :=
  ds.foldl (fun acc c => 10 * acc + (c.toNat - 48)) 0

/-- The exponent announced at the head of `cs` (`e` or `E`, an optional sign,
at least one digit); `0` when no well-formed exponent part is there. -/
def parseExponent (cs : List Char) : ℤ :=
  match cs with
  | [] => 0
  | c :: rest =>
    if c = 'e' ∨ c = 'E' then
      match rest with
      | '-' :: r =>
        if (r.takeWhile Char.isDigit).isEmpty then 0
        else -((digitsValue (r.takeWhile Char.isDigit) : ℕ) : ℤ)
      | '+' :: r => ((digitsValue (r.takeWhile Char.isDigit) : ℕ) : ℤ)
      | r => ((digitsValue (r.takeWhile Char.isDigit) : ℕ) : ℤ)
    else 0

/-- The longest unsigned decimal literal at the head of `cs`: digits, an
optional fraction, an optional exponent.  At least one digit is required. -/
def parseUnsignedDecimal (cs : List Char) : Option ℚ :=
  let ip := cs.takeWhile Char.isDigit
  let r1 := cs.dropWhile Char.isDigit
  let fp := match r1 with
    | '.' :: r => r.takeWhile Char.isDigit
    | _ => []
  let r2 := match r1 with
    | '.' :: r => r.dropWhile Char.isDigit
    | _ => r1
  if ip.isEmpty && fp.isEmpty then none
  else some (((digitsValue ip : ℚ) + (digitsValue fp : ℚ) / (10 : ℚ) ^ fp.length)
    * (10 : ℚ) ^ parseExponent r2)

/-- The magnitude read by `parseFloat` after white space and sign. -/
def parseMagnitude (body : List Char) : JSNum :=
  if "Infinity".toList.isPrefixOf body then JSNum.posInf
  else match parseUnsignedDecimal body with
    | some q => JSNum.fin q
    | none => JSNum.nan

/-- The function `parseFloat` on the characters of a string. -/
def parseFloatChars (cs : List Char) : JSNum :=
  match cs.dropWhile isStrWhiteSpace with
  | '-' :: r => (parseMagnitude r).neg
  | '+' :: r => parseMagnitude r
  | r => parseMagnitude r

/-- The function `parseFloat`.  A number is printed and read back unchanged; the
printed forms of `undefined`, `null`, booleans and plain objects start with no
numeric literal. -/
def parseFloat : JSVal → JSNum
  | JSVal.num n => n
  | JSVal.str s => parseFloatChars s.toList
  | _ => JSNum.nan

/-- ToBoolean. -/
def JSVal.truthy : JSVal → Bool
  | JSVal.undefined => false
  | JSVal.null => false
  | JSVal.bool b => b
  | JSVal.num n => n.truthy
  | JSVal.str s => decide (s ≠ "")
  | JSVal.obj _ => true

/-- The operator `===` between two values obtained from different responses:
numbers compare numerically (`NaN` equals nothing), plain objects are never the
same object. -/
def JSVal.strictEq : JSVal → JSVal → Bool
  | JSVal.undefined, JSVal.undefined => true
  | JSVal.null, JSVal.null => true
  | JSVal.bool a, JSVal.bool b => decide (a = b)
  | JSVal.num (JSNum.fin a), JSVal.num (JSNum.fin b) => decide (a = b)
  | JSVal.num JSNum.posInf, JSVal.num JSNum.posInf => true
  | JSVal.num JSNum.negInf, JSVal.num JSNum.negInf => true
  | JSVal.str a, JSVal.str b => decide (a = b)
  | _, _ => false

/-- The JSON rendering of a number inside a request body: `JSON.stringify`
prints `NaN` and the infinities as `null`. -/
def jsonNumber : JSNum → JSVal
  | JSNum.fin q => JSVal.num (JSNum.fin q)
  | _ => JSVal.null

/-- The method `String.prototype.includes` on character lists. -/
def includesChars : List Char → List Char → Bool
  | [], sub => sub.isEmpty
  | c :: rest, sub => sub.isPrefixOf (c :: rest) || includesChars rest sub

/-! ## Objects -/

/-- A JavaScript object as the ordered list of its properties. -/
abbrev JSObj := List (String × JSVal)

/-- Property read `o[k]`; a missing property reads as `undefined`. -/
def getProp : JSObj → String → JSVal
  | [], _ => JSVal.undefined
  | (k1, v1) :: rest, k => if k1 = k then v1 else getProp rest k

/-- The object `{...o, [k]: v}`: the property keeps its place when it exists
and is appended otherwise. -/
def setProp : JSObj → String → JSVal → JSObj
  | [], k, v => [(k, v)]
  | (k1, v1) :: rest, k, v =>
    if k1 = k then (k, v) :: rest else (k1, v1) :: setProp rest k v

/-! ## The platform: Jira, the key-value store, the runtime -/

/-- An entry of the organizations field `customfield_10002`. -/
structure Organization where
  id : JSVal
  name : String

/-- The ticket returned by `GET /rest/api/3/issue/{id}`.  `fields` holds the
custom fields by identifier; `organizations` is `fields.customfield_10002`
(`none` when null or absent); `resolution` is `fields.resolution?.name`
(`none` when the ticket has no resolution). -/
structure Issue where
  fields : JSObj
  organizations : Option (List Organization)
  resolution : Option String

/-- A workflow transition offered by `GET .../transitions`. -/
structure Transition where
  id : String
  name : String

/-- The `ongoingCycle` of an SLA: `breached` is true exactly when the property
is the boolean `true`; `remainingMillis` is `remainingTime.millis`, `none` when
`remainingTime` is missing (reading `.millis` then throws). -/
structure SlaCycle where
  breached : Bool
  remainingMillis : Option JSNum

/-- An element of the `values` array returned by the SLA endpoint. -/
structure SlaEntry where
  name : String
  ongoingCycle : Option SlaCycle

/-- The environment variables naming the custom fields. -/
structure Env where
  ASSET_FIELD_ID : String
  COSTOE_FIELD_ID : String
  COSTOT_FIELD_ID : String
  COSTOA_FIELD_ID : String
  PERCENTAGE_FIELD_ID : String

/-- Library behaviour the handlers rely on and the repository does not define:
`String.prototype.toUpperCase`, the time value of `new Date(v)` (`NaN` for an
invalid date), the offset of local time from UTC in milliseconds, and the page
size of a key-value query issued without `.limit`. -/
structure Runtime where
  toUpperCase : String → String
  dateValue : JSVal → JSNum
  tzOffsetMillis : ℤ
  defaultLimit : ℕ

/-- An outward effect of a handler, in the order performed. -/
inductive Effect where
  | manualApproval (reason : String)
  | transition (id : String)
  | fieldPut (field : String) (value : JSVal)
  | kvsSet (key : String) (value : JSObj)
  deriving DecidableEq

/-- Everything a handler can observe or change: the ticket of the event, its
available transitions, the SLA response (`values`, `none` when absent), the
key-value store in enumeration order, which ticket fields accept a write, the
clock in milliseconds since the epoch, and the effects performed so far. -/
structure World where
  issue : Issue
  transitions : List Transition
  sla : Option (List SlaEntry)
  store : List (String × JSObj)
  writable : String → Bool
  now : ℤ
  trace : List Effect

/-- Append an effect to the trace. -/
def World.emit (w : World) (e : Effect) : World :=
  { w with trace := w.trace ++ [e] }

/-- The request `kvs.query().where(key beginsWith cliente-).limit(n).getMany()`. -/
def kvsQuery (store : List (String × JSObj)) (limit : ℕ) : List (String × JSObj) :=
  (store.filter (fun item => "cliente-".toList.isPrefixOf item.1.toList)).take limit

/-- Overwrite the value stored under a key of the store (append when new). -/
def storeSet : List (String × JSObj) → String → JSObj → List (String × JSObj)
  | [], k, v => [(k, v)]
  | (k1, v1) :: rest, k, v =>
    if k1 = k then (k, v) :: rest else (k1, v1) :: storeSet rest k v

/-- The call `kvs.set(key, value)`. -/
def kvsSet (w : World) (key : String) (value : JSObj) : World :=
  { w.emit (Effect.kvsSet key value) with store := storeSet w.store key value }

/-- A `PUT /rest/api/3/issue/{id}` that sets one field to a number.  The ticket
changes only when the field accepts the write. -/
def putField (w : World) (field : String) (n : JSNum) : World :=
  let w1 := w.emit (Effect.fieldPut field (jsonNumber n))
  if w.writable field then
    { w1 with issue := { w1.issue with fields := setProp w1.issue.fields field (jsonNumber n) } }
  else w1

/-- The callback of `results.find`: the stored record belongs to the
organization. -/
def matchesOrganization (organization : Organization) (item : String × JSObj) : Bool :=
  (getProp item.2 "organizationId").strictEq organization.id

/-- The local midnight of the current day: `new Date()` followed by
`setHours(0, 0, 0, 0)`, for a fixed offset from UTC. -/
def hoyMillis (rt : Runtime) (w : World) : ℤ :=
  ((w.now + rt.tzOffsetMillis) / 86400000) * 86400000 - rt.tzOffsetMillis

/-- The date object `hoy` of `automationHandler`, as a time value. -/
def hoy (rt : Runtime) (w : World) : JSNum := JSNum.fin (hoyMillis rt w : ℚ)

/-! ## The triggers -/

/-- Reason given when no initial cost can be read. -/
def reasonNoCost : String :=
  "No se pudo determinar un costo inicial (ni de activo ni manual)."

/-- Reason given when the ticket carries no organization. -/
def reasonNoOrganization : String := "Falta la organización en el ticket."

/-- Reason given when no client record with a budget is found. -/
def reasonNoBudget (organization : Organization) : String :=
  "No se encontró un presupuesto registrado para la organización \"" ++ organization.name
    ++ "\"."

/-- Reason given when the workflow offers no transition named as the decision. -/
def reasonNoTransition (decision : String) : String :=
  "No se encontró la transición final \"" ++ decision ++ "\"."

/-- The function `moveToManualApproval`: post the transition whose upper-cased
name is APROBACIÓN MANUAL, when the workflow offers one. -/
def moveToManualApproval (rt : Runtime) (w : World) (reason : String) : World :=
  let w1 := w.emit (Effect.manualApproval reason)
  match w1.transitions.find? (fun t => decide (rt.toUpperCase t.name = "APROBACIÓN MANUAL")) with
  | some manualTransition => w1.emit (Effect.transition manualTransition.id)
  | none => w1

/-- The value returned by `getPrioritizedInitialCost` when it is not `null`. -/
structure CostResult where
  cost : JSNum
  source : String

/-- The function `getPrioritizedInitialCost`. -/
def getPrioritizedInitialCost (env : Env) (issue : Issue) : Option CostResult :=
  let initialCost := parseFloat (getProp issue.fields env.COSTOE_FIELD_ID)
  if initialCost.truthy then some { cost := initialCost, source := "initial" } else none

/-- Step 3 of `automationHandler` (the variable `decision`): the validity window
first, then the budget. -/
def decision (hoy fechaInicio fechaFin costoEstimado : JSNum) (presupuesto : JSVal) : String :=
  if hoy.lt fechaInicio || hoy.gt fechaFin then "Auto Rechazo"
  else if (parseFloat (JSVal.num costoEstimado)).le (parseFloat presupuesto) then "Auto Aprobación"
  else "Auto Rechazo"

/-- Step 4 of `automationHandler`: post the transition named as the decision,
or fall back to manual approval. -/
def executeDecision (rt : Runtime) (w : World) (decision : String) : World :=
  match w.transitions.find?
      (fun t => decide (rt.toUpperCase t.name = rt.toUpperCase decision)) with
  | some targetTransition => w.emit (Effect.transition targetTransition.id)
  | none => moveToManualApproval rt w (reasonNoTransition decision)

/-- The trigger `automationHandler`, for an event whose ticket has the given
status name.  The status tested is EN REVISIÓN, as in the code; the comment
above the function and its first log line name EN AUTOMATIZACIÓN instead. -/
def automationHandler (rt : Runtime) (env : Env) (statusName : String) (w : World) : World :=
  if rt.toUpperCase statusName ≠ "EN REVISIÓN" then w
  else
    let issue := w.issue
    match getPrioritizedInitialCost env issue with
    | none => moveToManualApproval rt w reasonNoCost
    | some costResult =>
      let costoEstimado := costResult.cost
      let w1 :=
        if costResult.source = "asset" ∧
            (JSVal.num (parseFloat (getProp issue.fields env.COSTOE_FIELD_ID))).strictEq
              (JSVal.num costoEstimado) = false then
          putField w env.COSTOE_FIELD_ID costoEstimado
        else w
      match issue.organizations with
      | none => moveToManualApproval rt w1 reasonNoOrganization
      | some [] => moveToManualApproval rt w1 reasonNoOrganization
      | some (organization :: _) =>
        match (kvsQuery w1.store 100).find? (matchesOrganization organization) with
        | none => moveToManualApproval rt w1 (reasonNoBudget organization)
        | some clienteEncontrado =>
          let presupuesto := getProp clienteEncontrado.2 "presupuesto"
          if presupuesto = JSVal.null ∨ presupuesto = JSVal.undefined then
            moveToManualApproval rt w1 (reasonNoBudget organization)
          else
            let fechaInicio := rt.dateValue (getProp clienteEncontrado.2 "vigenciaInicio")
            let fechaFin := rt.dateValue (getProp clienteEncontrado.2 "vigenciaFin")
            executeDecision rt w1
              (decision (hoy rt w1) fechaInicio fechaFin costoEstimado presupuesto)

/-- The local `finalPercentage` of `updateJiraFields`, the expression
`parseFloat(percentage.toFixed(2)) * 0.01`.  The decimal digits of this value
are what is reported, so binary64 rounding is kept here: the number read back
from the printed percentage, the literal `0.01` and their product are each the
nearest binary64 number. -/
def finalPercentage (percentage : JSNum) : JSNum :=
  ((percentage.toFixed2).binary64.mul (JSNum.fin (1 / 100)).binary64).binary64

/-- The function `updateJiraFields`: two independent field writes.  The total
cost is the decimal that `toFixed(2)` prints; the binary64 number read back
from it is the one nearest to that decimal, and stands for it. -/
def updateJiraFields (env : Env) (w : World) (percentage totalCost : JSNum) : World :=
  let finalTotalCost := totalCost.toFixed2
  putField (putField w env.PERCENTAGE_FIELD_ID (finalPercentage percentage))
    env.COSTOT_FIELD_ID finalTotalCost

/-- The local `breachTimeHours` of `calculateAndUpdateCosts`. -/
def breachTimeHours (millis : JSNum) : JSNum :=
  (millis.abs.div (JSNum.fin (1000 * 60 * 60))).ceil

/-- The local `totalPenaltyPercentage` of a breached SLA. -/
def totalPenaltyPercentage (penaltyPercentagePerHour millis : JSNum) : JSNum :=
  (breachTimeHours millis).mul penaltyPercentagePerHour

/-- The local `costoTotalFinal` of a breached SLA. -/
def costoTotalFinal (costoBase penaltyPercentagePerHour millis : JSNum) : JSNum :=
  costoBase.sub
    (costoBase.mul ((totalPenaltyPercentage penaltyPercentagePerHour millis).div (JSNum.fin 100)))

/-- The local `costoBase` of `calculateAndUpdateCosts`. -/
def costoBase (env : Env) (issue : Issue) : JSNum :=
  (parseFloat (getProp issue.fields env.COSTOE_FIELD_ID)).orZero.add
    (parseFloat (getProp issue.fields env.COSTOA_FIELD_ID)).orZero

/-- The local `resolutionSla?.ongoingCycle` of `calculateAndUpdateCosts`. -/
def resolutionCycle (w : World) : Option SlaCycle :=
  (w.sla.bind (fun values =>
    values.find? (fun sla => includesChars sla.name.toList "Time to resolution".toList))).bind
    (fun sla => sla.ongoingCycle)

/-- The function `calculateAndUpdateCosts`: the returned cost (`none` for `null`)
and the world it leaves. -/
def calculateAndUpdateCosts (rt : Runtime) (env : Env) (w : World) : Option JSNum × World :=
  let issue := w.issue
  match issue.organizations with
  | none => (none, w)
  | some [] => (none, w)
  | some (organization :: _) =>
    let base := costoBase env issue
    match (kvsQuery w.store rt.defaultLimit).find? (matchesOrganization organization) with
    | none => (some base, updateJiraFields env w (JSNum.fin 0) base)
    | some clienteEncontrado =>
      if (getProp clienteEncontrado.2 "slaPenaltyPercentage").truthy = false then
        (some base, updateJiraFields env w (JSNum.fin 0) base)
      else
        let penaltyPercentagePerHour :=
          parseFloat (getProp clienteEncontrado.2 "slaPenaltyPercentage")
        match resolutionCycle w with
        | none => (some base, updateJiraFields env w (JSNum.fin 0) base)
        | some cycle =>
          if cycle.breached then
            match cycle.remainingMillis with
            | none => (none, w)
            | some millis =>
              (some (costoTotalFinal base penaltyPercentagePerHour millis),
                updateJiraFields env w (totalPenaltyPercentage penaltyPercentagePerHour millis)
                  (costoTotalFinal base penaltyPercentagePerHour millis))
          else (some base, updateJiraFields env w (JSNum.fin 0) base)

/-- Step 5 of `resolutionHandler` (the inner `costoFinalADescontar`): the total
cost when truthy and positive, else the estimated cost when truthy, else
nothing. -/
def chooseFinalCost (costoEstimado costoTotal : JSNum) : Option JSNum :=
  if costoTotal.truthy && costoTotal.gt (JSNum.fin 0) then some costoTotal
  else if costoEstimado.truthy then some costoEstimado
  else none

/-- Steps 6 and 7 of `resolutionHandler`: find the client of the first
organization and save its record with the budget lowered by the cost. -/
def debitBudget (rt : Runtime) (w : World) (costoFinalADescontar : JSNum) : World :=
  match w.issue.organizations with
  | none => w
  | some [] => w
  | some (organization :: _) =>
    match (kvsQuery w.store rt.defaultLimit).find? (matchesOrganization organization) with
    | none => w
    | some clienteEncontrado =>
      let presupuesto := getProp clienteEncontrado.2 "presupuesto"
      if presupuesto = JSVal.null ∨ presupuesto = JSVal.undefined then w
      else
        let presupuestoActual := parseFloat presupuesto
        let nuevoPresupuesto := presupuestoActual.sub costoFinalADescontar
        kvsSet w clienteEncontrado.1
          (setProp clienteEncontrado.2 "presupuesto" (JSVal.num nuevoPresupuesto))

/-- The trigger `resolutionHandler`, for an event whose ticket has the given
status name.  The cost returned by `calculateAndUpdateCosts` is bound to an
outer constant that the body shadows and never reads.  That call comes before
the status test which the code comments as its first step, so the two cost
fields are written for a ticket in any status. -/
def resolutionHandler (rt : Runtime) (env : Env) (statusName : String) (w : World) : World :=
  let newStatus := rt.toUpperCase statusName
  let w1 := (calculateAndUpdateCosts rt env w).2
  if newStatus ≠ "RESUELTO" ∧ newStatus ≠ "COMPLETADO" then w1
  else
    let issue := w1.issue
    if issue.resolution.map rt.toUpperCase ≠ some "DONE" then w1
    else
      let costoEstimado := parseFloat (getProp issue.fields env.COSTOE_FIELD_ID)
      let costoTotal := parseFloat (getProp issue.fields env.COSTOT_FIELD_ID)
      match chooseFinalCost costoEstimado costoTotal with
      | none => w1
      | some costoFinalADescontar => debitBudget rt w1 costoFinalADescontar

/-- The saves (`kvs.set` calls) recorded in a trace, in order. -/
def kvsSets (trace : List Effect) : List (String × JSObj) :=
  trace.filterMap (fun e =>
    match e with
    | Effect.kvsSet key value => some (key, value)
    | _ => none)

/-! ## A concrete runtime for scenarios -/

/-- Upper-casing of one character of the Basic Latin and Latin-1 blocks. -/
def upperChar (c : Char) : List Char :=
  let n := c.toNat
  if (97 ≤ n ∧ n ≤ 122) ∨ (224 ≤ n ∧ n ≤ 254 ∧ n ≠ 247) then [Char.ofNat (n - 32)]
  else if n = 223 then ['S', 'S']
  else if n = 255 then [Char.ofNat 376]
  else if n = 181 then [Char.ofNat 924]
  else [c]

/-- The method `toUpperCase` on strings of Basic Latin and Latin-1 characters. -/
def latin1UpperCase (s : String) : String :=
  String.mk ((s.toList.map upperChar).flatten)

/-- Days between 1970-01-01 and a date of the proleptic Gregorian calendar. -/
def daysFromCivil (y m d : ℤ) : ℤ :=
  let y1 := if m ≤ 2 then y - 1 else y
  let era := y1 / 400
  let yoe := y1 - era * 400
  let mp := if 2 < m then m - 3 else m + 9
  let doy := (153 * mp + 2) / 5 + d - 1
  let doe := yoe * 365 + yoe / 4 - yoe / 100 + doy
  era * 146097 + doe - 719468

/-- The time value of `new Date(v)` for a calendar date written `YYYY-MM-DD`
with month 1 to 12 and day 1 to 31 (midnight UTC of that day); every other
value is treated as an invalid date. -/
def isoDateValue : JSVal → JSNum
  | JSVal.str s =>
    match s.toList with
    | [y1, y2, y3, y4, '-', m1, m2, '-', d1, d2] =>
      if [y1, y2, y3, y4, m1, m2, d1, d2].all Char.isDigit then
        let m := digitsValue [m1, m2]
        let d := digitsValue [d1, d2]
        if 1 ≤ m ∧ m ≤ 12 ∧ 1 ≤ d ∧ d ≤ 31 then
          JSNum.fin ((daysFromCivil (digitsValue [y1, y2, y3, y4]) m d * 86400000 : ℤ) : ℚ)
        else JSNum.nan
      else JSNum.nan
    | _ => JSNum.nan
  | _ => JSNum.nan

/-- A runtime on UTC with ISO calendar dates, Latin-1 upper-casing and a query
page of ten records. -/
def utcRuntime : Runtime :=
  { toUpperCase := latin1UpperCase
    dateValue := isoDateValue
    tzOffsetMillis := 0
    defaultLimit := 10 }

/-- The same runtime six hours behind UTC, as with the time zone
America/Mexico_City (which keeps that offset all year). -/
def mexicoCityRuntime : Runtime :=
  { toUpperCase := latin1UpperCase
    dateValue := isoDateValue
    tzOffsetMillis := -21600000
    defaultLimit := 10 }

/-- Field identifiers used in the scenarios. -/
def scenarioEnv : Env :=
  { ASSET_FIELD_ID := "customfield_10050"
    COSTOE_FIELD_ID := "customfield_10051"
    COSTOT_FIELD_ID := "customfield_10052"
    COSTOA_FIELD_ID := "customfield_10053"
    PERCENTAGE_FIELD_ID := "customfield_10054" }

/-- A client record as the customer form stores it: organization 7, contract
valid all of 2024, the given budget and penalty rate. -/
def scenarioClient (presupuesto slaPenaltyPercentage : JSVal) : JSObj :=
  [("organizationId", JSVal.str "7"), ("name", JSVal.str "Acme"),
    ("tipoServicio", JSVal.str "Soporte"), ("vigenciaInicio", JSVal.str "2024-01-01"),
    ("vigenciaFin", JSVal.str "2024-12-31"), ("presupuesto", presupuesto),
    ("requestTypePermissions", JSVal.obj "permissions"),
    ("slaPenaltyPercentage", slaPenaltyPercentage)]

/-- The transitions of the scenario workflow. -/
def scenarioTransitions : List Transition :=
  [{ id := "11", name := "Auto Aprobación" }, { id := "21", name := "Auto Rechazo" },
    { id := "31", name := "Aprobación manual" }]

/-- A world with one ticket of organization 7 (custom fields and resolution
given), one stored client and a resolution SLA with the given cycle. -/
def scenarioWorld (fields : JSObj) (resolution : Option String) (cliente : JSObj)
    (cycle : Option SlaCycle) (now : ℤ) : World :=
  { issue :=
      { fields := fields
        organizations := some [{ id := JSVal.str "7", name := "Acme" }]
        resolution := resolution }
    transitions := scenarioTransitions
    sla := some [{ name := "Time to first response", ongoingCycle := none },
      { name := "Time to resolution", ongoingCycle := cycle }]
    store := [("cliente-1700000000000", cliente)]
    writable := fun _ => true
    now := now
    trace := [] }

/-! ## The customer form and the save action -/

/-- The constant `INITIAL_FORM_STATE` of the customer form: every text input
starts as the empty string. -/
def INITIAL_FORM_STATE : JSObj :=
  [("name", JSVal.str ""), ("tipoServicio", JSVal.str ""), ("vigenciaInicio", JSVal.str ""),
    ("vigenciaFin", JSVal.str ""), ("presupuesto", JSVal.str ""),
    ("slaPenaltyPercentage", JSVal.str ""),
    ("requestTypePermissions", JSVal.obj "mode all, no restricted identifiers")]

/-- The method `String.prototype.trim`. -/
def jsTrim (s : String) : String :=
  String.mk (((s.toList.dropWhile isStrWhiteSpace).reverse.dropWhile isStrWhiteSpace).reverse)

/-- The object `clienteData` built by the resolver `handler`: the old data,
then the trimmed name and the six other properties exactly as the payload gives
them. -/
def clienteData (oldData : JSObj) (name : String) (payload : JSObj) : JSObj :=
  ["tipoServicio", "vigenciaInicio", "vigenciaFin", "presupuesto", "requestTypePermissions",
      "slaPenaltyPercentage"].foldl
    (fun o k => setProp o k (getProp payload k))
    (setProp oldData "name" (JSVal.str (jsTrim name)))

/-- The action `saveCustomer` of the resolver `handler`, for a payload without
`updatedData` (what the form sends for a new customer).  `organizationId` is the
identifier answered by the organization directory.  Without a non-blank name
the action throws before anything is stored. -/
def saveCustomer (organizationId : JSVal) (payload : JSObj) (w : World) : World :=
  match getProp payload "name" with
  | JSVal.str name =>
    if jsTrim name = "" then w
    else
      kvsSet w ("cliente-" ++ toString w.now)
        (clienteData [("organizationId", organizationId)] name payload)
  | _ => w

/-- The form state after typing the name Acme and picking the contract dates,
with the budget input left untouched. -/
def scenarioFormData : JSObj :=
  setProp (setProp (setProp INITIAL_FORM_STATE "name" (JSVal.str "Acme"))
    "vigenciaInicio" (JSVal.str "2024-01-01")) "vigenciaFin" (JSVal.str "2024-12-31")

/-- A world whose only stored client was saved from `scenarioFormData` at time
1700000000000 for organization 7, with a ticket of that organization, the given
custom fields and the given clock. -/
def scenarioSavedWorld (fields : JSObj) (now : ℤ) : World :=
  { issue :=
      { fields := fields
        organizations := some [{ id := JSVal.str "7", name := "Acme" }]
        resolution := none }
    transitions := scenarioTransitions
    sla := none
    store := (saveCustomer (JSVal.str "7") scenarioFormData
      { issue := { fields := [], organizations := none, resolution := none }
        transitions := []
        sla := none
        store := []
        writable := fun _ => true
        now := 1700000000000
        trace := [] }).store
    writable := fun _ => true
    now := now
    trace := [] }

/-! ## Basic facts about objects and effects -/

theorem getProp_setProp_same (o : JSObj) (k : String) (v : JSVal) :
    getProp (setProp o k v) k = v := by
  induction o with
  | nil => simp [setProp, getProp]
  | cons p rest ih =>
    obtain ⟨k1, v1⟩ := p
    by_cases h : k1 = k
    · simp [setProp, getProp, h]
    · simp [setProp, getProp, h, ih]

theorem getProp_setProp_other (o : JSObj) (k k2 : String) (v : JSVal) (h : k2 ≠ k) :
    getProp (setProp o k v) k2 = getProp o k2 := by
  induction o with
  | nil => simp [setProp, getProp, Ne.symm h]
  | cons p rest ih =>
    obtain ⟨k1, v1⟩ := p
    by_cases h1 : k1 = k
    · subst h1
      simp [setProp, getProp, Ne.symm h]
    · by_cases h2 : k1 = k2
      · subst h2
        simp [setProp, getProp, h1]
      · simp [setProp, getProp, h1, h2, ih]

theorem upper_autoAprobacion : latin1UpperCase "Auto Aprobación" = "AUTO APROBACIÓN" := by
  decide

theorem upper_autoRechazo : latin1UpperCase "Auto Rechazo" = "AUTO RECHAZO" := by decide

theorem upper_aprobacionManual : latin1UpperCase "Aprobación manual" = "APROBACIÓN MANUAL" := by
  decide

theorem scenario_find (fields : JSObj) (resolution : Option String) (cliente : JSObj)
    (cycle : Option SlaCycle) (now : ℤ) (n : ℕ) (hn : 0 < n)
    (hid : getProp cliente "organizationId" = JSVal.str "7") :
    (kvsQuery (scenarioWorld fields resolution cliente cycle now).store n).find?
        (matchesOrganization { id := JSVal.str "7", name := "Acme" })
      = some ("cliente-1700000000000", cliente) := by
  cases n with
  | zero => exact absurd hn (by decide)
  | succ k =>
    have hp : "cliente-".toList.isPrefixOf "cliente-1700000000000".toList = true := by decide
    simp [kvsQuery, scenarioWorld, hp, matchesOrganization, hid, JSVal.strictEq]

theorem scenario_resolutionCycle (fields : JSObj) (resolution : Option String)
    (cliente : JSObj) (cycle : Option SlaCycle) (now : ℤ) :
    resolutionCycle (scenarioWorld fields resolution cliente cycle now) = cycle := by
  have h1 : includesChars "Time to first response".toList "Time to resolution".toList
      = false := by decide
  have h2 : includesChars "Time to resolution".toList "Time to resolution".toList = true := by
    decide
  simp only [resolutionCycle, scenarioWorld, Option.some_bind, List.find?_cons, h1, h2]

/-- Rounding to two decimals leaves a multiple of `1/100` unchanged. -/
theorem toFixed2_cents (n : ℤ) (h : |(n : ℚ) / 100| < 10 ^ 21) :
    JSNum.toFixed2 (JSNum.fin ((n : ℚ) / 100)) = JSNum.fin ((n : ℚ) / 100) := by
  have hbig : ¬ ((10 : ℚ) ^ 21 ≤ |(n : ℚ) / 100|) := not_le.mpr h
  have hfl : ∀ k : ℤ, ⌊(k : ℚ) + 1 / 2⌋ = k := by
    intro k
    rw [Int.floor_eq_iff]
    constructor <;> norm_num
  by_cases hneg : (n : ℚ) / 100 < 0
  · have e : -((n : ℚ) / 100) * 100 + 1 / 2 = ((-n : ℤ) : ℚ) + 1 / 2 := by
      push_cast; ring
    simp only [JSNum.toFixed2, hbig, hneg, if_true, if_false, e, hfl]
    push_cast
    ring_nf
  · have e : (n : ℚ) / 100 * 100 + 1 / 2 = (n : ℚ) + 1 / 2 := by ring
    simp only [JSNum.toFixed2, hbig, hneg, if_false, e, hfl]

theorem toFixed2_ofInt (n : ℤ) (h : |(n : ℚ)| < 10 ^ 21) :
    JSNum.toFixed2 (JSNum.fin (n : ℚ)) = JSNum.fin (n : ℚ) := by
  have e : (n : ℚ) = ((100 * n : ℤ) : ℚ) / 100 := by push_cast; ring
  rw [e]
  apply toFixed2_cents
  rw [← e]
  exact h

theorem parseFloat_num (n : JSNum) : parseFloat (JSVal.num n) = n := rfl

theorem parseFloat_null : parseFloat JSVal.null = JSNum.nan := rfl

theorem getPrioritizedInitialCost_of_truthy (env : Env) (issue : Issue)
    (h : (parseFloat (getProp issue.fields env.COSTOE_FIELD_ID)).truthy = true) :
    getPrioritizedInitialCost env issue =
      some { cost := parseFloat (getProp issue.fields env.COSTOE_FIELD_ID), source := "initial" } := by
  simp [getPrioritizedInitialCost, h]

theorem getPrioritizedInitialCost_of_falsy (env : Env) (issue : Issue)
    (h : (parseFloat (getProp issue.fields env.COSTOE_FIELD_ID)).truthy = false) :
    getPrioritizedInitialCost env issue = none := by
  simp [getPrioritizedInitialCost, h]

/-- When every precondition holds, `automationHandler` executes the decision
computed from the validity window, the cost and the budget. -/
theorem automationHandler_decides (rt : Runtime) (env : Env) (statusName : String) (w : World)
    (organization : Organization) (rest : List Organization) (cliente : String × JSObj)
    (hstatus : rt.toUpperCase statusName = "EN REVISIÓN")
    (hcost : (parseFloat (getProp w.issue.fields env.COSTOE_FIELD_ID)).truthy = true)
    (horg : w.issue.organizations = some (organization :: rest))
    (hcli : (kvsQuery w.store 100).find? (matchesOrganization organization) = some cliente)
    (hnull : getProp cliente.2 "presupuesto" ≠ JSVal.null)
    (hundef : getProp cliente.2 "presupuesto" ≠ JSVal.undefined) :
    automationHandler rt env statusName w =
      executeDecision rt w
        (decision (hoy rt w) (rt.dateValue (getProp cliente.2 "vigenciaInicio"))
          (rt.dateValue (getProp cliente.2 "vigenciaFin"))
          (parseFloat (getProp w.issue.fields env.COSTOE_FIELD_ID))
          (getProp cliente.2 "presupuesto")) := by
  simp [automationHandler, hstatus, getPrioritizedInitialCost_of_truthy env w.issue hcost,
    horg, hcli, hnull, hundef]

/-! ## The approval decision -/

/-- C1: in `automationHandler`, when the estimated cost resolves to a number `C`,
the ticket has an organization, the matching client record has a non-null budget
that reads as the number `B`, and today lies within the validity window, the
decision is Auto Aprobación exactly when `C ≤ B` and Auto Rechazo otherwise, and
that decision is the one the handler executes. -/
theorem automationHandler_budget_check (rt : Runtime) (env : Env) (statusName : String)
    (w : World) (organization : Organization) (rest : List Organization)
    (cliente : String × JSObj) (C B s e : ℚ)
    (hstatus : rt.toUpperCase statusName = "EN REVISIÓN")
    (hC : parseFloat (getProp w.issue.fields env.COSTOE_FIELD_ID) = JSNum.fin C)
    (hC0 : C ≠ 0)
    (horg : w.issue.organizations = some (organization :: rest))
    (hcli : (kvsQuery w.store 100).find? (matchesOrganization organization) = some cliente)
    (hnull : getProp cliente.2 "presupuesto" ≠ JSVal.null)
    (hundef : getProp cliente.2 "presupuesto" ≠ JSVal.undefined)
    (hB : parseFloat (getProp cliente.2 "presupuesto") = JSNum.fin B)
    (hs : rt.dateValue (getProp cliente.2 "vigenciaInicio") = JSNum.fin s)
    (he : rt.dateValue (getProp cliente.2 "vigenciaFin") = JSNum.fin e)
    (hwin : s ≤ (hoyMillis rt w : ℚ) ∧ (hoyMillis rt w : ℚ) ≤ e) :
    (decision (hoy rt w) (JSNum.fin s) (JSNum.fin e) (JSNum.fin C)
        (getProp cliente.2 "presupuesto") = "Auto Aprobación" ↔ C ≤ B) ∧
    (decision (hoy rt w) (JSNum.fin s) (JSNum.fin e) (JSNum.fin C)
        (getProp cliente.2 "presupuesto") = "Auto Rechazo" ↔ ¬ C ≤ B) ∧
    automationHandler rt env statusName w =
      executeDecision rt w (if C ≤ B then "Auto Aprobación" else "Auto Rechazo") := by
  have hd : decision (hoy rt w) (JSNum.fin s) (JSNum.fin e) (JSNum.fin C)
      (getProp cliente.2 "presupuesto") = if C ≤ B then "Auto Aprobación" else "Auto Rechazo" := by
    simp [decision, hoy, JSNum.lt, JSNum.gt, JSNum.le, parseFloat_num, hB, not_lt.mpr hwin.1,
      not_lt.mpr hwin.2]
  have htruthy : (parseFloat (getProp w.issue.fields env.COSTOE_FIELD_ID)).truthy = true := by
    simp [hC, JSNum.truthy, hC0]
  refine ⟨?_, ?_, ?_⟩
  · rw [hd]
    by_cases h : C ≤ B <;> simp [h]
  · rw [hd]
    by_cases h : C ≤ B <;> simp [h]
  · rw [automationHandler_decides rt env statusName w organization rest cliente hstatus htruthy
      horg hcli hnull hundef, hs, he, hC, hd]

/-- C1, scenario: budget 500, contract valid all of 2024, today 2024-06-01.  An
estimated cost of 400 is approved and one of 600 is rejected. -/
theorem automationHandler_budget_check_witness :
    (automationHandler utcRuntime scenarioEnv "En revisión"
        (scenarioWorld [("customfield_10051", JSVal.num (JSNum.fin 400))] none
          (scenarioClient (JSVal.str "500") (JSVal.str "5")) none 1717236000000)).trace
      = [Effect.transition "11"] ∧
    (automationHandler utcRuntime scenarioEnv "En revisión"
        (scenarioWorld [("customfield_10051", JSVal.num (JSNum.fin 600))] none
          (scenarioClient (JSVal.str "500") (JSVal.str "5")) none 1717236000000)).trace
      = [Effect.transition "21"] := by
  constructor
  · rw [(automationHandler_budget_check utcRuntime scenarioEnv "En revisión"
      (scenarioWorld [("customfield_10051", JSVal.num (JSNum.fin 400))] none
        (scenarioClient (JSVal.str "500") (JSVal.str "5")) none 1717236000000)
      { id := JSVal.str "7", name := "Acme" } []
      ("cliente-1700000000000", scenarioClient (JSVal.str "500") (JSVal.str "5"))
      400 500 1704067200000 1735603200000
      (by decide) (by simp [scenarioWorld, scenarioEnv, getProp, parseFloat]) (by norm_num)
      (by simp [scenarioWorld])
      (by simp [scenarioWorld, kvsQuery, matchesOrganization, scenarioClient, getProp,
        JSVal.strictEq])
      (by simp [scenarioClient, getProp]) (by simp [scenarioClient, getProp])
      (by simp [scenarioClient, getProp, parseFloat, parseFloatChars, parseMagnitude,
        parseUnsignedDecimal, digitsValue, parseExponent, isStrWhiteSpace])
      (by simp [scenarioClient, getProp, utcRuntime, isoDateValue, digitsValue, daysFromCivil])
      (by simp [scenarioClient, getProp, utcRuntime, isoDateValue, digitsValue, daysFromCivil])
      (by simp [hoyMillis, scenarioWorld, utcRuntime]; norm_num)).2.2]
    norm_num [executeDecision, scenarioWorld, scenarioTransitions, World.emit, utcRuntime,
      upper_autoAprobacion, upper_autoRechazo, upper_aprobacionManual, List.find?_cons]
  · rw [(automationHandler_budget_check utcRuntime scenarioEnv "En revisión"
      (scenarioWorld [("customfield_10051", JSVal.num (JSNum.fin 600))] none
        (scenarioClient (JSVal.str "500") (JSVal.str "5")) none 1717236000000)
      { id := JSVal.str "7", name := "Acme" } []
      ("cliente-1700000000000", scenarioClient (JSVal.str "500") (JSVal.str "5"))
      600 500 1704067200000 1735603200000
      (by decide) (by simp [scenarioWorld, scenarioEnv, getProp, parseFloat]) (by norm_num)
      (by simp [scenarioWorld])
      (by simp [scenarioWorld, kvsQuery, matchesOrganization, scenarioClient, getProp,
        JSVal.strictEq])
      (by simp [scenarioClient, getProp]) (by simp [scenarioClient, getProp])
      (by simp [scenarioClient, getProp, parseFloat, parseFloatChars, parseMagnitude,
        parseUnsignedDecimal, digitsValue, parseExponent, isStrWhiteSpace])
      (by simp [scenarioClient, getProp, utcRuntime, isoDateValue, digitsValue, daysFromCivil])
      (by simp [scenarioClient, getProp, utcRuntime, isoDateValue, digitsValue, daysFromCivil])
      (by simp [hoyMillis, scenarioWorld, utcRuntime]; norm_num)).2.2]
    norm_num [executeDecision, scenarioWorld, scenarioTransitions, World.emit, utcRuntime,
      upper_autoAprobacion, upper_autoRechazo, upper_aprobacionManual, List.find?_cons]
    rfl

/-- C2: in `automationHandler`, when every precondition holds and today is
strictly before the validity start or strictly after the validity end, the
decision is Auto Rechazo whatever the estimated cost and the budget are: the
validity window is tested before the budget. -/
theorem automationHandler_validity_first (rt : Runtime) (env : Env) (statusName : String)
    (w : World) (organization : Organization) (rest : List Organization)
    (cliente : String × JSObj)
    (hstatus : rt.toUpperCase statusName = "EN REVISIÓN")
    (hcost : (parseFloat (getProp w.issue.fields env.COSTOE_FIELD_ID)).truthy = true)
    (horg : w.issue.organizations = some (organization :: rest))
    (hcli : (kvsQuery w.store 100).find? (matchesOrganization organization) = some cliente)
    (hnull : getProp cliente.2 "presupuesto" ≠ JSVal.null)
    (hundef : getProp cliente.2 "presupuesto" ≠ JSVal.undefined)
    (hout : (∃ s : ℚ, rt.dateValue (getProp cliente.2 "vigenciaInicio") = JSNum.fin s ∧
          (hoyMillis rt w : ℚ) < s) ∨
        (∃ e : ℚ, rt.dateValue (getProp cliente.2 "vigenciaFin") = JSNum.fin e ∧
          e < (hoyMillis rt w : ℚ))) :
    (∀ costoEstimado : JSNum, ∀ presupuesto : JSVal,
      decision (hoy rt w) (rt.dateValue (getProp cliente.2 "vigenciaInicio"))
        (rt.dateValue (getProp cliente.2 "vigenciaFin")) costoEstimado presupuesto
        = "Auto Rechazo") ∧
    automationHandler rt env statusName w = executeDecision rt w "Auto Rechazo" := by
  have hd : ∀ costoEstimado : JSNum, ∀ presupuesto : JSVal,
      decision (hoy rt w) (rt.dateValue (getProp cliente.2 "vigenciaInicio"))
        (rt.dateValue (getProp cliente.2 "vigenciaFin")) costoEstimado presupuesto
        = "Auto Rechazo" := by
    intro costoEstimado presupuesto
    rcases hout with ⟨s, hs, hlt⟩ | ⟨e, he, hlt⟩
    · simp [decision, hoy, hs, JSNum.lt, hlt]
    · simp [decision, hoy, he, JSNum.lt, JSNum.gt, hlt]
  refine ⟨hd, ?_⟩
  rw [automationHandler_decides rt env statusName w organization rest cliente hstatus hcost
    horg hcli hnull hundef, hd]

/-- C2, scenario: budget 500, contract valid all of 2024, today 2025-01-01.  An
estimated cost of 100, although within the budget, is rejected. -/
theorem automationHandler_validity_first_witness :
    (automationHandler utcRuntime scenarioEnv "En revisión"
        (scenarioWorld [("customfield_10051", JSVal.num (JSNum.fin 100))] none
          (scenarioClient (JSVal.str "500") (JSVal.str "5")) none 1735693200000)).trace
      = [Effect.transition "21"] := by
  rw [(automationHandler_validity_first utcRuntime scenarioEnv "En revisión"
      (scenarioWorld [("customfield_10051", JSVal.num (JSNum.fin 100))] none
        (scenarioClient (JSVal.str "500") (JSVal.str "5")) none 1735693200000)
      { id := JSVal.str "7", name := "Acme" } []
      ("cliente-1700000000000", scenarioClient (JSVal.str "500") (JSVal.str "5"))
      (by decide)
      (by simp [scenarioWorld, scenarioEnv, getProp, parseFloat, JSNum.truthy])
      (by simp [scenarioWorld])
      (by simp [scenarioWorld, kvsQuery, matchesOrganization, scenarioClient, getProp,
        JSVal.strictEq])
      (by simp [scenarioClient, getProp]) (by simp [scenarioClient, getProp])
      (Or.inr ⟨1735603200000,
        by simp [scenarioClient, getProp, utcRuntime, isoDateValue, digitsValue, daysFromCivil],
        by simp [hoyMillis, scenarioWorld, utcRuntime]; norm_num⟩)).2]
  norm_num [executeDecision, scenarioWorld, scenarioTransitions, World.emit, utcRuntime,
    upper_autoAprobacion, upper_autoRechazo, upper_aprobacionManual, List.find?_cons]
  rfl

/-- The trace left by `moveToManualApproval`: the request with its reason,
followed by at most one posted transition, whose upper-cased name is
APROBACIÓN MANUAL. -/
theorem moveToManualApproval_trace (rt : Runtime) (w : World) (reason : String) :
    (moveToManualApproval rt w reason).trace = w.trace ++ [Effect.manualApproval reason] ∨
    ∃ t ∈ w.transitions, rt.toUpperCase t.name = "APROBACIÓN MANUAL" ∧
      (moveToManualApproval rt w reason).trace =
        w.trace ++ [Effect.manualApproval reason, Effect.transition t.id] := by
  cases hfind : w.transitions.find?
      (fun t => decide (rt.toUpperCase t.name = "APROBACIÓN MANUAL")) with
  | none => left; simp [moveToManualApproval, World.emit, hfind]
  | some t =>
    right
    refine ⟨t, ?_, ?_, ?_⟩
    · exact List.mem_of_find?_eq_some hfind
    · simpa using List.find?_some hfind
    · simp [moveToManualApproval, World.emit, hfind]

theorem reasons_distinct (organization : Organization) :
    reasonNoCost ≠ reasonNoOrganization ∧ reasonNoCost ≠ reasonNoBudget organization ∧
    reasonNoOrganization ≠ reasonNoBudget organization := by
  refine ⟨by decide, ?_, ?_⟩
  · intro h
    have h2 := congrArg String.data h
    simp [reasonNoCost, reasonNoBudget, String.data_append] at h2
  · intro h
    have h2 := congrArg String.data h
    simp [reasonNoOrganization, reasonNoBudget, String.data_append] at h2

/-- C3: in `automationHandler`, a missing precondition always ends in
`moveToManualApproval` with a reason naming what is missing: the missing-cost
reason when the estimated cost does not resolve; the missing-organization reason
when the cost resolves and the organization field is absent or empty; the
missing-budget reason when cost and organization are there and no client record
matches, or the matching record has a null or undefined budget.  The three
reasons are pairwise distinct, and `moveToManualApproval` posts no transition
other than the one named Aprobación Manual. -/
theorem automationHandler_missing_precondition (rt : Runtime) (env : Env) (statusName : String)
    (w : World) (hstatus : rt.toUpperCase statusName = "EN REVISIÓN") :
    ((parseFloat (getProp w.issue.fields env.COSTOE_FIELD_ID)).truthy = false →
      automationHandler rt env statusName w = moveToManualApproval rt w reasonNoCost) ∧
    ((parseFloat (getProp w.issue.fields env.COSTOE_FIELD_ID)).truthy = true →
      (w.issue.organizations = none ∨ w.issue.organizations = some []) →
      automationHandler rt env statusName w = moveToManualApproval rt w reasonNoOrganization) ∧
    (∀ (organization : Organization) (rest : List Organization),
      (parseFloat (getProp w.issue.fields env.COSTOE_FIELD_ID)).truthy = true →
      w.issue.organizations = some (organization :: rest) →
      ((kvsQuery w.store 100).find? (matchesOrganization organization) = none ∨
        ∃ cliente, (kvsQuery w.store 100).find? (matchesOrganization organization)
            = some cliente ∧
          (getProp cliente.2 "presupuesto" = JSVal.null ∨
            getProp cliente.2 "presupuesto" = JSVal.undefined)) →
      automationHandler rt env statusName w =
        moveToManualApproval rt w (reasonNoBudget organization)) ∧
    (∀ organization : Organization,
      reasonNoCost ≠ reasonNoOrganization ∧ reasonNoCost ≠ reasonNoBudget organization ∧
      reasonNoOrganization ≠ reasonNoBudget organization) ∧
    (∀ reason : String,
      (moveToManualApproval rt w reason).trace = w.trace ++ [Effect.manualApproval reason] ∨
      ∃ t ∈ w.transitions, rt.toUpperCase t.name = "APROBACIÓN MANUAL" ∧
        (moveToManualApproval rt w reason).trace =
          w.trace ++ [Effect.manualApproval reason, Effect.transition t.id]) := by
  refine ⟨?_, ?_, ?_, reasons_distinct, moveToManualApproval_trace rt w⟩
  · intro hcost
    simp [automationHandler, hstatus, getPrioritizedInitialCost_of_falsy env w.issue hcost]
  · intro hcost horg
    rcases horg with horg | horg <;>
      simp [automationHandler, hstatus, getPrioritizedInitialCost_of_truthy env w.issue hcost,
        horg]
  · intro organization rest hcost horg hcli
    rcases hcli with hcli | ⟨cliente, hcli, hb | hb⟩
    · simp [automationHandler, hstatus, getPrioritizedInitialCost_of_truthy env w.issue hcost,
        horg, hcli]
    · simp [automationHandler, hstatus, getPrioritizedInitialCost_of_truthy env w.issue hcost,
        horg, hcli, hb]
    · simp [automationHandler, hstatus, getPrioritizedInitialCost_of_truthy env w.issue hcost,
        horg, hcli, hb]

/-- C3, scenarios: a ticket without cost, a ticket with a cost of 400 and an
empty organization field, and a ticket whose client has a null budget are each
moved to manual approval with their own reason. -/
theorem automationHandler_missing_precondition_witness :
    (automationHandler utcRuntime scenarioEnv "En revisión"
        (scenarioWorld [] none (scenarioClient (JSVal.str "500") (JSVal.str "5")) none
          1717236000000)).trace
      = [Effect.manualApproval reasonNoCost, Effect.transition "31"] ∧
    (automationHandler utcRuntime scenarioEnv "En revisión"
        { scenarioWorld [("customfield_10051", JSVal.num (JSNum.fin 400))] none
            (scenarioClient (JSVal.str "500") (JSVal.str "5")) none 1717236000000 with
          issue :=
            { fields := [("customfield_10051", JSVal.num (JSNum.fin 400))]
              organizations := some []
              resolution := none } }).trace
      = [Effect.manualApproval reasonNoOrganization, Effect.transition "31"] ∧
    (automationHandler utcRuntime scenarioEnv "En revisión"
        (scenarioWorld [("customfield_10051", JSVal.num (JSNum.fin 400))] none
          (scenarioClient JSVal.null (JSVal.str "5")) none 1717236000000)).trace
      = [Effect.manualApproval (reasonNoBudget { id := JSVal.str "7", name := "Acme" }),
          Effect.transition "31"] := by
  refine ⟨?_, ?_, ?_⟩
  · rw [(automationHandler_missing_precondition utcRuntime scenarioEnv "En revisión"
      (scenarioWorld [] none (scenarioClient (JSVal.str "500") (JSVal.str "5")) none
        1717236000000) (by decide)).1
      (by simp [scenarioWorld, getProp, parseFloat, JSNum.truthy])]
    simp [moveToManualApproval, scenarioWorld, scenarioTransitions, World.emit, utcRuntime,
      upper_autoAprobacion, upper_autoRechazo, upper_aprobacionManual, List.find?_cons]
  · rw [(automationHandler_missing_precondition utcRuntime scenarioEnv "En revisión"
      { scenarioWorld [("customfield_10051", JSVal.num (JSNum.fin 400))] none
          (scenarioClient (JSVal.str "500") (JSVal.str "5")) none 1717236000000 with
        issue :=
          { fields := [("customfield_10051", JSVal.num (JSNum.fin 400))]
            organizations := some []
            resolution := none } } (by decide)).2.1
      (by simp [scenarioEnv, getProp, parseFloat, JSNum.truthy]) (Or.inr rfl)]
    simp [moveToManualApproval, scenarioWorld, scenarioTransitions, World.emit, utcRuntime,
      upper_autoAprobacion, upper_autoRechazo, upper_aprobacionManual, List.find?_cons]
  · rw [(automationHandler_missing_precondition utcRuntime scenarioEnv "En revisión"
      (scenarioWorld [("customfield_10051", JSVal.num (JSNum.fin 400))] none
        (scenarioClient JSVal.null (JSVal.str "5")) none 1717236000000) (by decide)).2.2.1
      { id := JSVal.str "7", name := "Acme" } []
      (by simp [scenarioWorld, scenarioEnv, getProp, parseFloat, JSNum.truthy])
      (by simp [scenarioWorld])
      (Or.inr ⟨("cliente-1700000000000", scenarioClient JSVal.null (JSVal.str "5")),
        by simp [scenarioWorld, kvsQuery, matchesOrganization, scenarioClient, getProp,
          JSVal.strictEq],
        Or.inl (by simp [scenarioClient, getProp])⟩)]
    simp [moveToManualApproval, scenarioWorld, scenarioTransitions, World.emit, utcRuntime,
      upper_autoAprobacion, upper_autoRechazo, upper_aprobacionManual, List.find?_cons]

/-! ## The penalty calculation -/

/-- The breached branch of `calculateAndUpdateCosts`. -/
theorem calculateAndUpdateCosts_breached (rt : Runtime) (env : Env) (w : World)
    (organization : Organization) (rest : List Organization) (cliente : String × JSObj)
    (cycle : SlaCycle) (millis : JSNum)
    (horg : w.issue.organizations = some (organization :: rest))
    (hcli : (kvsQuery w.store rt.defaultLimit).find? (matchesOrganization organization)
      = some cliente)
    (hrate : (getProp cliente.2 "slaPenaltyPercentage").truthy = true)
    (hcycle : resolutionCycle w = some cycle)
    (hbreached : cycle.breached = true)
    (hmillis : cycle.remainingMillis = some millis) :
    calculateAndUpdateCosts rt env w =
      (some (costoTotalFinal (costoBase env w.issue)
          (parseFloat (getProp cliente.2 "slaPenaltyPercentage")) millis),
        updateJiraFields env w
          (totalPenaltyPercentage (parseFloat (getProp cliente.2 "slaPenaltyPercentage")) millis)
          (costoTotalFinal (costoBase env w.issue)
            (parseFloat (getProp cliente.2 "slaPenaltyPercentage")) millis)) := by
  simp [calculateAndUpdateCosts, horg, hcli, hrate, hcycle, hbreached, hmillis]

/-- The branches of `calculateAndUpdateCosts` without penalty. -/
theorem calculateAndUpdateCosts_no_penalty (rt : Runtime) (env : Env) (w : World)
    (organization : Organization) (rest : List Organization)
    (horg : w.issue.organizations = some (organization :: rest))
    (hcase : (kvsQuery w.store rt.defaultLimit).find? (matchesOrganization organization) = none ∨
      (∃ cliente, (kvsQuery w.store rt.defaultLimit).find? (matchesOrganization organization)
          = some cliente ∧ (getProp cliente.2 "slaPenaltyPercentage").truthy = false) ∨
      resolutionCycle w = none ∨
      (∃ cycle, resolutionCycle w = some cycle ∧ cycle.breached = false)) :
    calculateAndUpdateCosts rt env w =
      (some (costoBase env w.issue),
        updateJiraFields env w (JSNum.fin 0) (costoBase env w.issue)) := by
  cases hfind : (kvsQuery w.store rt.defaultLimit).find? (matchesOrganization organization) with
  | none => simp [calculateAndUpdateCosts, horg, hfind]
  | some cliente =>
    cases hr : (getProp cliente.2 "slaPenaltyPercentage").truthy with
    | false => simp [calculateAndUpdateCosts, horg, hfind, hr]
    | true =>
      rcases hcase with h | ⟨c, h, hc⟩ | h | ⟨cycle, h, hb⟩
      · simp [hfind] at h
      · rw [hfind] at h
        cases h
        simp [hr] at hc
      · simp [calculateAndUpdateCosts, horg, hfind, hr, h]
      · simp [calculateAndUpdateCosts, horg, hfind, hr, h, hb]

theorem breachTimeHours_fin (m : ℚ) :
    breachTimeHours (JSNum.fin m) = JSNum.fin ((⌈|m| / 3600000⌉ : ℤ) : ℚ) := by
  simp [breachTimeHours, JSNum.abs, JSNum.div, JSNum.ceil]
  norm_num

/-- C4: in `calculateAndUpdateCosts`, when the resolution SLA is breached with a
remaining time of `m` milliseconds, the breach hours are the ceiling of
`|m| / 3600000` and enter the penalty and the returned cost as such: a remaining
time of zero gives 0 hours and, for a numeric rate, a penalty of 0; a non-zero
remaining time gives at least 1 hour; a partial hour counts as a full one. -/
theorem calculateAndUpdateCosts_breach_hours (rt : Runtime) (env : Env) (w : World)
    (organization : Organization) (rest : List Organization) (cliente : String × JSObj)
    (cycle : SlaCycle) (m : ℚ)
    (horg : w.issue.organizations = some (organization :: rest))
    (hcli : (kvsQuery w.store rt.defaultLimit).find? (matchesOrganization organization)
      = some cliente)
    (hrate : (getProp cliente.2 "slaPenaltyPercentage").truthy = true)
    (hcycle : resolutionCycle w = some cycle)
    (hbreached : cycle.breached = true)
    (hmillis : cycle.remainingMillis = some (JSNum.fin m)) :
    breachTimeHours (JSNum.fin m) = JSNum.fin ((⌈|m| / 3600000⌉ : ℤ) : ℚ) ∧
    calculateAndUpdateCosts rt env w =
      (some ((costoBase env w.issue).sub ((costoBase env w.issue).mul
          (((JSNum.fin ((⌈|m| / 3600000⌉ : ℤ) : ℚ)).mul
            (parseFloat (getProp cliente.2 "slaPenaltyPercentage"))).div (JSNum.fin 100)))),
        updateJiraFields env w
          ((JSNum.fin ((⌈|m| / 3600000⌉ : ℤ) : ℚ)).mul
            (parseFloat (getProp cliente.2 "slaPenaltyPercentage")))
          ((costoBase env w.issue).sub ((costoBase env w.issue).mul
            (((JSNum.fin ((⌈|m| / 3600000⌉ : ℤ) : ℚ)).mul
              (parseFloat (getProp cliente.2 "slaPenaltyPercentage"))).div (JSNum.fin 100))))) ∧
    (m = 0 → ⌈|m| / 3600000⌉ = 0 ∧
      ∀ r : ℚ, totalPenaltyPercentage (JSNum.fin r) (JSNum.fin m) = JSNum.fin 0) ∧
    (m ≠ 0 → 1 ≤ ⌈|m| / 3600000⌉) ∧
    (∀ k : ℤ, (k : ℚ) * 3600000 < |m| → |m| ≤ ((k : ℚ) + 1) * 3600000 →
      ⌈|m| / 3600000⌉ = k + 1) := by
  refine ⟨breachTimeHours_fin m, ?_, ?_, ?_, ?_⟩
  · rw [calculateAndUpdateCosts_breached rt env w organization rest cliente cycle (JSNum.fin m)
      horg hcli hrate hcycle hbreached hmillis]
    simp only [costoTotalFinal, totalPenaltyPercentage, breachTimeHours_fin]
  · intro h0
    subst h0
    refine ⟨by simp, ?_⟩
    intro r
    simp [totalPenaltyPercentage, breachTimeHours_fin, JSNum.mul]
  · intro hne
    rw [Int.one_le_ceil_iff]
    have : 0 < |m| := abs_pos.mpr hne
    positivity
  · intro k hlo hhi
    rw [Int.ceil_eq_iff]
    constructor
    · rw [lt_div_iff₀ (by norm_num)]
      push_cast
      linarith
    · rw [div_le_iff₀ (by norm_num)]
      push_cast
      linarith

/-- C4, scenario: rate 5 per hour, base cost 100, remaining time -3,600,000 ms:
one breach hour, percentage 5, final cost 95. -/
theorem calculateAndUpdateCosts_breach_hours_witness :
    breachTimeHours (JSNum.fin (-3600000)) = JSNum.fin 1 ∧
    totalPenaltyPercentage (JSNum.fin 5) (JSNum.fin (-3600000)) = JSNum.fin 5 ∧
    (calculateAndUpdateCosts utcRuntime scenarioEnv
        (scenarioWorld [("customfield_10051", JSVal.num (JSNum.fin 100))] none
          (scenarioClient (JSVal.str "1000") (JSVal.num (JSNum.fin 5)))
          (some { breached := true, remainingMillis := some (JSNum.fin (-3600000)) })
          1717236000000)).1 = some (JSNum.fin 95) := by
  have h := calculateAndUpdateCosts_breach_hours utcRuntime scenarioEnv
    (scenarioWorld [("customfield_10051", JSVal.num (JSNum.fin 100))] none
      (scenarioClient (JSVal.str "1000") (JSVal.num (JSNum.fin 5)))
      (some { breached := true, remainingMillis := some (JSNum.fin (-3600000)) })
      1717236000000)
    { id := JSVal.str "7", name := "Acme" } []
    ("cliente-1700000000000", scenarioClient (JSVal.str "1000") (JSVal.num (JSNum.fin 5)))
    { breached := true, remainingMillis := some (JSNum.fin (-3600000)) } (-3600000)
    (by simp [scenarioWorld])
    (scenario_find _ _ _ _ _ _ (by decide) (by simp [scenarioClient, getProp]))
    (by simp [scenarioClient, getProp, JSVal.truthy, JSNum.truthy])
    (scenario_resolutionCycle _ _ _ _ _) rfl rfl
  have hceil : ⌈|(-3600000 : ℚ)| / 3600000⌉ = 1 := by
    rw [Int.ceil_eq_iff]; norm_num [abs_of_neg]
  refine ⟨?_, ?_, ?_⟩
  · rw [h.1, hceil]; norm_num
  · rw [totalPenaltyPercentage, h.1, hceil]; norm_num [JSNum.mul]
  · rw [h.2.1, hceil]
    simp [costoBase, scenarioWorld, scenarioEnv, getProp, parseFloat, JSNum.orZero,
      JSNum.truthy, JSNum.add, JSNum.sub, JSNum.mul, JSNum.div, JSNum.neg, scenarioClient]
    norm_num

/-- C5: in `calculateAndUpdateCosts`, for a breached SLA the penalty percentage
is the breach hours times the rate per hour and the final cost is
`base - base * (percentage / 100)`, with neither a cap on the percentage nor a
floor on the cost: some inputs give a percentage above 100 and a negative final
cost. -/
theorem calculateAndUpdateCosts_penalty_uncapped (rt : Runtime) (env : Env) (w : World)
    (organization : Organization) (rest : List Organization) (cliente : String × JSObj)
    (cycle : SlaCycle) (millis : JSNum)
    (horg : w.issue.organizations = some (organization :: rest))
    (hcli : (kvsQuery w.store rt.defaultLimit).find? (matchesOrganization organization)
      = some cliente)
    (hrate : (getProp cliente.2 "slaPenaltyPercentage").truthy = true)
    (hcycle : resolutionCycle w = some cycle)
    (hbreached : cycle.breached = true)
    (hmillis : cycle.remainingMillis = some millis) :
    calculateAndUpdateCosts rt env w =
      (some ((costoBase env w.issue).sub ((costoBase env w.issue).mul
          (((breachTimeHours millis).mul
            (parseFloat (getProp cliente.2 "slaPenaltyPercentage"))).div (JSNum.fin 100)))),
        updateJiraFields env w
          ((breachTimeHours millis).mul (parseFloat (getProp cliente.2 "slaPenaltyPercentage")))
          ((costoBase env w.issue).sub ((costoBase env w.issue).mul
            (((breachTimeHours millis).mul
              (parseFloat (getProp cliente.2 "slaPenaltyPercentage"))).div (JSNum.fin 100))))) ∧
    (∀ b r m : ℚ,
      totalPenaltyPercentage (JSNum.fin r) (JSNum.fin m)
        = JSNum.fin (((⌈|m| / 3600000⌉ : ℤ) : ℚ) * r) ∧
      costoTotalFinal (JSNum.fin b) (JSNum.fin r) (JSNum.fin m)
        = JSNum.fin (b - b * ((((⌈|m| / 3600000⌉ : ℤ) : ℚ) * r) / 100))) ∧
    (∃ b r m p c : ℚ,
      totalPenaltyPercentage (JSNum.fin r) (JSNum.fin m) = JSNum.fin p ∧ 100 < p ∧
      costoTotalFinal (JSNum.fin b) (JSNum.fin r) (JSNum.fin m) = JSNum.fin c ∧ c < 0) := by
  have hfin : ∀ b r m : ℚ,
      totalPenaltyPercentage (JSNum.fin r) (JSNum.fin m)
        = JSNum.fin (((⌈|m| / 3600000⌉ : ℤ) : ℚ) * r) ∧
      costoTotalFinal (JSNum.fin b) (JSNum.fin r) (JSNum.fin m)
        = JSNum.fin (b - b * ((((⌈|m| / 3600000⌉ : ℤ) : ℚ) * r) / 100)) := by
    intro b r m
    constructor
    · simp [totalPenaltyPercentage, breachTimeHours_fin, JSNum.mul]
    · simp [costoTotalFinal, totalPenaltyPercentage, breachTimeHours_fin, JSNum.mul, JSNum.div,
        JSNum.sub, JSNum.neg, JSNum.add]
      ring
  refine ⟨?_, hfin, ?_⟩
  · rw [calculateAndUpdateCosts_breached rt env w organization rest cliente cycle millis
      horg hcli hrate hcycle hbreached hmillis]
    simp only [costoTotalFinal, totalPenaltyPercentage]
  · have hceil : ⌈|(-7200000 : ℚ)| / 3600000⌉ = 2 := by
      rw [Int.ceil_eq_iff]; norm_num [abs_of_neg]
    refine ⟨100, 60, -7200000, 120, -20, ?_, by norm_num, ?_, by norm_num⟩
    · rw [(hfin 100 60 (-7200000)).1, hceil]; norm_num
    · rw [(hfin 100 60 (-7200000)).2, hceil]; norm_num

/-- C5, scenario: base 100, rate 5 per hour, remaining time -3,600,001 ms: two
breach hours, percentage 10, final cost 90. -/
theorem calculateAndUpdateCosts_penalty_uncapped_witness :
    breachTimeHours (JSNum.fin (-3600001)) = JSNum.fin 2 ∧
    totalPenaltyPercentage (JSNum.fin 5) (JSNum.fin (-3600001)) = JSNum.fin 10 ∧
    (calculateAndUpdateCosts utcRuntime scenarioEnv
        (scenarioWorld [("customfield_10051", JSVal.num (JSNum.fin 100))] none
          (scenarioClient (JSVal.str "1000") (JSVal.num (JSNum.fin 5)))
          (some { breached := true, remainingMillis := some (JSNum.fin (-3600001)) })
          1717236000000)).1 = some (JSNum.fin 90) := by
  have h := calculateAndUpdateCosts_penalty_uncapped utcRuntime scenarioEnv
    (scenarioWorld [("customfield_10051", JSVal.num (JSNum.fin 100))] none
      (scenarioClient (JSVal.str "1000") (JSVal.num (JSNum.fin 5)))
      (some { breached := true, remainingMillis := some (JSNum.fin (-3600001)) })
      1717236000000)
    { id := JSVal.str "7", name := "Acme" } []
    ("cliente-1700000000000", scenarioClient (JSVal.str "1000") (JSVal.num (JSNum.fin 5)))
    { breached := true, remainingMillis := some (JSNum.fin (-3600001)) } (JSNum.fin (-3600001))
    (by simp [scenarioWorld])
    (scenario_find _ _ _ _ _ _ (by decide) (by simp [scenarioClient, getProp]))
    (by simp [scenarioClient, getProp, JSVal.truthy, JSNum.truthy])
    (scenario_resolutionCycle _ _ _ _ _) rfl rfl
  have hceil : ⌈|(-3600001 : ℚ)| / 3600000⌉ = 2 := by
    rw [Int.ceil_eq_iff]; norm_num [abs_of_neg]
  refine ⟨?_, ?_, ?_⟩
  · rw [breachTimeHours_fin, hceil]; norm_num
  · rw [(h.2.1 100 5 (-3600001)).1, hceil]; norm_num
  · rw [h.1, breachTimeHours_fin, hceil]
    simp [costoBase, scenarioWorld, scenarioEnv, getProp, parseFloat, JSNum.orZero,
      JSNum.truthy, JSNum.add, JSNum.sub, JSNum.mul, JSNum.div, JSNum.neg, scenarioClient]
    norm_num

/-- C6: in `calculateAndUpdateCosts`, for a ticket with an organization, when
no client matches, or the matching client has no penalty rate, or the resolution
SLA is not breached, the percentage is 0 and the final cost is the base cost;
the base cost is the sum of the initial-estimate field and the labor-cost field,
each read as 0 when absent or unparseable. -/
theorem calculateAndUpdateCosts_without_penalty (rt : Runtime) (env : Env) (w : World)
    (organization : Organization) (rest : List Organization)
    (horg : w.issue.organizations = some (organization :: rest))
    (hcase : (kvsQuery w.store rt.defaultLimit).find? (matchesOrganization organization) = none ∨
      (∃ cliente, (kvsQuery w.store rt.defaultLimit).find? (matchesOrganization organization)
          = some cliente ∧ (getProp cliente.2 "slaPenaltyPercentage").truthy = false) ∨
      resolutionCycle w = none ∨
      (∃ cycle, resolutionCycle w = some cycle ∧ cycle.breached = false)) :
    calculateAndUpdateCosts rt env w =
      (some (costoBase env w.issue),
        updateJiraFields env w (JSNum.fin 0) (costoBase env w.issue)) ∧
    costoBase env w.issue =
      JSNum.add
        (if (parseFloat (getProp w.issue.fields env.COSTOE_FIELD_ID)).truthy then
          parseFloat (getProp w.issue.fields env.COSTOE_FIELD_ID) else JSNum.fin 0)
        (if (parseFloat (getProp w.issue.fields env.COSTOA_FIELD_ID)).truthy then
          parseFloat (getProp w.issue.fields env.COSTOA_FIELD_ID) else JSNum.fin 0) ∧
    (∀ field : String, getProp w.issue.fields field = JSVal.undefined →
      (parseFloat (getProp w.issue.fields field)).orZero = JSNum.fin 0) ∧
    (∀ field : String, parseFloat (getProp w.issue.fields field) = JSNum.nan →
      (parseFloat (getProp w.issue.fields field)).orZero = JSNum.fin 0) ∧
    (∀ a b : ℚ, parseFloat (getProp w.issue.fields env.COSTOE_FIELD_ID) = JSNum.fin a →
      parseFloat (getProp w.issue.fields env.COSTOA_FIELD_ID) = JSNum.fin b →
      costoBase env w.issue = JSNum.fin (a + b)) := by
  refine ⟨calculateAndUpdateCosts_no_penalty rt env w organization rest horg hcase, rfl, ?_, ?_,
    ?_⟩
  · intro field h
    simp [h, parseFloat, JSNum.orZero, JSNum.truthy]
  · intro field h
    simp [h, JSNum.orZero, JSNum.truthy]
  · intro a b ha hb
    by_cases ha0 : a = 0 <;> by_cases hb0 : b = 0 <;>
      simp [costoBase, ha, hb, JSNum.orZero, JSNum.truthy, JSNum.add, ha0, hb0]

/-- C6, scenario: initial estimate 100, labor cost 20, rate 5 per hour, SLA not
breached: percentage 0 and final cost 120 are written and 120 is returned. -/
theorem calculateAndUpdateCosts_without_penalty_witness :
    calculateAndUpdateCosts utcRuntime scenarioEnv
        (scenarioWorld [("customfield_10051", JSVal.num (JSNum.fin 100)),
            ("customfield_10053", JSVal.num (JSNum.fin 20))] none
          (scenarioClient (JSVal.str "1000") (JSVal.num (JSNum.fin 5)))
          (some { breached := false, remainingMillis := some (JSNum.fin 7200000) })
          1717236000000) =
      (some (JSNum.fin 120),
        updateJiraFields scenarioEnv
          (scenarioWorld [("customfield_10051", JSVal.num (JSNum.fin 100)),
              ("customfield_10053", JSVal.num (JSNum.fin 20))] none
            (scenarioClient (JSVal.str "1000") (JSVal.num (JSNum.fin 5)))
            (some { breached := false, remainingMillis := some (JSNum.fin 7200000) })
            1717236000000)
          (JSNum.fin 0) (JSNum.fin 120)) := by
  have h := calculateAndUpdateCosts_without_penalty utcRuntime scenarioEnv
    (scenarioWorld [("customfield_10051", JSVal.num (JSNum.fin 100)),
        ("customfield_10053", JSVal.num (JSNum.fin 20))] none
      (scenarioClient (JSVal.str "1000") (JSVal.num (JSNum.fin 5)))
      (some { breached := false, remainingMillis := some (JSNum.fin 7200000) })
      1717236000000)
    { id := JSVal.str "7", name := "Acme" } []
    (by simp [scenarioWorld])
    (Or.inr (Or.inr (Or.inr ⟨_, scenario_resolutionCycle _ _ _ _ _, rfl⟩)))
  have hbase := h.2.2.2.2 100 20
    (by simp [scenarioWorld, scenarioEnv, getProp, parseFloat])
    (by simp [scenarioWorld, scenarioEnv, getProp, parseFloat])
  rw [h.1, hbase]
  norm_num

/-! ## Budget reconciliation -/

theorem kvsSets_append (xs ys : List Effect) : kvsSets (xs ++ ys) = kvsSets xs ++ kvsSets ys := by
  simp [kvsSets, List.filterMap_append]

theorem putField_frame (w : World) (field : String) (n : JSNum) :
    (putField w field n).store = w.store ∧
    (putField w field n).issue.organizations = w.issue.organizations ∧
    (putField w field n).issue.resolution = w.issue.resolution ∧
    kvsSets (putField w field n).trace = kvsSets w.trace := by
  unfold putField
  by_cases h : w.writable field = true <;> simp [h, World.emit, kvsSets_append, kvsSets]

theorem updateJiraFields_frame (env : Env) (w : World) (percentage totalCost : JSNum) :
    (updateJiraFields env w percentage totalCost).store = w.store ∧
    (updateJiraFields env w percentage totalCost).issue.organizations
      = w.issue.organizations ∧
    (updateJiraFields env w percentage totalCost).issue.resolution = w.issue.resolution ∧
    kvsSets (updateJiraFields env w percentage totalCost).trace = kvsSets w.trace := by
  unfold updateJiraFields
  obtain ⟨a1, a2, a3, a4⟩ := putField_frame w env.PERCENTAGE_FIELD_ID
    (finalPercentage percentage)
  obtain ⟨b1, b2, b3, b4⟩ := putField_frame
    (putField w env.PERCENTAGE_FIELD_ID (finalPercentage percentage))
    env.COSTOT_FIELD_ID totalCost.toFixed2
  exact ⟨b1.trans a1, b2.trans a2, b3.trans a3, b4.trans a4⟩

/-- The outcomes of `calculateAndUpdateCosts`: nothing returned and nothing
done, or a cost returned and written by `updateJiraFields`. -/
theorem calculateAndUpdateCosts_cases (rt : Runtime) (env : Env) (w : World) :
    calculateAndUpdateCosts rt env w = (none, w) ∨
    ∃ percentage cost, calculateAndUpdateCosts rt env w
      = (some cost, updateJiraFields env w percentage cost) := by
  cases horg : w.issue.organizations with
  | none => left; simp [calculateAndUpdateCosts, horg]
  | some orgs =>
    cases orgs with
    | nil => left; simp [calculateAndUpdateCosts, horg]
    | cons organization rest =>
      cases hfind : (kvsQuery w.store rt.defaultLimit).find?
          (matchesOrganization organization) with
      | none =>
        exact Or.inr ⟨_, _, calculateAndUpdateCosts_no_penalty rt env w organization rest horg
          (Or.inl hfind)⟩
      | some cliente =>
        cases hr : (getProp cliente.2 "slaPenaltyPercentage").truthy with
        | false =>
          exact Or.inr ⟨_, _, calculateAndUpdateCosts_no_penalty rt env w organization rest horg
            (Or.inr (Or.inl ⟨cliente, hfind, hr⟩))⟩
        | true =>
          cases hcycle : resolutionCycle w with
          | none =>
            exact Or.inr ⟨_, _, calculateAndUpdateCosts_no_penalty rt env w organization rest
              horg (Or.inr (Or.inr (Or.inl hcycle)))⟩
          | some cycle =>
            cases hb : cycle.breached with
            | false =>
              exact Or.inr ⟨_, _, calculateAndUpdateCosts_no_penalty rt env w organization rest
                horg (Or.inr (Or.inr (Or.inr ⟨cycle, hcycle, hb⟩)))⟩
            | true =>
              cases hm : cycle.remainingMillis with
              | none => left; simp [calculateAndUpdateCosts, horg, hfind, hr, hcycle, hb, hm]
              | some millis =>
                exact Or.inr ⟨_, _, calculateAndUpdateCosts_breached rt env w organization rest
                  cliente cycle millis horg hfind hr hcycle hb hm⟩

theorem calculateAndUpdateCosts_frame (rt : Runtime) (env : Env) (w : World) :
    (calculateAndUpdateCosts rt env w).2.store = w.store ∧
    (calculateAndUpdateCosts rt env w).2.issue.organizations = w.issue.organizations ∧
    (calculateAndUpdateCosts rt env w).2.issue.resolution = w.issue.resolution ∧
    kvsSets (calculateAndUpdateCosts rt env w).2.trace = kvsSets w.trace := by
  rcases calculateAndUpdateCosts_cases rt env w with h | ⟨p, c, h⟩
  · simp [h]
  · rw [h]
    exact updateJiraFields_frame env w p c

/-- The saving branch of `debitBudget`. -/
theorem debitBudget_saves (rt : Runtime) (w : World) (cost : JSNum)
    (organization : Organization) (rest : List Organization) (cliente : String × JSObj)
    (horg : w.issue.organizations = some (organization :: rest))
    (hcli : (kvsQuery w.store rt.defaultLimit).find? (matchesOrganization organization)
      = some cliente)
    (hnull : getProp cliente.2 "presupuesto" ≠ JSVal.null)
    (hundef : getProp cliente.2 "presupuesto" ≠ JSVal.undefined) :
    debitBudget rt w cost =
      kvsSet w cliente.1 (setProp cliente.2 "presupuesto"
        (JSVal.num ((parseFloat (getProp cliente.2 "presupuesto")).sub cost))) := by
  simp [debitBudget, horg, hcli, hnull, hundef]

/-- The branches of `debitBudget` that save nothing. -/
theorem debitBudget_skips (rt : Runtime) (w : World) (cost : JSNum)
    (hcase : w.issue.organizations = none ∨ w.issue.organizations = some [] ∨
      ∃ organization rest, w.issue.organizations = some (organization :: rest) ∧
        ((kvsQuery w.store rt.defaultLimit).find? (matchesOrganization organization) = none ∨
          ∃ cliente, (kvsQuery w.store rt.defaultLimit).find?
              (matchesOrganization organization) = some cliente ∧
            (getProp cliente.2 "presupuesto" = JSVal.null ∨
              getProp cliente.2 "presupuesto" = JSVal.undefined))) :
    debitBudget rt w cost = w := by
  rcases hcase with h | h | ⟨organization, rest, h, hc | ⟨cliente, hc, hb | hb⟩⟩
  · simp [debitBudget, h]
  · simp [debitBudget, h]
  · simp [debitBudget, h, hc]
  · simp [debitBudget, h, hc, hb]
  · simp [debitBudget, h, hc, hb]

/-- The handler on a terminal status with resolution Done: the chosen cost is
debited, or nothing is done when no cost can be chosen. -/
theorem resolutionHandler_done (rt : Runtime) (env : Env) (statusName : String) (w : World)
    (hstatus : rt.toUpperCase statusName = "RESUELTO" ∨
      rt.toUpperCase statusName = "COMPLETADO")
    (hdone : w.issue.resolution.map rt.toUpperCase = some "DONE") :
    resolutionHandler rt env statusName w =
      match chooseFinalCost
          (parseFloat (getProp (calculateAndUpdateCosts rt env w).2.issue.fields
            env.COSTOE_FIELD_ID))
          (parseFloat (getProp (calculateAndUpdateCosts rt env w).2.issue.fields
            env.COSTOT_FIELD_ID)) with
      | none => (calculateAndUpdateCosts rt env w).2
      | some cost => debitBudget rt (calculateAndUpdateCosts rt env w).2 cost := by
  have hst : ¬ (rt.toUpperCase statusName ≠ "RESUELTO" ∧
      rt.toUpperCase statusName ≠ "COMPLETADO") := by
    rcases hstatus with h | h <;> simp [h]
  have hres : (calculateAndUpdateCosts rt env w).2.issue.resolution.map rt.toUpperCase
      = some "DONE" := by
    rw [(calculateAndUpdateCosts_frame rt env w).2.2.1, hdone]
  simp only [resolutionHandler, hst, hres, if_false, ne_eq, not_true_eq_false]

/-- C7: in `resolutionHandler`, for a ticket in status RESUELTO or COMPLETADO with
resolution Done, a usable final cost `f`, an organization and a matching client
record whose budget is set, exactly one save is performed, under that client's
key, and the saved record is the previous record with the budget replaced by the
current budget minus `f` (no floor) and every other field unchanged. -/
theorem resolutionHandler_debits_budget (rt : Runtime) (env : Env) (statusName : String)
    (w : World) (organization : Organization) (rest : List Organization)
    (cliente : String × JSObj) (f : JSNum)
    (hstatus : rt.toUpperCase statusName = "RESUELTO" ∨
      rt.toUpperCase statusName = "COMPLETADO")
    (hdone : w.issue.resolution.map rt.toUpperCase = some "DONE")
    (hf : chooseFinalCost
        (parseFloat (getProp (calculateAndUpdateCosts rt env w).2.issue.fields
          env.COSTOE_FIELD_ID))
        (parseFloat (getProp (calculateAndUpdateCosts rt env w).2.issue.fields
          env.COSTOT_FIELD_ID)) = some f)
    (horg : w.issue.organizations = some (organization :: rest))
    (hcli : (kvsQuery w.store rt.defaultLimit).find? (matchesOrganization organization)
      = some cliente)
    (hnull : getProp cliente.2 "presupuesto" ≠ JSVal.null)
    (hundef : getProp cliente.2 "presupuesto" ≠ JSVal.undefined) :
    kvsSets (resolutionHandler rt env statusName w).trace =
      kvsSets w.trace ++ [(cliente.1, setProp cliente.2 "presupuesto"
        (JSVal.num ((parseFloat (getProp cliente.2 "presupuesto")).sub f)))] ∧
    (resolutionHandler rt env statusName w).store =
      storeSet w.store cliente.1 (setProp cliente.2 "presupuesto"
        (JSVal.num ((parseFloat (getProp cliente.2 "presupuesto")).sub f))) ∧
    getProp (setProp cliente.2 "presupuesto"
        (JSVal.num ((parseFloat (getProp cliente.2 "presupuesto")).sub f))) "presupuesto"
      = JSVal.num ((parseFloat (getProp cliente.2 "presupuesto")).sub f) ∧
    (∀ k : String, k ≠ "presupuesto" →
      getProp (setProp cliente.2 "presupuesto"
        (JSVal.num ((parseFloat (getProp cliente.2 "presupuesto")).sub f))) k
      = getProp cliente.2 k) ∧
    (∀ b c : ℚ, parseFloat (getProp cliente.2 "presupuesto") = JSNum.fin b → f = JSNum.fin c →
      (parseFloat (getProp cliente.2 "presupuesto")).sub f = JSNum.fin (b - c)) := by
  obtain ⟨hstore, horgs, _, htrace⟩ := calculateAndUpdateCosts_frame rt env w
  have hrun : resolutionHandler rt env statusName w =
      kvsSet (calculateAndUpdateCosts rt env w).2 cliente.1
        (setProp cliente.2 "presupuesto"
          (JSVal.num ((parseFloat (getProp cliente.2 "presupuesto")).sub f))) := by
    rw [resolutionHandler_done rt env statusName w hstatus hdone, hf]
    exact debitBudget_saves rt _ f organization rest cliente (horgs.trans horg)
      (by rw [hstore]; exact hcli) hnull hundef
  refine ⟨?_, ?_, getProp_setProp_same _ _ _, ?_, ?_⟩
  · rw [hrun]
    simp [kvsSet, World.emit, kvsSets_append, htrace]
    simp [kvsSets]
  · rw [hrun]
    simp [kvsSet, hstore]
  · intro k hk
    exact getProp_setProp_other _ _ _ _ hk
  · intro b c hb hc
    rw [hb, hc]
    simp [JSNum.sub, JSNum.neg, JSNum.add]
    ring

theorem putField_fields (w : World) (field : String) (n : JSNum) :
    (putField w field n).writable = w.writable ∧
    (putField w field n).issue.fields =
      if w.writable field then setProp w.issue.fields field (jsonNumber n)
      else w.issue.fields := by
  unfold putField
  by_cases h : w.writable field = true <;> simp [h, World.emit]

/-- After `updateJiraFields`, a writable total-cost field holds the rounded cost. -/
theorem updateJiraFields_costoTotal (env : Env) (w : World) (percentage totalCost : JSNum)
    (hT : w.writable env.COSTOT_FIELD_ID = true) :
    getProp (updateJiraFields env w percentage totalCost).issue.fields env.COSTOT_FIELD_ID
      = jsonNumber totalCost.toFixed2 := by
  unfold updateJiraFields
  rw [(putField_fields _ _ _).2, (putField_fields w _ _).1, hT]
  simp [getProp_setProp_same]

/-- The function `updateJiraFields` leaves every other field as it was. -/
theorem updateJiraFields_other (env : Env) (w : World) (percentage totalCost : JSNum)
    (k : String) (hP : k ≠ env.PERCENTAGE_FIELD_ID) (hT : k ≠ env.COSTOT_FIELD_ID) :
    getProp (updateJiraFields env w percentage totalCost).issue.fields k
      = getProp w.issue.fields k := by
  unfold updateJiraFields
  rw [(putField_fields _ _ _).2, (putField_fields w _ _).1, (putField_fields w _ _).2]
  by_cases h1 : w.writable env.COSTOT_FIELD_ID = true <;>
    by_cases h2 : w.writable env.PERCENTAGE_FIELD_ID = true <;>
    simp [h1, h2, getProp_setProp_other _ _ _ _ hP, getProp_setProp_other _ _ _ _ hT]

/-- C7, scenario: final cost 250 and current budget 1000: the record is saved
once with budget 750 and nothing else changed. -/
theorem resolutionHandler_debits_budget_witness :
    (resolutionHandler utcRuntime scenarioEnv "Resuelto"
        (scenarioWorld [("customfield_10051", JSVal.num (JSNum.fin 250))] (some "Done")
          (scenarioClient (JSVal.str "1000") (JSVal.str "")) none 1717236000000)).store
      = [("cliente-1700000000000", scenarioClient (JSVal.num (JSNum.fin 750)) (JSVal.str ""))] ∧
    kvsSets (resolutionHandler utcRuntime scenarioEnv "Resuelto"
        (scenarioWorld [("customfield_10051", JSVal.num (JSNum.fin 250))] (some "Done")
          (scenarioClient (JSVal.str "1000") (JSVal.str "")) none 1717236000000)).trace
      = [("cliente-1700000000000",
          scenarioClient (JSVal.num (JSNum.fin 750)) (JSVal.str ""))] := by
  have hcalc := calculateAndUpdateCosts_no_penalty utcRuntime scenarioEnv
    (scenarioWorld [("customfield_10051", JSVal.num (JSNum.fin 250))] (some "Done")
      (scenarioClient (JSVal.str "1000") (JSVal.str "")) none 1717236000000)
    { id := JSVal.str "7", name := "Acme" } [] (by simp [scenarioWorld])
    (Or.inr (Or.inr (Or.inl (scenario_resolutionCycle _ _ _ _ _))))
  have hbase : costoBase scenarioEnv
      (scenarioWorld [("customfield_10051", JSVal.num (JSNum.fin 250))] (some "Done")
        (scenarioClient (JSVal.str "1000") (JSVal.str "")) none 1717236000000).issue
      = JSNum.fin 250 := by
    simp [costoBase, scenarioWorld, scenarioEnv, getProp, parseFloat, JSNum.orZero,
      JSNum.truthy, JSNum.add]
  have h250 : JSNum.toFixed2 (JSNum.fin 250) = JSNum.fin 250 := by
    simpa using toFixed2_ofInt 250 (by norm_num [abs_of_pos])
  have h := resolutionHandler_debits_budget utcRuntime scenarioEnv "Resuelto"
    (scenarioWorld [("customfield_10051", JSVal.num (JSNum.fin 250))] (some "Done")
      (scenarioClient (JSVal.str "1000") (JSVal.str "")) none 1717236000000)
    { id := JSVal.str "7", name := "Acme" } []
    ("cliente-1700000000000", scenarioClient (JSVal.str "1000") (JSVal.str ""))
    (JSNum.fin 250)
    (Or.inl (by decide)) (by simp [scenarioWorld]; decide)
    (by
      rw [hcalc, hbase]
      rw [updateJiraFields_costoTotal _ _ _ _ (by simp [scenarioWorld]),
        updateJiraFields_other _ _ _ _ _ (by decide) (by decide), h250]
      simp [scenarioWorld, scenarioEnv, getProp, parseFloat, jsonNumber, chooseFinalCost,
        JSNum.truthy, JSNum.gt, JSNum.lt])
    (by simp [scenarioWorld])
    (scenario_find _ _ _ _ _ _ (by decide) (by simp [scenarioClient, getProp]))
    (by simp [scenarioClient, getProp]) (by simp [scenarioClient, getProp])
  have hsub : (parseFloat (JSVal.str "1000")).sub (JSNum.fin 250) = JSNum.fin 750 := by
    simp [parseFloat, parseFloatChars, parseMagnitude, parseUnsignedDecimal, digitsValue,
      parseExponent, isStrWhiteSpace, JSNum.sub, JSNum.neg, JSNum.add]
    norm_num
  refine ⟨?_, ?_⟩
  · rw [h.2.1]
    simp [scenarioWorld, storeSet, scenarioClient, setProp, getProp, hsub]
  · rw [h.1]
    simp [scenarioWorld, kvsSets, scenarioClient, setProp, getProp, hsub]

/-- C8: `resolutionHandler` saves no client record, so the store is left as it
was, whenever the resolution is absent or not Done, or the ticket has no
organization, or no stored client matches the first organization, or the
matching client has a null or undefined budget. -/
theorem resolutionHandler_no_save (rt : Runtime) (env : Env) (statusName : String) (w : World)
    (hcase : w.issue.resolution.map rt.toUpperCase ≠ some "DONE" ∨
      w.issue.organizations = none ∨ w.issue.organizations = some [] ∨
      ∃ organization rest, w.issue.organizations = some (organization :: rest) ∧
        ((kvsQuery w.store rt.defaultLimit).find? (matchesOrganization organization) = none ∨
          ∃ cliente, (kvsQuery w.store rt.defaultLimit).find?
              (matchesOrganization organization) = some cliente ∧
            (getProp cliente.2 "presupuesto" = JSVal.null ∨
              getProp cliente.2 "presupuesto" = JSVal.undefined))) :
    (resolutionHandler rt env statusName w).store = w.store ∧
    kvsSets (resolutionHandler rt env statusName w).trace = kvsSets w.trace := by
  obtain ⟨hstore, horgs, hres, htrace⟩ := calculateAndUpdateCosts_frame rt env w
  have hrun : resolutionHandler rt env statusName w = (calculateAndUpdateCosts rt env w).2 := by
    unfold resolutionHandler
    dsimp only
    split
    · rfl
    · split
      · rfl
      · rename_i hdone
        split
        · rfl
        · rcases hcase with h | h
          · rw [hres] at hdone
            exact absurd h hdone
          · apply debitBudget_skips
            rw [horgs, hstore]
            exact h
  rw [hrun]
  exact ⟨hstore, htrace⟩

/-- C8, scenario: a ticket resolved with the outcome "Won\x27t Do" leaves the
stored client and its budget untouched. -/
theorem resolutionHandler_no_save_witness :
    (resolutionHandler utcRuntime scenarioEnv "Resuelto"
        (scenarioWorld [("customfield_10051", JSVal.num (JSNum.fin 250))] (some "Won\x27t Do")
          (scenarioClient (JSVal.str "1000") (JSVal.str "")) none 1717236000000)).store
      = [("cliente-1700000000000", scenarioClient (JSVal.str "1000") (JSVal.str ""))] ∧
    kvsSets (resolutionHandler utcRuntime scenarioEnv "Resuelto"
        (scenarioWorld [("customfield_10051", JSVal.num (JSNum.fin 250))] (some "Won\x27t Do")
          (scenarioClient (JSVal.str "1000") (JSVal.str "")) none 1717236000000)).trace
      = [] := by
  have h := resolutionHandler_no_save utcRuntime scenarioEnv "Resuelto"
    (scenarioWorld [("customfield_10051", JSVal.num (JSNum.fin 250))] (some "Won\x27t Do")
      (scenarioClient (JSVal.str "1000") (JSVal.str "")) none 1717236000000)
    (Or.inl (by simp [scenarioWorld]; decide))
  refine ⟨?_, ?_⟩
  · rw [h.1]
    simp [scenarioWorld]
  · rw [h.2]
    simp [scenarioWorld, kvsSets]

/-- C9: in `resolutionHandler`, on a terminal status with resolution Done, for
every pair of values read from the freshly fetched ticket, the cost to debit is
the total-cost field when it is present and positive; otherwise the
estimated-cost field when it parses to a non-zero number; otherwise the handler
stops and saves nothing. -/
theorem resolutionHandler_final_cost (rt : Runtime) (env : Env) (statusName : String)
    (w : World)
    (hstatus : rt.toUpperCase statusName = "RESUELTO" ∨
      rt.toUpperCase statusName = "COMPLETADO")
    (hdone : w.issue.resolution.map rt.toUpperCase = some "DONE") :
    (∀ costoEstimado costoTotal : JSNum,
      parseFloat (getProp (calculateAndUpdateCosts rt env w).2.issue.fields
        env.COSTOE_FIELD_ID) = costoEstimado →
      parseFloat (getProp (calculateAndUpdateCosts rt env w).2.issue.fields
        env.COSTOT_FIELD_ID) = costoTotal →
      ((costoTotal.truthy && costoTotal.gt (JSNum.fin 0)) = true →
        resolutionHandler rt env statusName w =
          debitBudget rt (calculateAndUpdateCosts rt env w).2 costoTotal) ∧
      ((costoTotal.truthy && costoTotal.gt (JSNum.fin 0)) = false →
        costoEstimado.truthy = true →
        resolutionHandler rt env statusName w =
          debitBudget rt (calculateAndUpdateCosts rt env w).2 costoEstimado) ∧
      ((costoTotal.truthy && costoTotal.gt (JSNum.fin 0)) = false →
        costoEstimado.truthy = false →
        resolutionHandler rt env statusName w = (calculateAndUpdateCosts rt env w).2 ∧
        (resolutionHandler rt env statusName w).store = w.store ∧
        kvsSets (resolutionHandler rt env statusName w).trace = kvsSets w.trace)) ∧
    (∀ x : ℚ, ((JSNum.fin x).truthy && (JSNum.fin x).gt (JSNum.fin 0)) = true ↔ 0 < x) ∧
    (JSNum.nan.truthy && JSNum.nan.gt (JSNum.fin 0)) = false ∧
    (∀ x : ℚ, (JSNum.fin x).truthy = true ↔ x ≠ 0) ∧
    JSNum.nan.truthy = false := by
  refine ⟨?_, ?_, by simp [JSNum.truthy], by simp [JSNum.truthy], rfl⟩
  · intro costoEstimado costoTotal hE hT
    have hrun := resolutionHandler_done rt env statusName w hstatus hdone
    rw [hE, hT] at hrun
    refine ⟨?_, ?_, ?_⟩
    · intro h
      rw [hrun]
      simp [chooseFinalCost, h]
    · intro h he
      rw [hrun]
      simp [chooseFinalCost, h, he]
    · intro h he
      have hw : resolutionHandler rt env statusName w = (calculateAndUpdateCosts rt env w).2 := by
        rw [hrun]
        simp [chooseFinalCost, h, he]
      rw [hw]
      exact ⟨rfl, (calculateAndUpdateCosts_frame rt env w).1,
        (calculateAndUpdateCosts_frame rt env w).2.2.2⟩
  · intro x
    simp only [JSNum.truthy, JSNum.gt, JSNum.lt, Bool.and_eq_true, decide_eq_true_eq]
    constructor
    · intro h; exact h.2
    · intro h; exact ⟨ne_of_gt h, h⟩

/-- C9, scenarios: with estimate 100 and labor cost 20 the written total of 120
is debited rather than the estimate; a ticket without any cost saves nothing. -/
theorem resolutionHandler_final_cost_witness :
    (resolutionHandler utcRuntime scenarioEnv "Completado"
      (scenarioWorld [("customfield_10051", JSVal.num (JSNum.fin 100)),
          ("customfield_10053", JSVal.num (JSNum.fin 20))] (some "Done")
        (scenarioClient (JSVal.str "1000") (JSVal.str "")) none 1717236000000)).store
      = [("cliente-1700000000000", scenarioClient (JSVal.num (JSNum.fin 880)) (JSVal.str ""))] ∧
    kvsSets (resolutionHandler utcRuntime scenarioEnv "Completado"
      (scenarioWorld [] (some "Done")
        (scenarioClient (JSVal.str "1000") (JSVal.str "")) none 1717236000000)).trace = [] := by
  constructor
  · have hcalc := calculateAndUpdateCosts_no_penalty utcRuntime scenarioEnv
      (scenarioWorld [("customfield_10051", JSVal.num (JSNum.fin 100)),
          ("customfield_10053", JSVal.num (JSNum.fin 20))] (some "Done")
        (scenarioClient (JSVal.str "1000") (JSVal.str "")) none 1717236000000)
      { id := JSVal.str "7", name := "Acme" } [] (by simp [scenarioWorld])
      (Or.inr (Or.inr (Or.inl (scenario_resolutionCycle _ _ _ _ _))))
    have hbase : costoBase scenarioEnv
        (scenarioWorld [("customfield_10051", JSVal.num (JSNum.fin 100)),
          ("customfield_10053", JSVal.num (JSNum.fin 20))] (some "Done")
        (scenarioClient (JSVal.str "1000") (JSVal.str "")) none 1717236000000).issue = JSNum.fin 120 := by
      simp [costoBase, scenarioWorld, scenarioEnv, getProp, parseFloat, JSNum.orZero,
        JSNum.truthy, JSNum.add]
      norm_num
    have h120 : JSNum.toFixed2 (JSNum.fin 120) = JSNum.fin 120 := by
      simpa using toFixed2_ofInt 120 (by norm_num [abs_of_pos])
    have h := ((resolutionHandler_final_cost utcRuntime scenarioEnv "Completado"
      (scenarioWorld [("customfield_10051", JSVal.num (JSNum.fin 100)),
          ("customfield_10053", JSVal.num (JSNum.fin 20))] (some "Done")
        (scenarioClient (JSVal.str "1000") (JSVal.str "")) none 1717236000000)
      (Or.inr (by decide)) (by simp [scenarioWorld]; decide)).1 (JSNum.fin 100) (JSNum.fin 120)
      (by
        rw [hcalc, updateJiraFields_other _ _ _ _ _ (by decide) (by decide)]
        simp [scenarioWorld, scenarioEnv, getProp, parseFloat])
      (by
        rw [hcalc, hbase, updateJiraFields_costoTotal _ _ _ _ (by simp [scenarioWorld]), h120]
        simp [jsonNumber, parseFloat])).1
      (by simp [JSNum.truthy, JSNum.gt, JSNum.lt])
    obtain ⟨hstore, horgs, _, _⟩ := calculateAndUpdateCosts_frame utcRuntime scenarioEnv
      (scenarioWorld [("customfield_10051", JSVal.num (JSNum.fin 100)),
          ("customfield_10053", JSVal.num (JSNum.fin 20))] (some "Done")
        (scenarioClient (JSVal.str "1000") (JSVal.str "")) none 1717236000000)
    have hfind := scenario_find [("customfield_10051", JSVal.num (JSNum.fin 100)),
        ("customfield_10053", JSVal.num (JSNum.fin 20))] (some "Done")
      (scenarioClient (JSVal.str "1000") (JSVal.str "")) none 1717236000000 10 (by decide)
      (by simp [scenarioClient, getProp])
    rw [← hstore] at hfind
    rw [h, debitBudget_saves utcRuntime _ (JSNum.fin 120) { id := JSVal.str "7", name := "Acme" }
      [] ("cliente-1700000000000", scenarioClient (JSVal.str "1000") (JSVal.str ""))
      (by rw [horgs]; simp [scenarioWorld]) hfind
      (by simp [scenarioClient, getProp]) (by simp [scenarioClient, getProp])]
    have hsub : (parseFloat (JSVal.str "1000")).sub (JSNum.fin 120) = JSNum.fin 880 := by
      simp [parseFloat, parseFloatChars, parseMagnitude, parseUnsignedDecimal, digitsValue,
        parseExponent, isStrWhiteSpace, JSNum.sub, JSNum.neg, JSNum.add]
      norm_num
    simp [kvsSet, hstore, scenarioWorld, storeSet, scenarioClient, setProp, getProp, hsub]
  · have hcalc := calculateAndUpdateCosts_no_penalty utcRuntime scenarioEnv
      (scenarioWorld [] (some "Done")
        (scenarioClient (JSVal.str "1000") (JSVal.str "")) none 1717236000000)
      { id := JSVal.str "7", name := "Acme" } [] (by simp [scenarioWorld])
      (Or.inr (Or.inr (Or.inl (scenario_resolutionCycle _ _ _ _ _))))
    have hbase : costoBase scenarioEnv
        (scenarioWorld [] (some "Done")
        (scenarioClient (JSVal.str "1000") (JSVal.str "")) none 1717236000000).issue = JSNum.fin 0 := by
      simp [costoBase, scenarioWorld, scenarioEnv, getProp, parseFloat, JSNum.orZero,
        JSNum.truthy, JSNum.add]
    have h0 : JSNum.toFixed2 (JSNum.fin 0) = JSNum.fin 0 := by
      simpa using toFixed2_ofInt 0 (by norm_num)
    have h := ((resolutionHandler_final_cost utcRuntime scenarioEnv "Completado"
      (scenarioWorld [] (some "Done")
        (scenarioClient (JSVal.str "1000") (JSVal.str "")) none 1717236000000)
      (Or.inr (by decide)) (by simp [scenarioWorld]; decide)).1 JSNum.nan (JSNum.fin 0)
      (by
        rw [hcalc, updateJiraFields_other _ _ _ _ _ (by decide) (by decide)]
        simp [scenarioWorld, scenarioEnv, getProp, parseFloat])
      (by
        rw [hcalc, hbase, updateJiraFields_costoTotal _ _ _ _ (by simp [scenarioWorld]), h0]
        simp [jsonNumber, parseFloat])).2.2
      (by simp [JSNum.truthy, JSNum.gt, JSNum.lt]) rfl
    rw [h.2.2]
    simp [scenarioWorld, kvsSets]

/-- The store and the saves left by `resolutionHandler` when a cost is chosen
and the client of the first organization has a budget. -/
theorem resolutionHandler_saved (rt : Runtime) (env : Env) (statusName : String)
    (w : World) (organization : Organization) (rest : List Organization)
    (cliente : String × JSObj) (f : JSNum)
    (hstatus : rt.toUpperCase statusName = "RESUELTO" ∨
      rt.toUpperCase statusName = "COMPLETADO")
    (hdone : w.issue.resolution.map rt.toUpperCase = some "DONE")
    (hf : chooseFinalCost
        (parseFloat (getProp (calculateAndUpdateCosts rt env w).2.issue.fields
          env.COSTOE_FIELD_ID))
        (parseFloat (getProp (calculateAndUpdateCosts rt env w).2.issue.fields
          env.COSTOT_FIELD_ID)) = some f)
    (horg : w.issue.organizations = some (organization :: rest))
    (hcli : (kvsQuery w.store rt.defaultLimit).find? (matchesOrganization organization)
      = some cliente)
    (hnull : getProp cliente.2 "presupuesto" ≠ JSVal.null)
    (hundef : getProp cliente.2 "presupuesto" ≠ JSVal.undefined) :
    (resolutionHandler rt env statusName w).store =
      storeSet w.store cliente.1 (setProp cliente.2 "presupuesto"
        (JSVal.num ((parseFloat (getProp cliente.2 "presupuesto")).sub f))) ∧
    kvsSets (resolutionHandler rt env statusName w).trace =
      kvsSets w.trace ++ [(cliente.1, setProp cliente.2 "presupuesto"
        (JSVal.num ((parseFloat (getProp cliente.2 "presupuesto")).sub f)))] := by
  obtain ⟨hstore, horgs, _, htrace⟩ := calculateAndUpdateCosts_frame rt env w
  have hrun : resolutionHandler rt env statusName w =
      kvsSet (calculateAndUpdateCosts rt env w).2 cliente.1
        (setProp cliente.2 "presupuesto"
          (JSVal.num ((parseFloat (getProp cliente.2 "presupuesto")).sub f))) := by
    rw [resolutionHandler_done rt env statusName w hstatus hdone, hf]
    exact debitBudget_saves rt _ f organization rest cliente (horgs.trans horg)
      (by rw [hstore]; exact hcli) hnull hundef
  constructor
  · rw [hrun]
    simp [kvsSet, hstore]
  · rw [hrun]
    simp [kvsSet, World.emit, kvsSets_append, htrace]
    simp [kvsSets]

/-- C10 as the code has it: on a terminal status with resolution Done, an
organization whose client has a budget and a writable total-cost field, the
handler debits the cost returned by the penalty calculation, rounded to two
decimals, when that rounded cost is a positive finite number; when it is zero,
negative or not finite, the handler debits the estimated-cost field instead,
provided that field parses to a non-zero number. -/
theorem resolutionHandler_debits_written_total (rt : Runtime) (env : Env)
    (statusName : String) (w : World) (organization : Organization)
    (rest : List Organization) (cliente : String × JSObj) (c : JSNum)
    (hstatus : rt.toUpperCase statusName = "RESUELTO" ∨
      rt.toUpperCase statusName = "COMPLETADO")
    (hdone : w.issue.resolution.map rt.toUpperCase = some "DONE")
    (horg : w.issue.organizations = some (organization :: rest))
    (hcli : (kvsQuery w.store rt.defaultLimit).find? (matchesOrganization organization)
      = some cliente)
    (hnull : getProp cliente.2 "presupuesto" ≠ JSVal.null)
    (hundef : getProp cliente.2 "presupuesto" ≠ JSVal.undefined)
    (hT : w.writable env.COSTOT_FIELD_ID = true)
    (hcalc : (calculateAndUpdateCosts rt env w).1 = some c) :
    (∀ q : ℚ, c.toFixed2 = JSNum.fin q → 0 < q →
      (resolutionHandler rt env statusName w).store =
        storeSet w.store cliente.1 (setProp cliente.2 "presupuesto"
          (JSVal.num ((parseFloat (getProp cliente.2 "presupuesto")).sub (JSNum.fin q)))) ∧
      kvsSets (resolutionHandler rt env statusName w).trace =
        kvsSets w.trace ++ [(cliente.1, setProp cliente.2 "presupuesto"
          (JSVal.num ((parseFloat (getProp cliente.2 "presupuesto")).sub (JSNum.fin q))))]) ∧
    ((∀ q : ℚ, c.toFixed2 = JSNum.fin q → q ≤ 0) →
      env.COSTOE_FIELD_ID ≠ env.PERCENTAGE_FIELD_ID →
      env.COSTOE_FIELD_ID ≠ env.COSTOT_FIELD_ID →
      (parseFloat (getProp w.issue.fields env.COSTOE_FIELD_ID)).truthy = true →
      (resolutionHandler rt env statusName w).store =
        storeSet w.store cliente.1 (setProp cliente.2 "presupuesto"
          (JSVal.num ((parseFloat (getProp cliente.2 "presupuesto")).sub
            (parseFloat (getProp w.issue.fields env.COSTOE_FIELD_ID))))) ∧
      kvsSets (resolutionHandler rt env statusName w).trace =
        kvsSets w.trace ++ [(cliente.1, setProp cliente.2 "presupuesto"
          (JSVal.num ((parseFloat (getProp cliente.2 "presupuesto")).sub
            (parseFloat (getProp w.issue.fields env.COSTOE_FIELD_ID)))))]) := by
  obtain ⟨p, hw⟩ : ∃ p, calculateAndUpdateCosts rt env w = (some c, updateJiraFields env w p c) := by
    rcases calculateAndUpdateCosts_cases rt env w with h | ⟨p, c2, h⟩
    · rw [h] at hcalc
      cases hcalc
    · rw [h] at hcalc
      cases hcalc
      exact ⟨p, h⟩
  have hTot : parseFloat (getProp (calculateAndUpdateCosts rt env w).2.issue.fields
      env.COSTOT_FIELD_ID) = parseFloat (jsonNumber c.toFixed2) := by
    rw [hw, updateJiraFields_costoTotal env w p c hT]
  constructor
  · intro q hq hpos
    apply resolutionHandler_saved rt env statusName w organization rest cliente (JSNum.fin q)
      hstatus hdone _ horg hcli hnull hundef
    rw [hTot, hq]
    simp [jsonNumber, parseFloat, chooseFinalCost, JSNum.truthy, JSNum.gt, JSNum.lt, hpos,
      ne_of_gt hpos]
  · intro hnon hEP hET hE
    apply resolutionHandler_saved rt env statusName w organization rest cliente _
      hstatus hdone _ horg hcli hnull hundef
    have hEst : parseFloat (getProp (calculateAndUpdateCosts rt env w).2.issue.fields
        env.COSTOE_FIELD_ID) = parseFloat (getProp w.issue.fields env.COSTOE_FIELD_ID) := by
      rw [hw, updateJiraFields_other env w p c _ hEP hET]
    rw [hTot, hEst]
    have hnan : JSNum.nan.truthy = false := rfl
    cases hc : c.toFixed2 with
    | nan => simp [jsonNumber, parseFloat_null, chooseFinalCost, hnan, hE]
    | posInf => simp [jsonNumber, parseFloat_null, chooseFinalCost, hnan, hE]
    | negInf => simp [jsonNumber, parseFloat_null, chooseFinalCost, hnan, hE]
    | fin q =>
      have hq : (JSNum.fin q).gt (JSNum.fin 0) = false := by
        simp [JSNum.gt, JSNum.lt, hnon q hc]
      simp [jsonNumber, parseFloat_num, chooseFinalCost, hq, hE]

theorem costoTotalFinal_fin (b r m : ℚ) :
    costoTotalFinal (JSNum.fin b) (JSNum.fin r) (JSNum.fin m)
      = JSNum.fin (b - b * ((((⌈|m| / 3600000⌉ : ℤ) : ℚ) * r) / 100)) := by
  simp [costoTotalFinal, totalPenaltyPercentage, breachTimeHours_fin, JSNum.mul, JSNum.div,
    JSNum.sub, JSNum.neg, JSNum.add]
  ring

theorem scenario_costoBase_100 (resolution : Option String) (cliente : JSObj)
    (cycle : Option SlaCycle) (now : ℤ) :
    costoBase scenarioEnv
      (scenarioWorld [("customfield_10051", JSVal.num (JSNum.fin 100))] resolution cliente
        cycle now).issue = JSNum.fin 100 := by
  simp [costoBase, scenarioWorld, scenarioEnv, getProp, parseFloat, JSNum.orZero,
    JSNum.truthy, JSNum.add]

/-- C10 fails as stated: estimate 100, rate 5 per hour, SLA breached by 20
hours, budget 1000, both field writes accepted.  The penalty calculation
returns a final cost of 0, yet the handler debits the estimate of 100 and saves
a budget of 900, not 1000. -/
theorem resolutionHandler_debit_is_not_final_cost :
    (calculateAndUpdateCosts utcRuntime scenarioEnv
      (scenarioWorld [("customfield_10051", JSVal.num (JSNum.fin 100))] (some "Done")
        (scenarioClient (JSVal.str "1000") (JSVal.num (JSNum.fin 5)))
        (some { breached := true, remainingMillis := some (JSNum.fin (-72000000)) })
        1717236000000)).1 = some (JSNum.fin 0) ∧
    (resolutionHandler utcRuntime scenarioEnv "Resuelto"
      (scenarioWorld [("customfield_10051", JSVal.num (JSNum.fin 100))] (some "Done")
        (scenarioClient (JSVal.str "1000") (JSVal.num (JSNum.fin 5)))
        (some { breached := true, remainingMillis := some (JSNum.fin (-72000000)) })
        1717236000000)).store
      = [("cliente-1700000000000",
          scenarioClient (JSVal.num (JSNum.fin 900)) (JSVal.num (JSNum.fin 5)))] ∧
    (JSNum.fin 1000).sub (JSNum.toFixed2 (JSNum.fin 0)) ≠ JSNum.fin 900 := by
  have h0 : JSNum.toFixed2 (JSNum.fin 0) = JSNum.fin 0 := by
    simpa using toFixed2_ofInt 0 (by norm_num)
  have hceil : ⌈|(-72000000 : ℚ)| / 3600000⌉ = 20 := by
    rw [Int.ceil_eq_iff]; norm_num [abs_of_neg]
  have hrate : parseFloat (getProp
      ("cliente-1700000000000",
        scenarioClient (JSVal.str "1000") (JSVal.num (JSNum.fin 5))).2 "slaPenaltyPercentage")
      = JSNum.fin 5 := by
    simp [scenarioClient, getProp, parseFloat]
  have hfinal : costoTotalFinal (JSNum.fin 100) (JSNum.fin 5) (JSNum.fin (-72000000))
      = JSNum.fin 0 := by
    rw [costoTotalFinal_fin, hceil]; norm_num
  have hcalc := calculateAndUpdateCosts_breached utcRuntime scenarioEnv
    (scenarioWorld [("customfield_10051", JSVal.num (JSNum.fin 100))] (some "Done")
        (scenarioClient (JSVal.str "1000") (JSVal.num (JSNum.fin 5)))
        (some { breached := true, remainingMillis := some (JSNum.fin (-72000000)) })
        1717236000000)
    { id := JSVal.str "7", name := "Acme" } []
    ("cliente-1700000000000", scenarioClient (JSVal.str "1000") (JSVal.num (JSNum.fin 5)))
    { breached := true, remainingMillis := some (JSNum.fin (-72000000)) }
    (JSNum.fin (-72000000))
    (by simp [scenarioWorld])
    (scenario_find _ _ _ _ _ _ (by decide) (by simp [scenarioClient, getProp]))
    (by simp [scenarioClient, getProp, JSVal.truthy, JSNum.truthy])
    (scenario_resolutionCycle _ _ _ _ _) rfl rfl
  rw [scenario_costoBase_100, hrate, hfinal] at hcalc
  have hsaved := resolutionHandler_saved utcRuntime scenarioEnv "Resuelto"
    (scenarioWorld [("customfield_10051", JSVal.num (JSNum.fin 100))] (some "Done")
        (scenarioClient (JSVal.str "1000") (JSVal.num (JSNum.fin 5)))
        (some { breached := true, remainingMillis := some (JSNum.fin (-72000000)) })
        1717236000000)
    { id := JSVal.str "7", name := "Acme" } []
    ("cliente-1700000000000", scenarioClient (JSVal.str "1000") (JSVal.num (JSNum.fin 5)))
    (JSNum.fin 100)
    (Or.inl (by decide)) (by simp [scenarioWorld]; decide)
    (by
      rw [hcalc]
      rw [updateJiraFields_costoTotal _ _ _ _ (by simp [scenarioWorld]),
        updateJiraFields_other _ _ _ _ _ (by decide) (by decide), h0]
      simp [scenarioWorld, scenarioEnv, getProp, parseFloat, jsonNumber, chooseFinalCost,
        JSNum.truthy, JSNum.gt, JSNum.lt])
    (by simp [scenarioWorld])
    (scenario_find _ _ _ _ _ _ (by decide) (by simp [scenarioClient, getProp]))
    (by simp [scenarioClient, getProp]) (by simp [scenarioClient, getProp])
  have hsub : (parseFloat (JSVal.str "1000")).sub (JSNum.fin 100) = JSNum.fin 900 := by
    simp [parseFloat, parseFloatChars, parseMagnitude, parseUnsignedDecimal, digitsValue,
      parseExponent, isStrWhiteSpace, JSNum.sub, JSNum.neg, JSNum.add]
    norm_num
  refine ⟨?_, ?_, ?_⟩
  · rw [hcalc]
  · rw [hsaved.1]
    simp [scenarioWorld, storeSet, scenarioClient, setProp, getProp, hsub]
  · rw [h0]
    simp [JSNum.sub, JSNum.neg, JSNum.add]

/-- C10 as the code has it, scenario: estimate 100, rate 5 per hour, SLA
breached by 2 hours, budget 1000: the final cost of 90 is debited and a budget
of 910 is saved. -/
theorem resolutionHandler_debits_written_total_witness :
    (resolutionHandler utcRuntime scenarioEnv "Resuelto"
      (scenarioWorld [("customfield_10051", JSVal.num (JSNum.fin 100))] (some "Done")
        (scenarioClient (JSVal.str "1000") (JSVal.num (JSNum.fin 5)))
        (some { breached := true, remainingMillis := some (JSNum.fin (-7200000)) })
        1717236000000)).store
      = [("cliente-1700000000000",
          scenarioClient (JSVal.num (JSNum.fin 910)) (JSVal.num (JSNum.fin 5)))] := by
  have h90 : JSNum.toFixed2 (JSNum.fin 90) = JSNum.fin 90 := by
    simpa using toFixed2_ofInt 90 (by norm_num [abs_of_pos])
  have hceil : ⌈|(-7200000 : ℚ)| / 3600000⌉ = 2 := by
    rw [Int.ceil_eq_iff]; norm_num [abs_of_neg]
  have hrate : parseFloat (getProp
      ("cliente-1700000000000",
        scenarioClient (JSVal.str "1000") (JSVal.num (JSNum.fin 5))).2 "slaPenaltyPercentage")
      = JSNum.fin 5 := by
    simp [scenarioClient, getProp, parseFloat]
  have hfinal : costoTotalFinal (JSNum.fin 100) (JSNum.fin 5) (JSNum.fin (-7200000))
      = JSNum.fin 90 := by
    rw [costoTotalFinal_fin, hceil]; norm_num
  have hcalc := calculateAndUpdateCosts_breached utcRuntime scenarioEnv
    (scenarioWorld [("customfield_10051", JSVal.num (JSNum.fin 100))] (some "Done")
        (scenarioClient (JSVal.str "1000") (JSVal.num (JSNum.fin 5)))
        (some { breached := true, remainingMillis := some (JSNum.fin (-7200000)) })
        1717236000000)
    { id := JSVal.str "7", name := "Acme" } []
    ("cliente-1700000000000", scenarioClient (JSVal.str "1000") (JSVal.num (JSNum.fin 5)))
    { breached := true, remainingMillis := some (JSNum.fin (-7200000)) }
    (JSNum.fin (-7200000))
    (by simp [scenarioWorld])
    (scenario_find _ _ _ _ _ _ (by decide) (by simp [scenarioClient, getProp]))
    (by simp [scenarioClient, getProp, JSVal.truthy, JSNum.truthy])
    (scenario_resolutionCycle _ _ _ _ _) rfl rfl
  rw [scenario_costoBase_100, hrate, hfinal] at hcalc
  have h := (resolutionHandler_debits_written_total utcRuntime scenarioEnv "Resuelto"
    (scenarioWorld [("customfield_10051", JSVal.num (JSNum.fin 100))] (some "Done")
        (scenarioClient (JSVal.str "1000") (JSVal.num (JSNum.fin 5)))
        (some { breached := true, remainingMillis := some (JSNum.fin (-7200000)) })
        1717236000000)
    { id := JSVal.str "7", name := "Acme" } []
    ("cliente-1700000000000", scenarioClient (JSVal.str "1000") (JSVal.num (JSNum.fin 5)))
    (JSNum.fin 90)
    (Or.inl (by decide)) (by simp [scenarioWorld]; decide)
    (by simp [scenarioWorld])
    (scenario_find _ _ _ _ _ _ (by decide) (by simp [scenarioClient, getProp]))
    (by simp [scenarioClient, getProp]) (by simp [scenarioClient, getProp])
    (by simp [scenarioWorld]) (by rw [hcalc])).1 90 h90 (by norm_num)
  have hsub : (parseFloat (JSVal.str "1000")).sub (JSNum.fin 90) = JSNum.fin 910 := by
    simp [parseFloat, parseFloatChars, parseMagnitude, parseUnsignedDecimal, digitsValue,
      parseExponent, isStrWhiteSpace, JSNum.sub, JSNum.neg, JSNum.add]
    norm_num
  rw [h.1]
  simp [scenarioWorld, storeSet, scenarioClient, setProp, getProp, hsub]

/-! ## Repeated reconciliation -/

theorem mem_keys_of_find_kvsQuery (store : List (String × JSObj)) (n : ℕ)
    (p : String × JSObj → Bool) (x : String × JSObj)
    (h : (kvsQuery store n).find? p = some x) : x.1 ∈ store.map Prod.fst := by
  have h1 : x ∈ kvsQuery store n := List.mem_of_find?_eq_some h
  have h2 : x ∈ store := List.mem_of_mem_filter (List.mem_of_mem_take h1)
  exact List.mem_map_of_mem Prod.fst h2

theorem kvsQuery_cons_pos (k1 : String) (v1 : JSObj) (rest : List (String × JSObj)) (m : ℕ)
    (hp : "cliente-".toList.isPrefixOf k1.toList = true) :
    kvsQuery ((k1, v1) :: rest) (m + 1) = (k1, v1) :: kvsQuery rest m := by
  unfold kvsQuery
  rw [List.filter_cons_of_pos (by exact hp), List.take_succ_cons]

theorem kvsQuery_cons_neg (k1 : String) (v1 : JSObj) (rest : List (String × JSObj)) (n : ℕ)
    (hp : "cliente-".toList.isPrefixOf k1.toList = false) :
    kvsQuery ((k1, v1) :: rest) n = kvsQuery rest n := by
  unfold kvsQuery
  rw [List.filter_cons_of_neg (by rw [hp]; exact Bool.false_ne_true)]

/-- A save under the key of the record found for an organization makes the next
lookup for that organization return the saved record, provided the keys of the
store are distinct and the save keeps the organization identifier. -/
theorem find_kvsQuery_storeSet (organization : Organization) (k : String) (v v2 : JSObj)
    (hid : getProp v2 "organizationId" = getProp v "organizationId") :
    ∀ (store : List (String × JSObj)) (n : ℕ),
      (store.map Prod.fst).Nodup →
      (kvsQuery store n).find? (matchesOrganization organization) = some (k, v) →
      (kvsQuery (storeSet store k v2) n).find? (matchesOrganization organization)
        = some (k, v2) := by
  intro store
  induction store with
  | nil => intro n _ h; simp [kvsQuery] at h
  | cons e rest ih =>
    intro n hnodup hfind
    obtain ⟨k1, v1⟩ := e
    have hnd : k1 ∉ rest.map Prod.fst ∧ (rest.map Prod.fst).Nodup := by
      simpa using hnodup
    by_cases hp : "cliente-".toList.isPrefixOf k1.toList = true
    · cases n with
      | zero => simp [kvsQuery] at hfind
      | succ m =>
        rw [kvsQuery_cons_pos k1 v1 rest m hp, List.find?_cons] at hfind
        by_cases hm : matchesOrganization organization (k1, v1) = true
        · rw [hm] at hfind
          simp at hfind
          obtain ⟨hk, hv⟩ := hfind
          subst hk
          subst hv
          have hm2 : matchesOrganization organization (k1, v2) = true := by
            simpa [matchesOrganization, hid] using hm
          have hs : storeSet ((k1, v1) :: rest) k1 v2 = (k1, v2) :: rest := by
            simp [storeSet]
          rw [hs, kvsQuery_cons_pos k1 v2 rest m hp, List.find?_cons, hm2]
        · have hm0 : matchesOrganization organization (k1, v1) = false := by
            simpa using hm
          rw [hm0] at hfind
          have hk : k1 ≠ k := by
            intro hk
            have := mem_keys_of_find_kvsQuery rest m _ _ hfind
            rw [← hk] at this
            exact hnd.1 this
          have hs : storeSet ((k1, v1) :: rest) k v2 = (k1, v1) :: storeSet rest k v2 := by
            simp [storeSet, hk]
          rw [hs, kvsQuery_cons_pos k1 v1 _ m hp, List.find?_cons, hm0]
          exact ih m hnd.2 hfind
    · have hp0 : "cliente-".toList.isPrefixOf k1.toList = false := Bool.eq_false_iff.mpr hp
      rw [kvsQuery_cons_neg k1 v1 rest n hp0] at hfind
      have hk : k1 ≠ k := by
        intro hk
        have := mem_keys_of_find_kvsQuery rest n _ _ hfind
        rw [← hk] at this
        exact hnd.1 this
      have hs : storeSet ((k1, v1) :: rest) k v2 = (k1, v1) :: storeSet rest k v2 := by
        simp [storeSet, hk]
      rw [hs, kvsQuery_cons_neg k1 v1 _ n hp0]
      exact ih n hnd.2 hfind

theorem mem_keys_storeSet (store : List (String × JSObj)) (k : String) (v : JSObj) (x : String)
    (h : x ∈ (storeSet store k v).map Prod.fst) : x ∈ store.map Prod.fst ∨ x = k := by
  induction store with
  | nil => simpa [storeSet] using h
  | cons e rest ih =>
    obtain ⟨k1, v1⟩ := e
    by_cases hk : k1 = k
    · simp [storeSet, hk] at h ⊢
      rcases h with h | h
      · exact Or.inr h
      · exact Or.inl (Or.inr h)
    · simp only [storeSet, hk, if_false, List.map_cons, List.mem_cons] at h ⊢
      rcases h with h | h
      · exact Or.inl (Or.inl h)
      · rcases ih h with h2 | h2
        · exact Or.inl (Or.inr h2)
        · exact Or.inr h2

/-- A save keeps the keys of the store distinct. -/
theorem storeSet_nodup (store : List (String × JSObj)) (k : String) (v : JSObj)
    (h : (store.map Prod.fst).Nodup) : ((storeSet store k v).map Prod.fst).Nodup := by
  induction store with
  | nil => simp [storeSet]
  | cons e rest ih =>
    obtain ⟨k1, v1⟩ := e
    have hnd : k1 ∉ rest.map Prod.fst ∧ (rest.map Prod.fst).Nodup := by
      simpa using h
    by_cases hk : k1 = k
    · subst hk
      simpa [storeSet] using h
    · simp only [storeSet, hk, if_false, List.map_cons, List.nodup_cons]
      refine ⟨?_, ih hnd.2⟩
      intro hmem
      rcases mem_keys_storeSet rest k v k1 hmem with h2 | h2
      · exact hnd.1 h2
      · exact hk h2

theorem resolutionCycle_congr (v w : World) (h : v.sla = w.sla) :
    resolutionCycle v = resolutionCycle w := by
  simp [resolutionCycle, h]

theorem scenario_costoBase_250 (resolution : Option String) (cliente : JSObj)
    (cycle : Option SlaCycle) (now : ℤ) :
    costoBase scenarioEnv
      (scenarioWorld [("customfield_10051", JSVal.num (JSNum.fin 250))] resolution cliente
        cycle now).issue = JSNum.fin 250 := by
  simp [costoBase, scenarioWorld, scenarioEnv, getProp, parseFloat, JSNum.orZero,
    JSNum.truthy, JSNum.add]

theorem debitBudget_frame (rt : Runtime) (w : World) (cost : JSNum) :
    (debitBudget rt w cost).issue = w.issue ∧ (debitBudget rt w cost).sla = w.sla ∧
    (debitBudget rt w cost).writable = w.writable := by
  unfold debitBudget
  split
  · exact ⟨rfl, rfl, rfl⟩
  · exact ⟨rfl, rfl, rfl⟩
  · split
    · exact ⟨rfl, rfl, rfl⟩
    · dsimp only
      split
      · exact ⟨rfl, rfl, rfl⟩
      · exact ⟨rfl, rfl, rfl⟩

theorem updateJiraFields_platform (env : Env) (w : World) (percentage totalCost : JSNum) :
    (updateJiraFields env w percentage totalCost).sla = w.sla ∧
    (updateJiraFields env w percentage totalCost).writable = w.writable := by
  have h : ∀ (v : World) (field : String) (n : JSNum),
      (putField v field n).sla = v.sla ∧ (putField v field n).writable = v.writable := by
    intro v field n
    unfold putField
    by_cases hw : v.writable field = true <;> simp [hw, World.emit]
  unfold updateJiraFields
  exact ⟨(h _ _ _).1.trans (h _ _ _).1, (h _ _ _).2.trans (h _ _ _).2⟩

theorem calculateAndUpdateCosts_platform (rt : Runtime) (env : Env) (w : World) :
    (calculateAndUpdateCosts rt env w).2.sla = w.sla ∧
    (calculateAndUpdateCosts rt env w).2.writable = w.writable := by
  rcases calculateAndUpdateCosts_cases rt env w with h | ⟨p, c, h⟩
  · simp [h]
  · rw [h]
    exact updateJiraFields_platform env w p c

/-- What `resolutionHandler` leaves untouched: the ticket is the one left by
`calculateAndUpdateCosts`, its organizations and resolution are those before the
call, and the SLA and the writable fields do not change. -/
theorem resolutionHandler_frame (rt : Runtime) (env : Env) (statusName : String) (w : World) :
    (resolutionHandler rt env statusName w).issue = (calculateAndUpdateCosts rt env w).2.issue ∧
    (resolutionHandler rt env statusName w).issue.organizations = w.issue.organizations ∧
    (resolutionHandler rt env statusName w).issue.resolution = w.issue.resolution ∧
    (resolutionHandler rt env statusName w).sla = w.sla ∧
    (resolutionHandler rt env statusName w).writable = w.writable := by
  obtain ⟨_, horgs, hres, _⟩ := calculateAndUpdateCosts_frame rt env w
  obtain ⟨hsla, hwr⟩ := calculateAndUpdateCosts_platform rt env w
  have hrun : resolutionHandler rt env statusName w = (calculateAndUpdateCosts rt env w).2 ∨
      ∃ cost, resolutionHandler rt env statusName w
        = debitBudget rt (calculateAndUpdateCosts rt env w).2 cost := by
    unfold resolutionHandler
    dsimp only
    split
    · exact Or.inl rfl
    · split
      · exact Or.inl rfl
      · split
        · exact Or.inl rfl
        · exact Or.inr ⟨_, rfl⟩
  rcases hrun with h | ⟨cost, h⟩
  · rw [h]
    exact ⟨rfl, horgs, hres, hsla, hwr⟩
  · obtain ⟨d1, d2, d3⟩ := debitBudget_frame rt (calculateAndUpdateCosts rt env w).2 cost
    rw [h, d1, d2, d3]
    exact ⟨rfl, horgs, hres, hsla, hwr⟩

/-- C11: `resolutionHandler` has no idempotency guard.  Invoked twice on the same
Done ticket, with the same final cost `f` chosen both times, the same client and
no other writer in between, it saves the client twice and the budget saved by
the second call is the starting budget minus `f` twice. -/
theorem resolutionHandler_twice_debits_twice (rt : Runtime) (env : Env) (statusName : String)
    (w : World) (organization : Organization) (rest : List Organization)
    (cliente : String × JSObj) (f : JSNum)
    (hstatus : rt.toUpperCase statusName = "RESUELTO" ∨
      rt.toUpperCase statusName = "COMPLETADO")
    (hdone : w.issue.resolution.map rt.toUpperCase = some "DONE")
    (horg : w.issue.organizations = some (organization :: rest))
    (hkeys : (w.store.map Prod.fst).Nodup)
    (hcli : (kvsQuery w.store rt.defaultLimit).find? (matchesOrganization organization)
      = some cliente)
    (hnull : getProp cliente.2 "presupuesto" ≠ JSVal.null)
    (hundef : getProp cliente.2 "presupuesto" ≠ JSVal.undefined)
    (hf1 : chooseFinalCost
        (parseFloat (getProp (calculateAndUpdateCosts rt env w).2.issue.fields
          env.COSTOE_FIELD_ID))
        (parseFloat (getProp (calculateAndUpdateCosts rt env w).2.issue.fields
          env.COSTOT_FIELD_ID)) = some f)
    (hf2 : chooseFinalCost
        (parseFloat (getProp (calculateAndUpdateCosts rt env
          (resolutionHandler rt env statusName w)).2.issue.fields env.COSTOE_FIELD_ID))
        (parseFloat (getProp (calculateAndUpdateCosts rt env
          (resolutionHandler rt env statusName w)).2.issue.fields env.COSTOT_FIELD_ID))
        = some f) :
    kvsSets (resolutionHandler rt env statusName
        (resolutionHandler rt env statusName w)).trace =
      kvsSets w.trace ++
        [(cliente.1, setProp cliente.2 "presupuesto"
            (JSVal.num ((parseFloat (getProp cliente.2 "presupuesto")).sub f))),
          (cliente.1, setProp cliente.2 "presupuesto"
            (JSVal.num (((parseFloat (getProp cliente.2 "presupuesto")).sub f).sub f)))] ∧
    (kvsQuery (resolutionHandler rt env statusName
        (resolutionHandler rt env statusName w)).store rt.defaultLimit).find?
        (matchesOrganization organization) =
      some (cliente.1, setProp cliente.2 "presupuesto"
        (JSVal.num (((parseFloat (getProp cliente.2 "presupuesto")).sub f).sub f))) ∧
    (∀ b c : ℚ, parseFloat (getProp cliente.2 "presupuesto") = JSNum.fin b → f = JSNum.fin c →
      ((parseFloat (getProp cliente.2 "presupuesto")).sub f).sub f = JSNum.fin (b - 2 * c)) := by
  obtain ⟨k, record⟩ := cliente
  have hother : ∀ (o : JSObj) (x : JSVal),
      getProp (setProp o "presupuesto" x) "organizationId" = getProp o "organizationId" :=
    fun o x => getProp_setProp_other o "presupuesto" "organizationId" x (by decide)
  have hagain : ∀ (o : JSObj) (x y : JSVal),
      setProp (setProp o "presupuesto" x) "presupuesto" y = setProp o "presupuesto" y := by
    intro o x y
    induction o with
    | nil => simp [setProp]
    | cons p tail ih =>
      obtain ⟨k1, v1⟩ := p
      by_cases h : k1 = "presupuesto"
      · simp [setProp, h]
      · simp [setProp, h, ih]
  obtain ⟨s1, t1⟩ := resolutionHandler_saved rt env statusName w organization rest (k, record) f
    hstatus hdone hf1 horg hcli hnull hundef
  obtain ⟨_, forgs, fres, _, _⟩ := resolutionHandler_frame rt env statusName w
  have hcli2 : (kvsQuery (resolutionHandler rt env statusName w).store rt.defaultLimit).find?
      (matchesOrganization organization) =
      some (k, setProp record "presupuesto"
        (JSVal.num ((parseFloat (getProp record "presupuesto")).sub f))) := by
    rw [s1]
    exact find_kvsQuery_storeSet organization k record _ (hother _ _) w.store rt.defaultLimit
      hkeys hcli
  obtain ⟨s2, t2⟩ := resolutionHandler_saved rt env statusName
    (resolutionHandler rt env statusName w) organization rest
    (k, setProp record "presupuesto"
      (JSVal.num ((parseFloat (getProp record "presupuesto")).sub f))) f
    hstatus (by rw [fres]; exact hdone) hf2 (by rw [forgs]; exact horg) hcli2
    (by simp [getProp_setProp_same]) (by simp [getProp_setProp_same])
  simp only [getProp_setProp_same, parseFloat_num, hagain] at s2 t2
  refine ⟨?_, ?_, ?_⟩
  · rw [t2, t1]
    simp
  · rw [s2]
    have hkeys2 : ((resolutionHandler rt env statusName w).store.map Prod.fst).Nodup := by
      rw [s1]
      exact storeSet_nodup w.store k _ hkeys
    exact find_kvsQuery_storeSet organization k _ _ (by rw [hother, hother])
      (resolutionHandler rt env statusName w).store rt.defaultLimit hkeys2 hcli2
  · intro b c hb hc
    rw [hb, hc]
    simp [JSNum.sub, JSNum.neg, JSNum.add]
    ring

/-- C11, scenario: final cost 250, starting budget 1000.  Two invocations on the
same ticket save budgets 750 and then 500. -/
theorem resolutionHandler_twice_debits_twice_witness :
    kvsSets (resolutionHandler utcRuntime scenarioEnv "Resuelto"
      (resolutionHandler utcRuntime scenarioEnv "Resuelto"
      (scenarioWorld [("customfield_10051", JSVal.num (JSNum.fin 250))] (some "Done")
        (scenarioClient (JSVal.str "1000") (JSVal.str "")) none 1717236000000))).trace
      = [("cliente-1700000000000", scenarioClient (JSVal.num (JSNum.fin 750)) (JSVal.str "")),
          ("cliente-1700000000000",
            scenarioClient (JSVal.num (JSNum.fin 500)) (JSVal.str ""))] := by
  have h250 : JSNum.toFixed2 (JSNum.fin 250) = JSNum.fin 250 := by
    simpa using toFixed2_ofInt 250 (by norm_num [abs_of_pos])
  have hcalc := calculateAndUpdateCosts_no_penalty utcRuntime scenarioEnv
    (scenarioWorld [("customfield_10051", JSVal.num (JSNum.fin 250))] (some "Done")
        (scenarioClient (JSVal.str "1000") (JSVal.str "")) none 1717236000000)
    { id := JSVal.str "7", name := "Acme" } [] (by simp [scenarioWorld])
    (Or.inr (Or.inr (Or.inl (scenario_resolutionCycle _ _ _ _ _))))
  rw [scenario_costoBase_250] at hcalc
  have hE1 : getProp (calculateAndUpdateCosts utcRuntime scenarioEnv
      (scenarioWorld [("customfield_10051", JSVal.num (JSNum.fin 250))] (some "Done")
        (scenarioClient (JSVal.str "1000") (JSVal.str "")) none 1717236000000)).2.issue.fields "customfield_10051" = JSVal.num (JSNum.fin 250) := by
    rw [hcalc]
    exact (updateJiraFields_other scenarioEnv _ _ _ "customfield_10051" (by decide)
      (by decide)).trans (by simp [scenarioWorld, getProp])
  have hA1 : getProp (calculateAndUpdateCosts utcRuntime scenarioEnv
      (scenarioWorld [("customfield_10051", JSVal.num (JSNum.fin 250))] (some "Done")
        (scenarioClient (JSVal.str "1000") (JSVal.str "")) none 1717236000000)).2.issue.fields "customfield_10053" = JSVal.undefined := by
    rw [hcalc]
    exact (updateJiraFields_other scenarioEnv _ _ _ "customfield_10053" (by decide)
      (by decide)).trans (by simp [scenarioWorld, getProp])
  have hT1 : getProp (calculateAndUpdateCosts utcRuntime scenarioEnv
      (scenarioWorld [("customfield_10051", JSVal.num (JSNum.fin 250))] (some "Done")
        (scenarioClient (JSVal.str "1000") (JSVal.str "")) none 1717236000000)).2.issue.fields "customfield_10052" = JSVal.num (JSNum.fin 250) := by
    rw [hcalc]
    exact (updateJiraFields_costoTotal scenarioEnv _ _ _ (by simp [scenarioWorld])).trans
      (by rw [h250]; rfl)
  obtain ⟨fissue, forgs, _, fsla, fwr⟩ := resolutionHandler_frame utcRuntime scenarioEnv
    "Resuelto"
    (scenarioWorld [("customfield_10051", JSVal.num (JSNum.fin 250))] (some "Done")
        (scenarioClient (JSVal.str "1000") (JSVal.str "")) none 1717236000000)
  have hchoose : chooseFinalCost (JSNum.fin 250) (JSNum.fin 250) = some (JSNum.fin 250) := by
    simp [chooseFinalCost, JSNum.truthy, JSNum.gt, JSNum.lt]
  have hcalc2 := calculateAndUpdateCosts_no_penalty utcRuntime scenarioEnv
    (resolutionHandler utcRuntime scenarioEnv "Resuelto"
      (scenarioWorld [("customfield_10051", JSVal.num (JSNum.fin 250))] (some "Done")
        (scenarioClient (JSVal.str "1000") (JSVal.str "")) none 1717236000000))
    { id := JSVal.str "7", name := "Acme" } [] (by rw [forgs]; simp [scenarioWorld])
    (Or.inr (Or.inr (Or.inl (by
      rw [resolutionCycle_congr _ _ fsla]
      exact scenario_resolutionCycle _ _ _ _ _))))
  have hbase2 : costoBase scenarioEnv (resolutionHandler utcRuntime scenarioEnv "Resuelto"
      (scenarioWorld [("customfield_10051", JSVal.num (JSNum.fin 250))] (some "Done")
        (scenarioClient (JSVal.str "1000") (JSVal.str "")) none 1717236000000)).issue = JSNum.fin 250 := by
    have e1 : scenarioEnv.COSTOE_FIELD_ID = "customfield_10051" := rfl
    have e3 : scenarioEnv.COSTOA_FIELD_ID = "customfield_10053" := rfl
    rw [fissue, costoBase, e1, e3, hE1, hA1]
    simp [parseFloat, JSNum.orZero, JSNum.truthy, JSNum.add]
  rw [hbase2] at hcalc2
  have hw2 := congrArg Prod.snd hcalc2
  simp only at hw2
  have h := resolutionHandler_twice_debits_twice utcRuntime scenarioEnv "Resuelto"
    (scenarioWorld [("customfield_10051", JSVal.num (JSNum.fin 250))] (some "Done")
        (scenarioClient (JSVal.str "1000") (JSVal.str "")) none 1717236000000)
    { id := JSVal.str "7", name := "Acme" } []
    ("cliente-1700000000000", scenarioClient (JSVal.str "1000") (JSVal.str ""))
    (JSNum.fin 250)
    (Or.inl (by decide)) (by simp [scenarioWorld]; decide) (by simp [scenarioWorld])
    (by simp [scenarioWorld])
    (scenario_find _ _ _ _ _ _ (by decide) (by simp [scenarioClient, getProp]))
    (by simp [scenarioClient, getProp]) (by simp [scenarioClient, getProp])
    (by
      have e1 : scenarioEnv.COSTOE_FIELD_ID = "customfield_10051" := rfl
      have e2 : scenarioEnv.COSTOT_FIELD_ID = "customfield_10052" := rfl
      rw [e1, e2, hE1, hT1, parseFloat_num, hchoose])
    (by
      have e1 : scenarioEnv.COSTOE_FIELD_ID = "customfield_10051" := rfl
      rw [hw2, updateJiraFields_costoTotal scenarioEnv _ _ _
        (by rw [fwr]; simp [scenarioWorld]), e1,
        updateJiraFields_other scenarioEnv _ _ _ "customfield_10051" (by decide) (by decide),
        fissue, hE1, h250]
      simpa [jsonNumber, parseFloat_num] using hchoose)
  have hsub : (parseFloat (JSVal.str "1000")).sub (JSNum.fin 250) = JSNum.fin 750 := by
    simp [parseFloat, parseFloatChars, parseMagnitude, parseUnsignedDecimal, digitsValue,
      parseExponent, isStrWhiteSpace, JSNum.sub, JSNum.neg, JSNum.add]
    norm_num
  have hsub2 : (JSNum.fin 750).sub (JSNum.fin 250) = JSNum.fin 500 := by
    simp [JSNum.sub, JSNum.neg, JSNum.add]
    norm_num
  rw [h.1]
  simp [scenarioWorld, kvsSets, scenarioClient, setProp, getProp, hsub, hsub2]

/-! ## Reported precision -/

/-- The unit in the last place of a positive rational in the binade
`[2^k, 2^(k+1))` of the normal range is `2^(k-52)`. -/
theorem binary64Exponent_eq (a : ℚ) (k : ℤ) (ha : 0 < a) (hk : -1022 ≤ k)
    (hlo : (2 : ℚ) ^ k ≤ a) (hhi : a < (2 : ℚ) ^ (k + 1)) :
    binary64Exponent a = k - 52 := by
  have h1 : k ≤ Int.log 2 a := (Int.zpow_le_iff_le_log (by norm_num) ha).mp (by exact_mod_cast hlo)
  have h2 : Int.log 2 a < k + 1 :=
    (Int.lt_zpow_iff_log_lt (by norm_num) ha).mp (by exact_mod_cast hhi)
  have h3 : Int.log 2 a = k := by omega
  simp [binary64Exponent, h3]
  omega

/-- A rational strictly within one half of an integer rounds to it. -/
theorem roundHalfEven_eq (x : ℚ) (n : ℤ) (hlo : (n : ℚ) - 1 / 2 < x) (hhi : x < (n : ℚ) + 1 / 2) :
    roundHalfEven x = n := by
  unfold roundHalfEven
  by_cases h : x < n
  · have hf : ⌊x⌋ = n - 1 := by
      rw [Int.floor_eq_iff]; push_cast; constructor <;> linarith
    rw [hf]; push_cast
    rw [if_neg (by linarith), if_pos (by linarith)]
    ring
  · have hf : ⌊x⌋ = n := by
      rw [Int.floor_eq_iff]; constructor <;> linarith
    rw [hf, if_pos (by linarith)]

/-- Rounding to the nearest integer moves a rational by at most one half. -/
theorem roundHalfEven_error (x : ℚ) : |(roundHalfEven x : ℚ) - x| ≤ 1 / 2 := by
  have h1 := Int.floor_le x
  have h2 := Int.lt_floor_add_one x
  unfold roundHalfEven
  rw [abs_le]
  split_ifs <;> push_cast <;> constructor <;> linarith

/-- Evaluation of `toBinary64` at a positive rational in the normal range. -/
theorem toBinary64_eval (q : ℚ) (k n : ℤ) (hq : 0 < q) (hk : -1022 ≤ k)
    (hlo : (2 : ℚ) ^ k ≤ q) (hhi : q < (2 : ℚ) ^ (k + 1))
    (hn1 : (n : ℚ) - 1 / 2 < q / (2 : ℚ) ^ (k - 52))
    (hn2 : q / (2 : ℚ) ^ (k - 52) < (n : ℚ) + 1 / 2)
    (hov : (n : ℚ) * (2 : ℚ) ^ (k - 52) < (2 : ℚ) ^ 1024) :
    toBinary64 q = JSNum.fin ((n : ℚ) * (2 : ℚ) ^ (k - 52)) := by
  have habs : |q| = q := abs_of_pos hq
  have he : binary64Exponent q = k - 52 := binary64Exponent_eq q k hq hk hlo hhi
  have hr : roundHalfEven (q / (2 : ℚ) ^ (k - 52)) = n := roundHalfEven_eq _ n hn1 hn2
  simp only [toBinary64, habs, he, hr, ne_of_gt hq, not_le.mpr hov, not_lt.mpr (le_of_lt hq),
    if_false]

/-- Above the subnormal range `toBinary64` picks, up to sign and overflow, a
number no farther than half a unit in the last place from its argument. -/
theorem toBinary64_unfold (q : ℚ) (hq : (2 : ℚ) ^ (-1022 : ℤ) ≤ |q|) :
    ∃ s : ℚ, |s - abs q| ≤ abs q / 2 ^ 53 ∧
      toBinary64 q =
        if (2 : ℚ) ^ 1024 ≤ s then (if q < 0 then JSNum.negInf else JSNum.posInf)
        else if q < 0 then JSNum.fin (-s) else JSNum.fin s := by
  have hq0 : q ≠ 0 := by
    intro h0
    rw [h0, abs_zero] at hq
    exact absurd hq (not_le.mpr (by positivity))
  simp only [toBinary64, hq0, if_false]
  generalize |q| = a at hq ⊢
  have hpos : 0 < a := lt_of_lt_of_le (by positivity) hq
  have hL : -1022 ≤ Int.log 2 a :=
    (Int.zpow_le_iff_le_log (by norm_num) hpos).mp (by exact_mod_cast hq)
  have he : binary64Exponent a = Int.log 2 a - 52 := by
    simp [binary64Exponent]; omega
  have hpp : 0 < (2 : ℚ) ^ (Int.log 2 a - 52) := by positivity
  have hpow : (2 : ℚ) ^ (Int.log 2 a - 52) ≤ a / 2 ^ 52 := by
    rw [zpow_sub₀ (by norm_num : (2 : ℚ) ≠ 0)]
    have hz := Int.zpow_log_le_self (b := 2) (r := a) (by norm_num) hpos
    have h52 : (2 : ℚ) ^ (52 : ℤ) = 2 ^ 52 := by norm_num
    rw [h52]
    exact div_le_div_of_nonneg_right (by exact_mod_cast hz) (by positivity)
  have hm := roundHalfEven_error (a / (2 : ℚ) ^ (Int.log 2 a - 52))
  rw [he]
  generalize (roundHalfEven (a / (2 : ℚ) ^ (Int.log 2 a - 52)) : ℚ) = m at hm ⊢
  generalize (2 : ℚ) ^ (Int.log 2 a - 52) = u at hpp hpow hm ⊢
  refine ⟨m * u, ?_, rfl⟩
  have e1 : m * u - a = (m - a / u) * u := by field_simp
  rw [e1, abs_mul, abs_of_pos hpp]
  calc |m - a / u| * u ≤ 1 / 2 * u := mul_le_mul_of_nonneg_right hm (le_of_lt hpp)
    _ ≤ 1 / 2 * (a / 2 ^ 52) := by linarith
    _ = a / 2 ^ 53 := by ring

/-- The rounding error of `toBinary64` above the subnormal range is at most half
a unit in the last place. -/
theorem toBinary64_error (q r : ℚ) (h : toBinary64 q = JSNum.fin r)
    (hq : (2 : ℚ) ^ (-1022 : ℤ) ≤ |q|) : |r - q| ≤ |q| / 2 ^ 53 := by
  obtain ⟨s, hs, hval⟩ := toBinary64_unfold q hq
  rw [hval] at h
  by_cases hneg : q < 0
  · simp only [hneg, if_true] at h
    split_ifs at h
    cases h
    rw [abs_of_neg hneg] at hs ⊢
    have e2 : -s - q = -(s - -q) := by ring
    rw [e2, abs_neg]
    exact hs
  · simp only [hneg, if_false] at h
    split_ifs at h
    cases h
    rw [abs_of_nonneg (not_lt.mp hneg)] at hs ⊢
    exact hs

/-- In the normal range `toBinary64` yields a finite number. -/
theorem toBinary64_normal (q : ℚ) (hlo : (2 : ℚ) ^ (-1022 : ℤ) ≤ |q|)
    (hhi : |q| < (2 : ℚ) ^ 1023) :
    ∃ r : ℚ, toBinary64 q = JSNum.fin r ∧ |r - q| ≤ |q| / 2 ^ 53 := by
  obtain ⟨s, hs, hval⟩ := toBinary64_unfold q hlo
  have hno : ¬ ((2 : ℚ) ^ 1024 ≤ s) := by
    have h1 := (abs_le.mp hs).2
    have h2 : |q| / 2 ^ 53 ≤ |q| := div_le_self (abs_nonneg q) (by norm_num)
    have h3 : (2 : ℚ) ^ 1024 = 2 * 2 ^ 1023 := by norm_num
    rw [h3]
    linarith
  rw [if_neg hno] at hval
  by_cases hneg : q < 0
  · rw [if_pos hneg] at hval
    exact ⟨-s, hval, toBinary64_error q (-s) hval hlo⟩
  · rw [if_neg hneg] at hval
    exact ⟨s, hval, toBinary64_error q s hval hlo⟩

/-- Zero is a binary64 number. -/
theorem toBinary64_zero : toBinary64 0 = JSNum.fin 0 := by
  simp [toBinary64]

/-- The literal `0.01` as a binary64 number. -/
theorem toBinary64_hundredth :
    toBinary64 (1 / 100) = JSNum.fin (5764607523034235 / 2 ^ 59) := by
  have h := toBinary64_eval (1 / 100) (-7) 5764607523034235 (by norm_num) (by norm_num)
    (by norm_num) (by norm_num) (by norm_num) (by norm_num) (by norm_num)
  rw [h]
  norm_num

/-- Below `10^21` in magnitude, `toFixed(2)` yields a multiple of `1/100` no
farther than `1/200` from its argument. -/
theorem toFixed2_round (q : ℚ) (h : |q| < 10 ^ 21) :
    ∃ n : ℤ, JSNum.toFixed2 (JSNum.fin q) = JSNum.fin ((n : ℚ) / 100) ∧
      |q - (n : ℚ) / 100| ≤ 1 / 200 := by
  have hbig : ¬ ((10 : ℚ) ^ 21 ≤ |q|) := not_le.mpr h
  by_cases hneg : q < 0
  · refine ⟨-⌊-q * 100 + 1 / 2⌋, ?_, ?_⟩
    · simp only [JSNum.toFixed2, hbig, hneg, if_true, if_false]
      push_cast
      ring_nf
    · have h1 := Int.floor_le (-q * 100 + 1 / 2)
      have h2 := Int.lt_floor_add_one (-q * 100 + 1 / 2)
      rw [abs_le]
      push_cast
      constructor <;> linarith
  · refine ⟨⌊q * 100 + 1 / 2⌋, ?_, ?_⟩
    · simp only [JSNum.toFixed2, hbig, hneg, if_false]
    · have h1 := Int.floor_le (q * 100 + 1 / 2)
      have h2 := Int.lt_floor_add_one (q * 100 + 1 / 2)
      rw [abs_le]
      constructor <;> linarith

/-- The two requests of `updateJiraFields`, in order. -/
theorem updateJiraFields_trace (env : Env) (w : World) (percentage totalCost : JSNum) :
    (updateJiraFields env w percentage totalCost).trace =
      w.trace ++
        [Effect.fieldPut env.PERCENTAGE_FIELD_ID (jsonNumber (finalPercentage percentage)),
          Effect.fieldPut env.COSTOT_FIELD_ID (jsonNumber totalCost.toFixed2)] := by
  have h : ∀ (v : World) (field : String) (n : JSNum),
      (putField v field n).trace = v.trace ++ [Effect.fieldPut field (jsonNumber n)] := by
    intro v field n
    unfold putField
    by_cases hw : v.writable field = true <;> simp [hw, World.emit]
  unfold updateJiraFields
  rw [h, h]
  simp

/-- The binary64 product of a two-decimal number `n / 100` below `10^21 + 1` in
magnitude with the literal `0.01`: both factors and the product are finite
binary64 numbers, and the product is within a relative `2^-51` of
`n / 10000`. -/
theorem binary64_product_hundredth (n : ℤ) (hn : |(n : ℚ) / 100| < 10 ^ 21 + 1) :
    ∃ a v : ℚ, toBinary64 ((n : ℚ) / 100) = JSNum.fin a ∧
      toBinary64 (a * (5764607523034235 / 2 ^ 59)) = JSNum.fin v ∧
      |v - (n : ℚ) / 10000| ≤ |(n : ℚ) / 10000| / 2 ^ 51 := by
  by_cases h0 : n = 0
  · subst h0
    refine ⟨0, 0, ?_, ?_, ?_⟩
    · simp [toBinary64_zero]
    · simp [toBinary64_zero]
    · simp
  · have hsmall : (2 : ℚ) ^ (-1022 : ℤ) ≤ 1 / 2 ^ 60 := by
      have h1 : (2 : ℚ) ^ (-1022 : ℤ) = 1 / 2 ^ 1022 := by
        rw [zpow_neg, one_div]
        norm_cast
      rw [h1]
      exact one_div_le_one_div_of_le (by positivity)
        (pow_le_pow_right₀ (by norm_num) (by norm_num))
    have hlarge : (2 : ℚ) ^ 100 ≤ 2 ^ 1023 := pow_le_pow_right₀ (by norm_num) (by norm_num)
    have hn1 : (1 : ℚ) ≤ |(n : ℚ)| := by
      have := Int.one_le_abs h0
      exact_mod_cast this
    have hx : |(n : ℚ) / 100| = |(n : ℚ)| / 100 := by
      rw [abs_div]
      norm_num
    have hx1 : (1 : ℚ) / 100 ≤ |(n : ℚ) / 100| := by
      rw [hx]
      linarith
    obtain ⟨a, ha, hae⟩ := toBinary64_normal ((n : ℚ) / 100) (by linarith)
      (by
        have : (10 : ℚ) ^ 21 + 1 ≤ 2 ^ 100 := by norm_num
        linarith)
    have hA1 : |a| ≤ |(n : ℚ) / 100| + |a - (n : ℚ) / 100| := by
      have := abs_add (a - (n : ℚ) / 100) ((n : ℚ) / 100)
      simpa [add_comm] using this
    have hA2 : |(n : ℚ) / 100| ≤ |a| + |a - (n : ℚ) / 100| := by
      have := abs_sub a (a - (n : ℚ) / 100)
      simpa using this
    have hab : |a * (5764607523034235 / 2 ^ 59)| = |a| * (5764607523034235 / 2 ^ 59) := by
      rw [abs_mul, abs_of_pos (by norm_num : (0 : ℚ) < 5764607523034235 / 2 ^ 59)]
    obtain ⟨v, hv, hve⟩ := toBinary64_normal (a * (5764607523034235 / 2 ^ 59))
      (by
        rw [hab]
        have : (1 : ℚ) / 2 ^ 60 ≤ |a| * (5764607523034235 / 2 ^ 59) := by linarith
        linarith)
      (by
        rw [hab]
        have : |a| * (5764607523034235 / 2 ^ 59) < (2 : ℚ) ^ 100 := by
          have h100 : (2 : ℚ) ^ 100 = 1267650600228229401496703205376 := by norm_num
          rw [h100]
          linarith
        linarith)
    refine ⟨a, v, ha, hv, ?_⟩
    rw [hab] at hve
    have e : v - (n : ℚ) / 10000
        = (v - a * (5764607523034235 / 2 ^ 59))
          + (a - (n : ℚ) / 100) * (5764607523034235 / 2 ^ 59)
          + (n : ℚ) / 100 * (5764607523034235 / 2 ^ 59 - 1 / 100) := by ring
    have t := abs_add_three (v - a * (5764607523034235 / 2 ^ 59))
      ((a - (n : ℚ) / 100) * (5764607523034235 / 2 ^ 59))
      ((n : ℚ) / 100 * (5764607523034235 / 2 ^ 59 - 1 / 100))
    rw [← e, abs_mul, abs_mul,
      abs_of_pos (by norm_num : (0 : ℚ) < 5764607523034235 / 2 ^ 59),
      abs_of_pos (by norm_num : (0 : ℚ) < 5764607523034235 / 2 ^ 59 - 1 / 100)] at t
    have hy : |(n : ℚ) / 10000| = |(n : ℚ) / 100| / 100 := by
      rw [abs_div, abs_div]
      norm_num
      ring
    rw [hy]
    linarith

/-- Evaluation of `finalPercentage` from its three binary64 roundings. -/
theorem finalPercentage_eval (p x a v : ℚ)
    (h1 : JSNum.toFixed2 (JSNum.fin p) = JSNum.fin x) (h2 : toBinary64 x = JSNum.fin a)
    (h3 : toBinary64 (a * (5764607523034235 / 2 ^ 59)) = JSNum.fin v) :
    finalPercentage (JSNum.fin p) = JSNum.fin v := by
  simp only [finalPercentage, h1, JSNum.binary64, h2, toBinary64_hundredth, JSNum.mul, h3]

/-- A percentage of 2.5 gives the binary64 number nearest to 0.025. -/
theorem finalPercentage_two_and_a_half :
    finalPercentage (JSNum.fin (5 / 2)) = JSNum.fin (3602879701896397 / 2 ^ 57) := by
  have h1 : JSNum.toFixed2 (JSNum.fin (5 / 2)) = JSNum.fin (5 / 2) := by
    have h := toFixed2_cents 250 (by norm_num [abs_of_pos])
    norm_num at h
    exact h
  have h2 : toBinary64 (5 / 2) = JSNum.fin (5 / 2) := by
    have h := toBinary64_eval (5 / 2) 1 5629499534213120 (by norm_num) (by norm_num)
      (by norm_num) (by norm_num) (by norm_num) (by norm_num) (by norm_num)
    rw [h]
    norm_num
  have h3 : toBinary64 (5 / 2 * (5764607523034235 / 2 ^ 59))
      = JSNum.fin (3602879701896397 / 2 ^ 57) := by
    have h := toBinary64_eval (5 / 2 * (5764607523034235 / 2 ^ 59)) (-6) 7205759403792794
      (by norm_num) (by norm_num) (by norm_num) (by norm_num) (by norm_num) (by norm_num)
      (by norm_num)
    rw [h]
    norm_num
  exact finalPercentage_eval _ _ _ _ h1 h2 h3

/-- A percentage of 35 gives 0.35000000000000003, the binary64 number next
above the one nearest to 0.35. -/
theorem finalPercentage_thirty_five :
    finalPercentage (JSNum.fin 35) = JSNum.fin (6305039478318695 / 2 ^ 54) := by
  have h1 : JSNum.toFixed2 (JSNum.fin 35) = JSNum.fin 35 := by
    have h := toFixed2_cents 3500 (by norm_num [abs_of_pos])
    norm_num at h
    exact h
  have h2 : toBinary64 35 = JSNum.fin 35 := by
    have h := toBinary64_eval 35 5 4925812092436480 (by norm_num) (by norm_num)
      (by norm_num) (by norm_num) (by norm_num) (by norm_num) (by norm_num)
    rw [h]
    norm_num
  have h3 : toBinary64 (35 * (5764607523034235 / 2 ^ 59))
      = JSNum.fin (6305039478318695 / 2 ^ 54) := by
    have h := toBinary64_eval (35 * (5764607523034235 / 2 ^ 59)) (-2) 6305039478318695
      (by norm_num) (by norm_num) (by norm_num) (by norm_num) (by norm_num) (by norm_num)
      (by norm_num)
    rw [h]
    norm_num
  exact finalPercentage_eval _ _ _ _ h1 h2 h3

/-- The binary64 number nearest to 0.35. -/
theorem toBinary64_thirty_five_hundredths :
    toBinary64 (35 / 100) = JSNum.fin (6305039478318694 / 2 ^ 54) := by
  have h := toBinary64_eval (35 / 100) (-2) 6305039478318694
    (by norm_num) (by norm_num) (by norm_num) (by norm_num) (by norm_num) (by norm_num)
    (by norm_num)
  rw [h]
  norm_num

/-- No two-decimal number has the binary64 number nearest to 0.025 as its
binary64 rounding. -/
theorem toBinary64_cents_ne_fortieth (n : ℤ) :
    toBinary64 ((n : ℚ) / 100) ≠ JSNum.fin (3602879701896397 / 2 ^ 57) := by
  intro h
  by_cases h0 : n = 0
  · subst h0
    simp only [Int.cast_zero, zero_div, toBinary64_zero, JSNum.fin.injEq] at h
    norm_num at h
  · have hn1 : (1 : ℚ) ≤ |(n : ℚ)| := by
      have := Int.one_le_abs h0
      exact_mod_cast this
    have hx : |(n : ℚ) / 100| = |(n : ℚ)| / 100 := by
      rw [abs_div]
      norm_num
    have hsmall : (2 : ℚ) ^ (-1022 : ℤ) ≤ 1 / 2 ^ 60 := by
      have h1 : (2 : ℚ) ^ (-1022 : ℤ) = 1 / 2 ^ 1022 := by
        rw [zpow_neg, one_div]
        norm_cast
      rw [h1]
      exact one_div_le_one_div_of_le (by positivity)
        (pow_le_pow_right₀ (by norm_num) (by norm_num))
    have herr := toBinary64_error _ _ h (by rw [hx]; linarith)
    rw [hx, abs_le] at herr
    rcases le_or_lt n 2 with hle | hgt
    · have h2 : (n : ℚ) ≤ 2 := by exact_mod_cast hle
      rcases abs_cases (n : ℚ) with ⟨habs, _⟩ | ⟨habs, _⟩ <;> rw [habs] at herr <;>
        linarith [herr.1, herr.2]
    · have h3 : (3 : ℚ) ≤ (n : ℚ) := by exact_mod_cast hgt
      rw [abs_of_pos (by linarith)] at herr
      linarith [herr.1, herr.2]

/-- C12 as the code has it: for a percentage `p` and a final cost `c` below
`10^21` in magnitude, `updateJiraFields` sends the total-cost field `c` rounded
to two decimals (`m / 100`).  The percentage is rounded to two decimals
(`n / 100`) and then multiplied by `0.01` in binary64 arithmetic; the product is
sent as it is, with no rounding to a number of decimals.  What is sent is the
binary64 product `v` of the binary64 numbers nearest to `n / 100` and to `0.01`,
a finite number within a relative `2^-51` of `n / 10000`. -/
theorem updateJiraFields_binary64_values (env : Env) (w : World) (p c : ℚ)
    (hp : |p| < 10 ^ 21) (hc : |c| < 10 ^ 21) :
    ∃ n m : ℤ, ∃ a v : ℚ,
      JSNum.toFixed2 (JSNum.fin p) = JSNum.fin ((n : ℚ) / 100) ∧
      |p - (n : ℚ) / 100| ≤ 1 / 200 ∧
      JSNum.toFixed2 (JSNum.fin c) = JSNum.fin ((m : ℚ) / 100) ∧
      |c - (m : ℚ) / 100| ≤ 1 / 200 ∧
      toBinary64 ((n : ℚ) / 100) = JSNum.fin a ∧
      toBinary64 (a * (5764607523034235 / 2 ^ 59)) = JSNum.fin v ∧
      |v - (n : ℚ) / 10000| ≤ |(n : ℚ) / 10000| / 2 ^ 51 ∧
      (updateJiraFields env w (JSNum.fin p) (JSNum.fin c)).trace =
        w.trace ++
          [Effect.fieldPut env.PERCENTAGE_FIELD_ID (JSVal.num (JSNum.fin v)),
            Effect.fieldPut env.COSTOT_FIELD_ID (JSVal.num (JSNum.fin ((m : ℚ) / 100)))] := by
  obtain ⟨n, hn, hnb⟩ := toFixed2_round p hp
  obtain ⟨m, hm, hmb⟩ := toFixed2_round c hc
  have hnlt : |(n : ℚ) / 100| < 10 ^ 21 + 1 := by
    have h1 := abs_sub_abs_le_abs_sub ((n : ℚ) / 100) p
    rw [abs_sub_comm] at hnb
    linarith
  obtain ⟨a, v, ha, hv, hve⟩ := binary64_product_hundredth n hnlt
  refine ⟨n, m, a, v, hn, hnb, hm, hmb, ha, hv, hve, ?_⟩
  rw [updateJiraFields_trace, finalPercentage_eval p _ a v hn ha hv, hm]
  rfl

/-- C12 as the code has it, scenario: percentage 2.5 and final cost 97.5. -/
theorem updateJiraFields_binary64_values_witness :
    ∃ n m : ℤ, ∃ a v : ℚ,
      JSNum.toFixed2 (JSNum.fin (5 / 2)) = JSNum.fin ((n : ℚ) / 100) ∧
      |(5 / 2 : ℚ) - (n : ℚ) / 100| ≤ 1 / 200 ∧
      JSNum.toFixed2 (JSNum.fin (195 / 2)) = JSNum.fin ((m : ℚ) / 100) ∧
      |(195 / 2 : ℚ) - (m : ℚ) / 100| ≤ 1 / 200 ∧
      toBinary64 ((n : ℚ) / 100) = JSNum.fin a ∧
      toBinary64 (a * (5764607523034235 / 2 ^ 59)) = JSNum.fin v ∧
      |v - (n : ℚ) / 10000| ≤ |(n : ℚ) / 10000| / 2 ^ 51 ∧
      (updateJiraFields scenarioEnv
          (scenarioWorld [("customfield_10051", JSVal.num (JSNum.fin 100))] none
            (scenarioClient (JSVal.str "1000") (JSVal.str "2.5")) none 1717236000000)
          (JSNum.fin (5 / 2)) (JSNum.fin (195 / 2))).trace =
        (scenarioWorld [("customfield_10051", JSVal.num (JSNum.fin 100))] none
            (scenarioClient (JSVal.str "1000") (JSVal.str "2.5")) none 1717236000000).trace ++
          [Effect.fieldPut scenarioEnv.PERCENTAGE_FIELD_ID (JSVal.num (JSNum.fin v)),
            Effect.fieldPut scenarioEnv.COSTOT_FIELD_ID
              (JSVal.num (JSNum.fin ((m : ℚ) / 100)))] :=
  updateJiraFields_binary64_values scenarioEnv _ (5 / 2) (195 / 2)
    (by norm_num [abs_of_pos]) (by norm_num [abs_of_pos])

/-- C12 fails as stated.  A percentage of 2.5 (rate 2.5 per hour, one breach
hour) is sent as the binary64 number nearest to 0.025, printed `0.025`: it is
not a two-decimal number, and not the binary64 rounding of one.  A percentage
of 35 is sent as `0.35000000000000003`, which is not the binary64 number
nearest to 0.35. -/
theorem updateJiraFields_fraction_not_two_decimals :
    totalPenaltyPercentage (JSNum.fin (5 / 2)) (JSNum.fin (-3600000)) = JSNum.fin (5 / 2) ∧
    (updateJiraFields scenarioEnv
        (scenarioWorld [("customfield_10051", JSVal.num (JSNum.fin 100))] none
          (scenarioClient (JSVal.str "1000") (JSVal.str "2.5")) none 1717236000000)
        (JSNum.fin (5 / 2)) (JSNum.fin (195 / 2))).trace =
      [Effect.fieldPut "customfield_10054"
          (JSVal.num (JSNum.fin (3602879701896397 / 2 ^ 57))),
        Effect.fieldPut "customfield_10052" (JSVal.num (JSNum.fin (195 / 2)))] ∧
    toBinary64 (25 / 1000) = JSNum.fin (3602879701896397 / 2 ^ 57) ∧
    (¬ ∃ n : ℤ, (3602879701896397 / 2 ^ 57 : ℚ) = (n : ℚ) / 100) ∧
    (¬ ∃ n : ℤ, toBinary64 ((n : ℚ) / 100) = JSNum.fin (3602879701896397 / 2 ^ 57)) ∧
    (updateJiraFields scenarioEnv
        (scenarioWorld [("customfield_10051", JSVal.num (JSNum.fin 100))] none
          (scenarioClient (JSVal.str "1000") (JSVal.str "35")) none 1717236000000)
        (JSNum.fin 35) (JSNum.fin 65)).trace =
      [Effect.fieldPut "customfield_10054"
          (JSVal.num (JSNum.fin (6305039478318695 / 2 ^ 54))),
        Effect.fieldPut "customfield_10052" (JSVal.num (JSNum.fin 65))] ∧
    toBinary64 (35 / 100) = JSNum.fin (6305039478318694 / 2 ^ 54) := by
  have hceil : ⌈|(-3600000 : ℚ)| / 3600000⌉ = 1 := by
    rw [Int.ceil_eq_iff]; norm_num [abs_of_neg]
  have hc : JSNum.toFixed2 (JSNum.fin (195 / 2)) = JSNum.fin (195 / 2) := by
    have h := toFixed2_cents 9750 (by norm_num [abs_of_pos])
    norm_num at h
    exact h
  have hc2 : JSNum.toFixed2 (JSNum.fin 65) = JSNum.fin 65 := by
    have h := toFixed2_cents 6500 (by norm_num [abs_of_pos])
    norm_num at h
    exact h
  refine ⟨?_, ?_, ?_, ?_, ?_, ?_, toBinary64_thirty_five_hundredths⟩
  · rw [totalPenaltyPercentage, breachTimeHours_fin, hceil]
    simp [JSNum.mul]
  · rw [updateJiraFields_trace, finalPercentage_two_and_a_half, hc]
    simp [scenarioWorld, scenarioEnv, jsonNumber]
  · have h := toBinary64_eval (25 / 1000) (-6) 7205759403792794
      (by norm_num) (by norm_num) (by norm_num) (by norm_num) (by norm_num) (by norm_num)
      (by norm_num)
    rw [h]
    norm_num
  · rintro ⟨n, hn⟩
    have h2 : (3602879701896397 * 25 : ℚ) = (n : ℚ) * 2 ^ 55 := by
      field_simp at hn
      linarith
    have h3 : (3602879701896397 * 25 : ℤ) = n * 2 ^ 55 := by exact_mod_cast h2
    omega
  · rintro ⟨n, hn⟩
    exact toBinary64_cents_ne_fortieth n hn
  · rw [updateJiraFields_trace, finalPercentage_thirty_five, hc2]
    simp [scenarioWorld, scenarioEnv, jsonNumber]

/-! ## The cost resolver -/

theorem truthy_iff (n : JSNum) : n.truthy = true ↔ n ≠ JSNum.nan ∧ n ≠ JSNum.fin 0 := by
  cases n <;> simp [JSNum.truthy]

/-- C13: `getPrioritizedInitialCost` returns a result exactly when the
initial-cost field parses to a non-zero number; the result carries the parsed
value and the source `initial`, and no other source is ever returned.  A field
that is absent, fails to parse or parses to zero gives `null`. -/
theorem getPrioritizedInitialCost_policy (env : Env) (issue : Issue) :
    (getPrioritizedInitialCost env issue =
        some { cost := parseFloat (getProp issue.fields env.COSTOE_FIELD_ID),
               source := "initial" } ↔
      (parseFloat (getProp issue.fields env.COSTOE_FIELD_ID) ≠ JSNum.nan ∧
        parseFloat (getProp issue.fields env.COSTOE_FIELD_ID) ≠ JSNum.fin 0)) ∧
    (getPrioritizedInitialCost env issue = none ↔
      (parseFloat (getProp issue.fields env.COSTOE_FIELD_ID) = JSNum.nan ∨
        parseFloat (getProp issue.fields env.COSTOE_FIELD_ID) = JSNum.fin 0)) ∧
    (∀ x : ℚ, parseFloat (getProp issue.fields env.COSTOE_FIELD_ID) = JSNum.fin x → x ≠ 0 →
      getPrioritizedInitialCost env issue = some { cost := JSNum.fin x, source := "initial" }) ∧
    (getProp issue.fields env.COSTOE_FIELD_ID = JSVal.undefined →
      getPrioritizedInitialCost env issue = none) ∧
    (∀ r : CostResult, getPrioritizedInitialCost env issue = some r →
      r.source = "initial" ∧
      r.cost = parseFloat (getProp issue.fields env.COSTOE_FIELD_ID)) := by
  have ht := truthy_iff (parseFloat (getProp issue.fields env.COSTOE_FIELD_ID))
  cases h : (parseFloat (getProp issue.fields env.COSTOE_FIELD_ID)).truthy with
  | true =>
    have hs := getPrioritizedInitialCost_of_truthy env issue h
    have hne := ht.mp h
    refine ⟨?_, ?_, ?_, ?_, ?_⟩
    · exact ⟨fun _ => hne, fun _ => hs⟩
    · rw [hs]
      constructor
      · intro hc; cases hc
      · rintro (hc | hc)
        · exact absurd hc hne.1
        · exact absurd hc hne.2
    · intro x hx _
      rw [hs, hx]
    · intro hu
      rw [hu] at h
      simp [parseFloat, JSNum.truthy] at h
    · intro r hr
      rw [hs] at hr
      cases hr
      exact ⟨rfl, rfl⟩
  | false =>
    have hs := getPrioritizedInitialCost_of_falsy env issue h
    have hno : ¬ (parseFloat (getProp issue.fields env.COSTOE_FIELD_ID) ≠ JSNum.nan ∧
        parseFloat (getProp issue.fields env.COSTOE_FIELD_ID) ≠ JSNum.fin 0) := by
      intro hc
      rw [ht.mpr hc] at h
      cases h
    refine ⟨?_, ?_, ?_, ?_, ?_⟩
    · rw [hs]
      constructor
      · intro hc; cases hc
      · intro hc; exact absurd hc hno
    · constructor
      · intro _
        by_contra hc
        push_neg at hc
        exact hno hc
      · intro _; exact hs
    · intro x hx hx0
      exfalso
      apply hno
      rw [hx]
      exact ⟨by simp, by simpa using hx0⟩
    · intro _; exact hs
    · intro r hr
      rw [hs] at hr
      cases hr

/-- C13, scenarios: the field 400 resolves to cost 400 from source `initial`;
a field reading 0, a field that is not a number and a missing field resolve to
nothing. -/
theorem getPrioritizedInitialCost_policy_witness :
    getPrioritizedInitialCost scenarioEnv
        { fields := [("customfield_10051", JSVal.str "400")], organizations := none,
          resolution := none }
      = some { cost := JSNum.fin 400, source := "initial" } ∧
    getPrioritizedInitialCost scenarioEnv
        { fields := [("customfield_10051", JSVal.num (JSNum.fin 0))], organizations := none,
          resolution := none } = none ∧
    getPrioritizedInitialCost scenarioEnv
        { fields := [("customfield_10051", JSVal.str "sin costo")], organizations := none,
          resolution := none } = none ∧
    getPrioritizedInitialCost scenarioEnv
        { fields := [], organizations := none, resolution := none } = none := by
  refine ⟨?_, ?_, ?_, ?_⟩
  · exact (getPrioritizedInitialCost_policy scenarioEnv _).2.2.1 400
      (by simp [scenarioEnv, getProp, parseFloat, parseFloatChars, parseMagnitude,
        parseUnsignedDecimal, digitsValue, parseExponent, isStrWhiteSpace])
      (by norm_num)
  · exact (getPrioritizedInitialCost_policy scenarioEnv _).2.1.mpr
      (Or.inr (by simp [scenarioEnv, getProp, parseFloat]))
  · exact (getPrioritizedInitialCost_policy scenarioEnv _).2.1.mpr
      (Or.inl (by simp [scenarioEnv, getProp, parseFloat, parseFloatChars, parseMagnitude,
        parseUnsignedDecimal, digitsValue, parseExponent, isStrWhiteSpace]))
  · exact (getPrioritizedInitialCost_policy scenarioEnv _).2.2.2.1
      (by simp [scenarioEnv, getProp])

/-! ## The validity window at its boundary days -/

/-- With a non-zero offset from UTC the comparison is no longer by calendar
day: east of UTC the first day of the window is rejected, west of UTC the last
day is. -/
theorem decision_boundary_day_off_utc (rt : Runtime) (w : World) (d : ℤ)
    (hday : (w.now + rt.tzOffsetMillis) / 86400000 = d)
    (costoEstimado : JSNum) (presupuesto : JSVal) :
    (0 < rt.tzOffsetMillis → ∀ fechaFin : JSNum,
      decision (hoy rt w) (JSNum.fin ((d * 86400000 : ℤ) : ℚ)) fechaFin costoEstimado
        presupuesto = "Auto Rechazo") ∧
    (rt.tzOffsetMillis < 0 → ∀ fechaInicio : JSNum,
      decision (hoy rt w) fechaInicio (JSNum.fin ((d * 86400000 : ℤ) : ℚ)) costoEstimado
        presupuesto = "Auto Rechazo") := by
  have hh : hoyMillis rt w = d * 86400000 - rt.tzOffsetMillis := by
    simp [hoyMillis, hday]
  constructor
  · intro hoff fechaFin
    have hlt : ((hoyMillis rt w : ℤ) : ℚ) < (d : ℚ) * 86400000 := by
      rw [hh]
      exact_mod_cast (by omega : d * 86400000 - rt.tzOffsetMillis < d * 86400000)
    simp [decision, hoy, JSNum.lt, hlt]
  · intro hoff fechaInicio
    have hlt : (d : ℚ) * 86400000 < ((hoyMillis rt w : ℤ) : ℚ) := by
      rw [hh]
      exact_mod_cast (by omega : d * 86400000 < d * 86400000 - rt.tzOffsetMillis)
    have hgt : (JSNum.fin ((hoyMillis rt w : ℤ) : ℚ)).gt (JSNum.fin ((d : ℚ) * 86400000))
        = true := by
      simp [JSNum.gt, JSNum.lt, hlt]
    simp [decision, hoy, hgt]

/-- On a runtime whose local time is UTC, with validity dates stored as
calendar days (read as midnight UTC) and a window that starts no later than it
ends, a ticket handled at any time of the first day or of the last day of the
window is not rejected for validity: the decision is the budget check alone. -/
theorem automationHandler_window_inclusive (rt : Runtime) (env : Env) (statusName : String)
    (w : World) (organization : Organization) (rest : List Organization)
    (cliente : String × JSObj) (dS dE : ℤ)
    (hstatus : rt.toUpperCase statusName = "EN REVISIÓN")
    (hcost : (parseFloat (getProp w.issue.fields env.COSTOE_FIELD_ID)).truthy = true)
    (horg : w.issue.organizations = some (organization :: rest))
    (hcli : (kvsQuery w.store 100).find? (matchesOrganization organization) = some cliente)
    (hnull : getProp cliente.2 "presupuesto" ≠ JSVal.null)
    (hundef : getProp cliente.2 "presupuesto" ≠ JSVal.undefined)
    (hutc : rt.tzOffsetMillis = 0)
    (hs : rt.dateValue (getProp cliente.2 "vigenciaInicio")
      = JSNum.fin ((dS * 86400000 : ℤ) : ℚ))
    (he : rt.dateValue (getProp cliente.2 "vigenciaFin")
      = JSNum.fin ((dE * 86400000 : ℤ) : ℚ))
    (hwindow : dS ≤ dE)
    (hday : w.now / 86400000 = dS ∨ w.now / 86400000 = dE) :
    decision (hoy rt w) (rt.dateValue (getProp cliente.2 "vigenciaInicio"))
        (rt.dateValue (getProp cliente.2 "vigenciaFin"))
        (parseFloat (getProp w.issue.fields env.COSTOE_FIELD_ID))
        (getProp cliente.2 "presupuesto") =
      (if (parseFloat (getProp w.issue.fields env.COSTOE_FIELD_ID)).le
          (parseFloat (getProp cliente.2 "presupuesto")) = true
        then "Auto Aprobación" else "Auto Rechazo") ∧
    automationHandler rt env statusName w =
      executeDecision rt w
        (if (parseFloat (getProp w.issue.fields env.COSTOE_FIELD_ID)).le
            (parseFloat (getProp cliente.2 "presupuesto")) = true
          then "Auto Aprobación" else "Auto Rechazo") := by
  have hh : hoyMillis rt w = w.now / 86400000 * 86400000 := by
    simp [hoyMillis, hutc]
  have hlo : ¬ ((hoyMillis rt w : ℤ) : ℚ) < ((dS * 86400000 : ℤ) : ℚ) := by
    rw [hh, not_lt]
    have hz : dS * 86400000 ≤ w.now / 86400000 * 86400000 := by
      rcases hday with h | h <;> omega
    exact_mod_cast hz
  have hhi : ¬ ((dE * 86400000 : ℤ) : ℚ) < ((hoyMillis rt w : ℤ) : ℚ) := by
    rw [hh, not_lt]
    have hz : w.now / 86400000 * 86400000 ≤ dE * 86400000 := by
      rcases hday with h | h <;> omega
    exact_mod_cast hz
  have hd : decision (hoy rt w) (rt.dateValue (getProp cliente.2 "vigenciaInicio"))
      (rt.dateValue (getProp cliente.2 "vigenciaFin"))
      (parseFloat (getProp w.issue.fields env.COSTOE_FIELD_ID))
      (getProp cliente.2 "presupuesto") =
      (if (parseFloat (getProp w.issue.fields env.COSTOE_FIELD_ID)).le
          (parseFloat (getProp cliente.2 "presupuesto")) = true
        then "Auto Aprobación" else "Auto Rechazo") := by
    rw [hs, he]
    simp only [decision, hoy, JSNum.lt, JSNum.gt, parseFloat_num, hlo, hhi, decide_False,
      Bool.or_self, Bool.false_eq_true, if_false]
  refine ⟨hd, ?_⟩
  rw [automationHandler_decides rt env statusName w organization rest cliente hstatus hcost
    horg hcli hnull hundef, hd]

/-- Scenario on UTC: contract valid from 2024-01-01 to 2024-12-31, budget 500,
estimated cost 400.  The ticket is approved at 10:00 on the first day and at
23:00 on the last day. -/
theorem automationHandler_window_inclusive_witness :
    (automationHandler utcRuntime scenarioEnv "En revisión"
      (scenarioWorld [("customfield_10051", JSVal.num (JSNum.fin 400))] none
        (scenarioClient (JSVal.str "500") (JSVal.str "5")) none 1704103200000)).trace = [Effect.transition "11"] ∧
    (automationHandler utcRuntime scenarioEnv "En revisión"
      (scenarioWorld [("customfield_10051", JSVal.num (JSNum.fin 400))] none
        (scenarioClient (JSVal.str "500") (JSVal.str "5")) none 1735686000000)).trace = [Effect.transition "11"] := by
  have hle : (parseFloat (getProp [("customfield_10051", JSVal.num (JSNum.fin 400))]
      scenarioEnv.COSTOE_FIELD_ID)).le
      (parseFloat (getProp ("cliente-1700000000000",
        scenarioClient (JSVal.str "500") (JSVal.str "5")).2 "presupuesto")) = true := by
    simp [scenarioEnv, scenarioClient, getProp, parseFloat, parseFloatChars, parseMagnitude,
      parseUnsignedDecimal, digitsValue, parseExponent, isStrWhiteSpace, JSNum.le]
    norm_num
  have hs : utcRuntime.dateValue (getProp ("cliente-1700000000000",
      scenarioClient (JSVal.str "500") (JSVal.str "5")).2 "vigenciaInicio")
      = JSNum.fin ((19723 * 86400000 : ℤ) : ℚ) := by
    simp [scenarioClient, getProp, utcRuntime, isoDateValue, digitsValue, daysFromCivil]
  have he : utcRuntime.dateValue (getProp ("cliente-1700000000000",
      scenarioClient (JSVal.str "500") (JSVal.str "5")).2 "vigenciaFin")
      = JSNum.fin ((20088 * 86400000 : ℤ) : ℚ) := by
    simp [scenarioClient, getProp, utcRuntime, isoDateValue, digitsValue, daysFromCivil]
  constructor
  · rw [(automationHandler_window_inclusive utcRuntime scenarioEnv "En revisión"
      (scenarioWorld [("customfield_10051", JSVal.num (JSNum.fin 400))] none
        (scenarioClient (JSVal.str "500") (JSVal.str "5")) none 1704103200000)
      { id := JSVal.str "7", name := "Acme" } []
      ("cliente-1700000000000", scenarioClient (JSVal.str "500") (JSVal.str "5"))
      19723 20088
      (by decide)
      (by simp [scenarioWorld, scenarioEnv, getProp, parseFloat, JSNum.truthy])
      (by simp [scenarioWorld])
      (scenario_find _ _ _ _ _ _ (by decide) (by simp [scenarioClient, getProp]))
      (by simp [scenarioClient, getProp]) (by simp [scenarioClient, getProp])
      rfl hs he (by decide) (Or.inl (by simp [scenarioWorld]))).2]
    have hf : (scenarioWorld [("customfield_10051", JSVal.num (JSNum.fin 400))] none
        (scenarioClient (JSVal.str "500") (JSVal.str "5")) none 1704103200000).issue.fields
        = [("customfield_10051", JSVal.num (JSNum.fin 400))] := rfl
    rw [hf, hle]
    simp [executeDecision, scenarioWorld, scenarioTransitions, World.emit, utcRuntime,
      upper_autoAprobacion, upper_autoRechazo, upper_aprobacionManual, List.find?_cons]
  · rw [(automationHandler_window_inclusive utcRuntime scenarioEnv "En revisión"
      (scenarioWorld [("customfield_10051", JSVal.num (JSNum.fin 400))] none
        (scenarioClient (JSVal.str "500") (JSVal.str "5")) none 1735686000000)
      { id := JSVal.str "7", name := "Acme" } []
      ("cliente-1700000000000", scenarioClient (JSVal.str "500") (JSVal.str "5"))
      19723 20088
      (by decide)
      (by simp [scenarioWorld, scenarioEnv, getProp, parseFloat, JSNum.truthy])
      (by simp [scenarioWorld])
      (scenario_find _ _ _ _ _ _ (by decide) (by simp [scenarioClient, getProp]))
      (by simp [scenarioClient, getProp]) (by simp [scenarioClient, getProp])
      rfl hs he (by decide) (Or.inr (by simp [scenarioWorld]))).2]
    have hf : (scenarioWorld [("customfield_10051", JSVal.num (JSNum.fin 400))] none
        (scenarioClient (JSVal.str "500") (JSVal.str "5")) none 1735686000000).issue.fields
        = [("customfield_10051", JSVal.num (JSNum.fin 400))] := rfl
    rw [hf, hle]
    simp [executeDecision, scenarioWorld, scenarioTransitions, World.emit, utcRuntime,
      upper_autoAprobacion, upper_autoRechazo, upper_aprobacionManual, List.find?_cons]

/-- C14 fails on the code when local time is not UTC.  Six hours behind UTC, at
noon local time on 2024-12-31 (18:00 UTC), a ticket of estimated cost 400 for a
client with budget 500 whose contract ends on 2024-12-31: today's calendar date
is the validity end date and the cost is within the budget, yet the handler
posts Auto Rechazo, because `hoy` is local midnight (06:00 UTC) and the end date
is read as midnight UTC.  On a UTC runtime the same ticket at the same instant
is approved. -/
theorem automationHandler_last_day_rejected_off_utc :
    (1735668000000 + mexicoCityRuntime.tzOffsetMillis) / 86400000 = daysFromCivil 2024 12 31 ∧
    hoy mexicoCityRuntime
        (scenarioWorld [("customfield_10051", JSVal.num (JSNum.fin 400))] none
          (scenarioClient (JSVal.str "500") (JSVal.str "5")) none 1735668000000)
      = JSNum.fin 1735624800000 ∧
    mexicoCityRuntime.dateValue (getProp (scenarioClient (JSVal.str "500") (JSVal.str "5"))
        "vigenciaFin") = JSNum.fin 1735603200000 ∧
    (parseFloat (JSVal.num (JSNum.fin 400))).le (parseFloat (JSVal.str "500")) = true ∧
    (automationHandler mexicoCityRuntime scenarioEnv "En revisión"
      (scenarioWorld [("customfield_10051", JSVal.num (JSNum.fin 400))] none
        (scenarioClient (JSVal.str "500") (JSVal.str "5")) none 1735668000000)).trace
      = [Effect.transition "21"] ∧
    (automationHandler utcRuntime scenarioEnv "En revisión"
      (scenarioWorld [("customfield_10051", JSVal.num (JSNum.fin 400))] none
        (scenarioClient (JSVal.str "500") (JSVal.str "5")) none 1735668000000)).trace
      = [Effect.transition "11"] := by
  have hle : (parseFloat (JSVal.num (JSNum.fin 400))).le (parseFloat (JSVal.str "500"))
      = true := by
    simp [parseFloat, parseFloatChars, parseMagnitude, parseUnsignedDecimal, digitsValue,
      parseExponent, isStrWhiteSpace, JSNum.le]
    norm_num
  have hs : isoDateValue (JSVal.str "2024-01-01") = JSNum.fin 1704067200000 := by
    simp [isoDateValue, digitsValue, daysFromCivil]
  have he : isoDateValue (JSVal.str "2024-12-31") = JSNum.fin 1735603200000 := by
    simp [isoDateValue, digitsValue, daysFromCivil]
  have hhoy : hoy mexicoCityRuntime
      (scenarioWorld [("customfield_10051", JSVal.num (JSNum.fin 400))] none
        (scenarioClient (JSVal.str "500") (JSVal.str "5")) none 1735668000000)
      = JSNum.fin 1735624800000 := by
    simp [hoy, hoyMillis, mexicoCityRuntime, scenarioWorld]
  have hhoyUtc : hoy utcRuntime
      (scenarioWorld [("customfield_10051", JSVal.num (JSNum.fin 400))] none
        (scenarioClient (JSVal.str "500") (JSVal.str "5")) none 1735668000000)
      = JSNum.fin 1735603200000 := by
    simp [hoy, hoyMillis, utcRuntime, scenarioWorld]
  have hf : (scenarioWorld [("customfield_10051", JSVal.num (JSNum.fin 400))] none
      (scenarioClient (JSVal.str "500") (JSVal.str "5")) none 1735668000000).issue.fields
      = [("customfield_10051", JSVal.num (JSNum.fin 400))] := rfl
  have hcostv : parseFloat (getProp [("customfield_10051", JSVal.num (JSNum.fin 400))]
      scenarioEnv.COSTOE_FIELD_ID) = JSNum.fin 400 := by
    simp [scenarioEnv, getProp, parseFloat]
  refine ⟨?_, hhoy, ?_, hle, ?_, ?_⟩
  · simp [mexicoCityRuntime, daysFromCivil]
  · simp [scenarioClient, getProp, mexicoCityRuntime, he]
  · rw [automationHandler_decides mexicoCityRuntime scenarioEnv "En revisión"
      (scenarioWorld [("customfield_10051", JSVal.num (JSNum.fin 400))] none
        (scenarioClient (JSVal.str "500") (JSVal.str "5")) none 1735668000000)
      { id := JSVal.str "7", name := "Acme" } []
      ("cliente-1700000000000", scenarioClient (JSVal.str "500") (JSVal.str "5"))
      (by decide)
      (by simp [scenarioWorld, scenarioEnv, getProp, parseFloat, JSNum.truthy])
      (by simp [scenarioWorld])
      (scenario_find _ _ _ _ _ _ (by decide) (by simp [scenarioClient, getProp]))
      (by simp [scenarioClient, getProp]) (by simp [scenarioClient, getProp])]
    rw [hhoy, hf, hcostv]
    have hd : decision (JSNum.fin 1735624800000)
        (mexicoCityRuntime.dateValue (getProp ("cliente-1700000000000",
          scenarioClient (JSVal.str "500") (JSVal.str "5")).2 "vigenciaInicio"))
        (mexicoCityRuntime.dateValue (getProp ("cliente-1700000000000",
          scenarioClient (JSVal.str "500") (JSVal.str "5")).2 "vigenciaFin"))
        (JSNum.fin 400)
        (getProp ("cliente-1700000000000",
          scenarioClient (JSVal.str "500") (JSVal.str "5")).2 "presupuesto")
        = "Auto Rechazo" := by
      simp [scenarioClient, getProp, mexicoCityRuntime, hs, he, decision, JSNum.lt, JSNum.gt]
      norm_num
    rw [hd]
    simp [executeDecision, scenarioWorld, scenarioTransitions, World.emit, mexicoCityRuntime,
      upper_autoAprobacion, upper_autoRechazo, upper_aprobacionManual, List.find?_cons]
  · rw [automationHandler_decides utcRuntime scenarioEnv "En revisión"
      (scenarioWorld [("customfield_10051", JSVal.num (JSNum.fin 400))] none
        (scenarioClient (JSVal.str "500") (JSVal.str "5")) none 1735668000000)
      { id := JSVal.str "7", name := "Acme" } []
      ("cliente-1700000000000", scenarioClient (JSVal.str "500") (JSVal.str "5"))
      (by decide)
      (by simp [scenarioWorld, scenarioEnv, getProp, parseFloat, JSNum.truthy])
      (by simp [scenarioWorld])
      (scenario_find _ _ _ _ _ _ (by decide) (by simp [scenarioClient, getProp]))
      (by simp [scenarioClient, getProp]) (by simp [scenarioClient, getProp])]
    rw [hhoyUtc, hf, hcostv]
    have hd : decision (JSNum.fin 1735603200000)
        (utcRuntime.dateValue (getProp ("cliente-1700000000000",
          scenarioClient (JSVal.str "500") (JSVal.str "5")).2 "vigenciaInicio"))
        (utcRuntime.dateValue (getProp ("cliente-1700000000000",
          scenarioClient (JSVal.str "500") (JSVal.str "5")).2 "vigenciaFin"))
        (JSNum.fin 400)
        (getProp ("cliente-1700000000000",
          scenarioClient (JSVal.str "500") (JSVal.str "5")).2 "presupuesto")
        = "Auto Aprobación" := by
      simp [scenarioClient, getProp, utcRuntime, hs, he, decision, JSNum.lt, JSNum.gt, hle]
      norm_num
    rw [hd]
    simp [executeDecision, scenarioWorld, scenarioTransitions, World.emit, utcRuntime,
      upper_autoAprobacion, upper_autoRechazo, upper_aprobacionManual, List.find?_cons]

/-! ## Transition selection -/

theorem find?_first {α : Type} (p : α → Bool) (pre : List α) (t : α) (post : List α)
    (hpre : ∀ x ∈ pre, p x = false) (ht : p t = true) :
    (pre ++ t :: post).find? p = some t := by
  induction pre with
  | nil => simp [List.find?_cons, ht]
  | cons a tail ih =>
    have ha : p a = false := hpre a (List.mem_cons_self a tail)
    have htail : ∀ x ∈ tail, p x = false := fun x hx => hpre x (List.mem_cons_of_mem a hx)
    simp [List.find?_cons, ha, ih htail]

/-- C15: the transition for a decision is the first one whose upper-cased name
equals the upper-cased decision name.  When every precondition holds,
`automationHandler` posts that transition; when no transition has a matching
name it posts none for the decision and calls `moveToManualApproval`, which
picks the first transition whose upper-cased name is APROBACIÓN MANUAL in the
same way and posts nothing when there is none. -/
theorem automationHandler_transition_selection (rt : Runtime) (env : Env)
    (statusName : String) (w : World) (organization : Organization)
    (rest : List Organization) (cliente : String × JSObj) (d : String)
    (hstatus : rt.toUpperCase statusName = "EN REVISIÓN")
    (hcost : (parseFloat (getProp w.issue.fields env.COSTOE_FIELD_ID)).truthy = true)
    (horg : w.issue.organizations = some (organization :: rest))
    (hcli : (kvsQuery w.store 100).find? (matchesOrganization organization) = some cliente)
    (hnull : getProp cliente.2 "presupuesto" ≠ JSVal.null)
    (hundef : getProp cliente.2 "presupuesto" ≠ JSVal.undefined)
    (hd : d = decision (hoy rt w) (rt.dateValue (getProp cliente.2 "vigenciaInicio"))
      (rt.dateValue (getProp cliente.2 "vigenciaFin"))
      (parseFloat (getProp w.issue.fields env.COSTOE_FIELD_ID))
      (getProp cliente.2 "presupuesto")) :
    (d = "Auto Aprobación" ∨ d = "Auto Rechazo") ∧
    (∀ (pre : List Transition) (t : Transition) (post : List Transition),
      w.transitions = pre ++ t :: post →
      (∀ x ∈ pre, rt.toUpperCase x.name ≠ rt.toUpperCase d) →
      rt.toUpperCase t.name = rt.toUpperCase d →
      automationHandler rt env statusName w = w.emit (Effect.transition t.id)) ∧
    ((∀ x ∈ w.transitions, rt.toUpperCase x.name ≠ rt.toUpperCase d) →
      automationHandler rt env statusName w =
        moveToManualApproval rt w (reasonNoTransition d)) ∧
    (∀ (reason : String) (pre : List Transition) (t : Transition) (post : List Transition),
      w.transitions = pre ++ t :: post →
      (∀ x ∈ pre, rt.toUpperCase x.name ≠ "APROBACIÓN MANUAL") →
      rt.toUpperCase t.name = "APROBACIÓN MANUAL" →
      moveToManualApproval rt w reason =
        (w.emit (Effect.manualApproval reason)).emit (Effect.transition t.id)) ∧
    (∀ reason : String,
      (∀ x ∈ w.transitions, rt.toUpperCase x.name ≠ "APROBACIÓN MANUAL") →
      moveToManualApproval rt w reason = w.emit (Effect.manualApproval reason)) := by
  have hrun : automationHandler rt env statusName w = executeDecision rt w d := by
    rw [hd]
    exact automationHandler_decides rt env statusName w organization rest cliente hstatus hcost
      horg hcli hnull hundef
  refine ⟨?_, ?_, ?_, ?_, ?_⟩
  · rw [hd]
    unfold decision
    split
    · exact Or.inr rfl
    · split
      · exact Or.inl rfl
      · exact Or.inr rfl
  · intro pre t post hw hpre ht
    have hfind : w.transitions.find?
        (fun t => decide (rt.toUpperCase t.name = rt.toUpperCase d)) = some t := by
      rw [hw]
      exact find?_first _ pre t post (fun x hx => by simpa using hpre x hx) (by simpa using ht)
    rw [hrun]
    simp [executeDecision, hfind]
  · intro hnone
    have hfind : w.transitions.find?
        (fun t => decide (rt.toUpperCase t.name = rt.toUpperCase d)) = none := by
      rw [List.find?_eq_none]
      intro x hx
      simpa using hnone x hx
    rw [hrun]
    simp [executeDecision, hfind]
  · intro reason pre t post hw hpre ht
    have hfind : w.transitions.find?
        (fun t => decide (rt.toUpperCase t.name = "APROBACIÓN MANUAL")) = some t := by
      rw [hw]
      exact find?_first _ pre t post (fun x hx => by simpa using hpre x hx) (by simpa using ht)
    simp [moveToManualApproval, World.emit, hfind]
  · intro reason hnone
    have hfind : w.transitions.find?
        (fun t => decide (rt.toUpperCase t.name = "APROBACIÓN MANUAL")) = none := by
      rw [List.find?_eq_none]
      intro x hx
      simpa using hnone x hx
    simp [moveToManualApproval, World.emit, hfind]

theorem scenario_decision (costo : ℚ) :
    decision (JSNum.fin ((1717200000000 : ℤ) : ℚ)) (isoDateValue (JSVal.str "2024-01-01"))
        (isoDateValue (JSVal.str "2024-12-31")) (JSNum.fin costo) (JSVal.str "500") =
      if costo ≤ 500 then "Auto Aprobación" else "Auto Rechazo" := by
  have hb : parseFloat (JSVal.str "500") = JSNum.fin 500 := by
    simp [parseFloat, parseFloatChars, parseMagnitude, parseUnsignedDecimal, digitsValue,
      parseExponent, isStrWhiteSpace]
  have hs : isoDateValue (JSVal.str "2024-01-01") = JSNum.fin 1704067200000 := by
    simp [isoDateValue, digitsValue, daysFromCivil]
  have he : isoDateValue (JSVal.str "2024-12-31") = JSNum.fin 1735603200000 := by
    simp [isoDateValue, digitsValue, daysFromCivil]
  rw [hs, he]
  simp only [decision, parseFloat_num, hb, JSNum.lt, JSNum.gt, JSNum.le]
  norm_num

/-- C15, scenarios: with transitions named "auto RECHAZO" and "Auto Rechazo" the
first one is posted for a rejection; with no transition for an approval the
ticket goes to manual approval through the transition named
"aprobación MANUAL". -/
theorem automationHandler_transition_selection_witness :
    (automationHandler utcRuntime scenarioEnv "En revisión"
      { scenarioWorld [("customfield_10051", JSVal.num (JSNum.fin 600))] none
          (scenarioClient (JSVal.str "500") (JSVal.str "5")) none 1717236000000 with
        transitions := [{ id := "5", name := "auto RECHAZO" },
          { id := "21", name := "Auto Rechazo" }, { id := "31", name := "Aprobación manual" }] }).trace = [Effect.transition "5"] ∧
    (automationHandler utcRuntime scenarioEnv "En revisión"
      { scenarioWorld [("customfield_10051", JSVal.num (JSNum.fin 400))] none
          (scenarioClient (JSVal.str "500") (JSVal.str "5")) none 1717236000000 with
        transitions := [{ id := "21", name := "Auto Rechazo" },
          { id := "31", name := "aprobación MANUAL" }] }).trace =
      [Effect.manualApproval (reasonNoTransition "Auto Aprobación"), Effect.transition "31"] := by
  have hu1 : latin1UpperCase "auto RECHAZO" = "AUTO RECHAZO" := by decide
  have hu2 : latin1UpperCase "aprobación MANUAL" = "APROBACIÓN MANUAL" := by decide
  constructor
  · have h := (automationHandler_transition_selection utcRuntime scenarioEnv "En revisión"
      { scenarioWorld [("customfield_10051", JSVal.num (JSNum.fin 600))] none
          (scenarioClient (JSVal.str "500") (JSVal.str "5")) none 1717236000000 with
        transitions := [{ id := "5", name := "auto RECHAZO" },
          { id := "21", name := "Auto Rechazo" }, { id := "31", name := "Aprobación manual" }] }
      { id := JSVal.str "7", name := "Acme" } []
      ("cliente-1700000000000", scenarioClient (JSVal.str "500") (JSVal.str "5"))
      "Auto Rechazo"
      (by decide)
      (by simp [scenarioWorld, scenarioEnv, getProp, parseFloat, JSNum.truthy])
      (by simp [scenarioWorld])
      (scenario_find [("customfield_10051", JSVal.num (JSNum.fin 600))] none
        (scenarioClient (JSVal.str "500") (JSVal.str "5")) none 1717236000000 100 (by decide)
        (by simp [scenarioClient, getProp]))
      (by simp [scenarioClient, getProp]) (by simp [scenarioClient, getProp])
      (by
        have hd := scenario_decision 600
        norm_num at hd
        rw [← hd]
        simp [hoy, hoyMillis, scenarioWorld, scenarioEnv, utcRuntime, scenarioClient, getProp,
          parseFloat_num])).2.1
      [] { id := "5", name := "auto RECHAZO" }
      [{ id := "21", name := "Auto Rechazo" }, { id := "31", name := "Aprobación manual" }]
      rfl (by simp) (by simp [utcRuntime, hu1, upper_autoRechazo])
    rw [h]
    simp [World.emit, scenarioWorld]
  · have h := (automationHandler_transition_selection utcRuntime scenarioEnv "En revisión"
      { scenarioWorld [("customfield_10051", JSVal.num (JSNum.fin 400))] none
          (scenarioClient (JSVal.str "500") (JSVal.str "5")) none 1717236000000 with
        transitions := [{ id := "21", name := "Auto Rechazo" },
          { id := "31", name := "aprobación MANUAL" }] }
      { id := JSVal.str "7", name := "Acme" } []
      ("cliente-1700000000000", scenarioClient (JSVal.str "500") (JSVal.str "5"))
      "Auto Aprobación"
      (by decide)
      (by simp [scenarioWorld, scenarioEnv, getProp, parseFloat, JSNum.truthy])
      (by simp [scenarioWorld])
      (scenario_find [("customfield_10051", JSVal.num (JSNum.fin 400))] none
        (scenarioClient (JSVal.str "500") (JSVal.str "5")) none 1717236000000 100 (by decide)
        (by simp [scenarioClient, getProp]))
      (by simp [scenarioClient, getProp]) (by simp [scenarioClient, getProp])
      (by
        have hd := scenario_decision 400
        norm_num at hd
        rw [← hd]
        simp [hoy, hoyMillis, scenarioWorld, scenarioEnv, utcRuntime, scenarioClient, getProp,
          parseFloat_num]))
    rw [h.2.2.1 (by
      intro x hx
      simp at hx
      rcases hx with hx | hx <;> subst hx <;>
        simp [utcRuntime, upper_autoRechazo, upper_autoAprobacion, hu2])]
    rw [h.2.2.2.1 (reasonNoTransition "Auto Aprobación") [{ id := "21", name := "Auto Rechazo" }]
      { id := "31", name := "aprobación MANUAL" } [] rfl
      (by
        intro x hx
        simp at hx
        subst hx
        simp [utcRuntime, upper_autoRechazo])
      (by simp [utcRuntime, hu2])]
    simp [World.emit, scenarioWorld]

/-! ## A budget that is not a number -/

theorem parseFloat_empty : parseFloat (JSVal.str "") = JSNum.nan := by
  simp [parseFloat, parseFloatChars, parseMagnitude, parseUnsignedDecimal]

theorem clienteData_presupuesto (oldData : JSObj) (name : String) (payload : JSObj) :
    getProp (clienteData oldData name payload) "presupuesto" = getProp payload "presupuesto" := by
  simp only [clienteData, List.foldl]
  rw [getProp_setProp_other _ _ _ _ (by decide), getProp_setProp_other _ _ _ _ (by decide),
    getProp_setProp_same]

theorem scenarioSavedWorld_store (fields : JSObj) (now : ℤ) :
    (scenarioSavedWorld fields now).store = [("cliente-1700000000000",
      [("organizationId", JSVal.str "7"), ("name", JSVal.str "Acme"),
        ("tipoServicio", JSVal.str ""), ("vigenciaInicio", JSVal.str "2024-01-01"),
        ("vigenciaFin", JSVal.str "2024-12-31"), ("presupuesto", JSVal.str ""),
        ("requestTypePermissions", JSVal.obj "mode all, no restricted identifiers"),
        ("slaPenaltyPercentage", JSVal.str "")])] := by
  show (saveCustomer _ _ _).store = _
  decide

theorem moveToManualApproval_trace_head (rt : Runtime) (w : World) (reason : String) :
    ∃ tail, (moveToManualApproval rt w reason).trace
      = w.trace ++ Effect.manualApproval reason :: tail := by
  rcases moveToManualApproval_trace rt w reason with h | ⟨t, _, _, h⟩
  · exact ⟨[], h⟩
  · exact ⟨[Effect.transition t.id], h⟩

theorem reasonNoTransition_ne_reasonNoBudget (decision : String) (organization : Organization) :
    reasonNoTransition decision ≠ reasonNoBudget organization := by
  intro h
  have h2 := congrArg String.data h
  simp [reasonNoTransition, reasonNoBudget, String.data_append] at h2

/-- C16: in `automationHandler`, when the matching client has a budget that is
neither null nor undefined but does not parse to a number, every resolvable
estimated cost on a day inside the validity window is decided as Auto Rechazo
and handled as such, not moved to manual approval for a missing budget.  The
empty string is such a budget: the customer form starts with it and the save
action stores the payload value as it is. -/
theorem automationHandler_unparseable_budget (rt : Runtime) (env : Env) (statusName : String)
    (w : World) (organization : Organization) (rest : List Organization)
    (cliente : String × JSObj)
    (hstatus : rt.toUpperCase statusName = "EN REVISIÓN")
    (hcost : (parseFloat (getProp w.issue.fields env.COSTOE_FIELD_ID)).truthy = true)
    (horg : w.issue.organizations = some (organization :: rest))
    (hcli : (kvsQuery w.store 100).find? (matchesOrganization organization) = some cliente)
    (hnull : getProp cliente.2 "presupuesto" ≠ JSVal.null)
    (hundef : getProp cliente.2 "presupuesto" ≠ JSVal.undefined)
    (hnan : parseFloat (getProp cliente.2 "presupuesto") = JSNum.nan)
    (hwin : (hoy rt w).lt (rt.dateValue (getProp cliente.2 "vigenciaInicio")) = false ∧
      (hoy rt w).gt (rt.dateValue (getProp cliente.2 "vigenciaFin")) = false) :
    decision (hoy rt w) (rt.dateValue (getProp cliente.2 "vigenciaInicio"))
        (rt.dateValue (getProp cliente.2 "vigenciaFin"))
        (parseFloat (getProp w.issue.fields env.COSTOE_FIELD_ID))
        (getProp cliente.2 "presupuesto") = "Auto Rechazo" ∧
    automationHandler rt env statusName w = executeDecision rt w "Auto Rechazo" ∧
    (∀ t : Transition,
      w.transitions.find?
        (fun t => decide (rt.toUpperCase t.name = rt.toUpperCase "Auto Rechazo")) = some t →
      automationHandler rt env statusName w = w.emit (Effect.transition t.id)) ∧
    automationHandler rt env statusName w ≠
      moveToManualApproval rt w (reasonNoBudget organization) ∧
    parseFloat (JSVal.str "") = JSNum.nan ∧
    getProp INITIAL_FORM_STATE "presupuesto" = JSVal.str "" ∧
    (∀ (oldData : JSObj) (name : String) (payload : JSObj),
      getProp (clienteData oldData name payload) "presupuesto"
        = getProp payload "presupuesto") := by
  have hle : ∀ n : JSNum, n.le JSNum.nan = false := by
    intro n
    cases n <;> rfl
  have hd : decision (hoy rt w) (rt.dateValue (getProp cliente.2 "vigenciaInicio"))
      (rt.dateValue (getProp cliente.2 "vigenciaFin"))
      (parseFloat (getProp w.issue.fields env.COSTOE_FIELD_ID))
      (getProp cliente.2 "presupuesto") = "Auto Rechazo" := by
    simp [decision, hwin.1, hwin.2, hnan, hle]
  have hrun : automationHandler rt env statusName w = executeDecision rt w "Auto Rechazo" := by
    rw [automationHandler_decides rt env statusName w organization rest cliente hstatus hcost
      horg hcli hnull hundef, hd]
  refine ⟨hd, hrun, ?_, ?_, parseFloat_empty, rfl, clienteData_presupuesto⟩
  · intro t ht
    rw [hrun]
    simp [executeDecision, ht]
  · rw [hrun]
    intro heq
    have htr := congrArg World.trace heq
    obtain ⟨tail, htail⟩ := moveToManualApproval_trace_head rt w (reasonNoBudget organization)
    rw [htail] at htr
    cases hfind : w.transitions.find?
        (fun t => decide (rt.toUpperCase t.name = rt.toUpperCase "Auto Rechazo")) with
    | some t =>
      simp [executeDecision, hfind, World.emit] at htr
    | none =>
      obtain ⟨tail2, htail2⟩ := moveToManualApproval_trace_head rt w
        (reasonNoTransition "Auto Rechazo")
      simp only [executeDecision, hfind] at htr
      rw [htail2] at htr
      have h2 := List.append_cancel_left htr
      simp at h2
      exact reasonNoTransition_ne_reasonNoBudget _ _ h2.1

/-- C16, scenario: a client saved from the form with the budget input left
empty, contract valid all of 2024; on 2024-06-01 a ticket with an estimated
cost of 400 is rejected automatically. -/
theorem automationHandler_unparseable_budget_witness :
    (automationHandler utcRuntime scenarioEnv "En revisión"
        (scenarioSavedWorld [("customfield_10051", JSVal.num (JSNum.fin 400))]
          1717236000000)).trace = [Effect.transition "21"] := by
  have hstore := scenarioSavedWorld_store [("customfield_10051", JSVal.num (JSNum.fin 400))]
    1717236000000
  have hs : isoDateValue (JSVal.str "2024-01-01") = JSNum.fin 1704067200000 := by
    simp [isoDateValue, digitsValue, daysFromCivil]
  have he : isoDateValue (JSVal.str "2024-12-31") = JSNum.fin 1735603200000 := by
    simp [isoDateValue, digitsValue, daysFromCivil]
  have h := (automationHandler_unparseable_budget utcRuntime scenarioEnv "En revisión"
    (scenarioSavedWorld [("customfield_10051", JSVal.num (JSNum.fin 400))] 1717236000000)
    { id := JSVal.str "7", name := "Acme" } []
    ("cliente-1700000000000",
      [("organizationId", JSVal.str "7"), ("name", JSVal.str "Acme"),
        ("tipoServicio", JSVal.str ""), ("vigenciaInicio", JSVal.str "2024-01-01"),
        ("vigenciaFin", JSVal.str "2024-12-31"), ("presupuesto", JSVal.str ""),
        ("requestTypePermissions", JSVal.obj "mode all, no restricted identifiers"),
        ("slaPenaltyPercentage", JSVal.str "")])
    (by decide)
    (by simp [scenarioSavedWorld, scenarioEnv, getProp, parseFloat, JSNum.truthy])
    (by simp [scenarioSavedWorld])
    (by
      rw [hstore]
      have hp : "cliente-".toList.isPrefixOf "cliente-1700000000000".toList = true := by decide
      simp [kvsQuery, hp, matchesOrganization, getProp, JSVal.strictEq])
    (by simp [getProp]) (by simp [getProp])
    (by simp [getProp, parseFloat_empty])
    (by
      constructor
      · simp [getProp, utcRuntime, hs, hoy, hoyMillis, scenarioSavedWorld, JSNum.lt]
        norm_num
      · simp [getProp, utcRuntime, he, hoy, hoyMillis, scenarioSavedWorld, JSNum.gt,
          JSNum.lt]
        norm_num)).2.1
  rw [h]
  simp [executeDecision, scenarioSavedWorld, scenarioTransitions, World.emit, utcRuntime,
    upper_autoAprobacion, upper_autoRechazo, upper_aprobacionManual, List.find?_cons]

end Forge
